import Mathlib

/-! # i386 real-time clock (`osfmk/i386/rtclock.c`)

A shallow embedding of the machine-dependent real-time clock of the kernel:
calibration constants, the cycle-counter to nanosecond conversions, the per-CPU
nanotime record, and the tick/timer interrupt dispatcher.

Machine integers are natural numbers reduced explicitly modulo `2^32` or
`2^64`.  Code that can raise a hardware divide error (`divl` with a zero
divisor or a quotient wider than 32 bits, `/` by zero) or call through a null
function pointer returns `Option`, with `none` standing for the trap.
-/

namespace Rtclock

/-! ## Machine words -/

/-- Truncation to an unsigned 32-bit word. -/
def u32 (n : Nat) : Nat := n % 2 ^ 32

/-- Truncation to an unsigned 64-bit word. -/
def u64 (n : Nat) : Nat := n % 2 ^ 64

/-- Unsigned 64-bit subtraction: `a - b` on `uint64_t` operands. -/
def sub64 (a b : Nat) : Nat := (a + (2 ^ 64 - b % 2 ^ 64)) % 2 ^ 64

/-- The macro `MAX(a,b) (((a)>(b))?(a):(b))`. -/
def MAX (a b : Nat) : Nat := if a > b then a else b

/-- The macro `MIN(a,b) (((a)>(b))?(b):(a))`. -/
def MIN (a b : Nat) : Nat := if a > b then b else a

/-! ## Constants -/

def NSEC_PER_SEC : Nat := 1000000000

def NSEC_PER_USEC : Nat := 1000

/-- The macro `NSEC_PER_HZ`: nanoseconds per tick, `NSEC_PER_SEC / 100`. -/
def NSEC_PER_HZ : Nat := NSEC_PER_SEC / 100

def UI_CPUFREQ_ROUNDING_FACTOR : Nat := 10000000

def RTC_FAST_DENOM : Nat := 0xFFFFFFFF

def UINT_MAX : Nat := 0xFFFFFFFF

def DECREMENTER_MAX : Nat := UINT_MAX

/-! ## Data model -/

/-- The type `mach_timespec_t`: unsigned seconds and signed (`clock_res_t`) nanoseconds. -/
structure mach_timespec_t where
  tv_sec : Nat
  tv_nsec : Int
  deriving DecidableEq, Repr

/-- The type `mach_timebase_info_data_t`: two 32-bit words. -/
structure mach_timebase_info_data_t where
  numer : Nat
  denom : Nat
  deriving DecidableEq, Repr

/-- The anonymous global `struct { ... } rtclock` (its lock left out). -/
structure rtclock_t where
  calend_offset : mach_timespec_t
  calend_is_set : Bool
  calend_adjtotal : Int
  calend_adjdelta : Int
  boottime : Nat
  timebase_const : mach_timebase_info_data_t
  deriving DecidableEq, Repr

/-- The per-CPU nanotime record `rtc_nanotime_t`. -/
structure rtc_nanotime_t where
  rnt_tsc : Nat
  rnt_nanos : Nat
  rnt_scale : Nat
  rnt_shift : Nat
  rnt_step_tsc : Nat
  rnt_step_nanos : Nat
  deriving DecidableEq, Repr

/-- The per-CPU one-shot timer `rtclock_timer_t`. -/
structure rtclock_timer_t where
  deadline : Nat
  is_set : Bool
  has_expired : Bool
  deriving DecidableEq, Repr

/-- The tuple exported to user space by `commpage_set_nanotime`. -/
structure commpage_nanotime_t where
  nt_base_tsc : Nat
  nt_base_ns : Nat
  nt_scale : Nat
  nt_shift : Nat
  deriving DecidableEq, Repr

/-- The fields of `gPEClockFrequencyInfo` written by this file. -/
structure clock_frequency_info_t where
  cpu_clock_rate_hz : Nat
  cpu_frequency_hz : Nat
  cpu_frequency_min_hz : Nat
  cpu_frequency_max_hz : Nat
  deriving DecidableEq, Repr

/-- The fields of `cpu_data_t` used by the clock, for the executing processor. -/
structure cpu_data_t where
  cpu_rtc_nanotime : rtc_nanotime_t
  cpu_rtc_tick_deadline : Nat
  cpu_rtc_intr_deadline : Nat
  cpu_rtc_timer : rtclock_timer_t
  deriving DecidableEq, Repr

/-- The globals of `rtclock.c` together with the executing processor's data.
`rtclock_timer_expire` is a function pointer (`none` is `NULL`); `is_master`
is `cpu_number() == master_cpu`; `commpage` is the last tuple handed to
`commpage_set_nanotime`. -/
structure rtclock_state where
  rtclock : rtclock_t
  rtclock_timer_expire : Option Nat
  rtc_initialized : Bool
  rtc_intr_nsec : Nat
  rtc_cycle_count : Nat
  rtc_cyc_per_sec : Nat
  rtc_boot_frequency : Nat
  rtc_quant_scale : Nat
  rtc_quant_shift : Nat
  rtc_decrementer_min : Nat
  rtc_lapic_scale : mach_timebase_info_data_t
  gPEClockFrequencyInfo : clock_frequency_info_t
  cpu : cpu_data_t
  is_master : Bool
  commpage : commpage_nanotime_t
  deriving DecidableEq, Repr

/-- The zero-initialised globals at boot (`rtc_intr_nsec` starts at `NSEC_PER_HZ`). -/
def boot_state : rtclock_state where
  rtclock := ⟨⟨0, 0⟩, false, 0, 0, 0, ⟨0, 0⟩⟩
  rtclock_timer_expire := none
  rtc_initialized := false
  rtc_intr_nsec := NSEC_PER_HZ
  rtc_cycle_count := 0
  rtc_cyc_per_sec := 0
  rtc_boot_frequency := 0
  rtc_quant_scale := 0
  rtc_quant_shift := 0
  rtc_decrementer_min := 0
  rtc_lapic_scale := ⟨0, 0⟩
  gPEClockFrequencyInfo := ⟨0, 0, 0, 0⟩
  cpu := ⟨⟨0, 0, 0, 0, 0, 0⟩, 0, 0, ⟨0, false, false⟩⟩
  is_master := true
  commpage := ⟨0, 0, 0, 0⟩

/-! ## Conversion arithmetic (the inline assembly, register by register) -/

/-- The instruction `mull %ecx`: `edx:eax := eax * ecx`; returns `(edx, eax)`. -/
def mull (eax ecx : Nat) : Nat × Nat :=
  ((eax * ecx) / 2 ^ 32, (eax * ecx) % 2 ^ 32)

/-- The instruction `divl %ecx`: divides `edx:eax` by `ecx`, giving
`(eax, edx) = (quotient, remainder)`; a zero divisor or a quotient that does
not fit in 32 bits raises a divide error. -/
def divl (edx eax ecx : Nat) : Option (Nat × Nat) :=
  if ecx = 0 then none
  else if (edx * 2 ^ 32 + eax) / ecx < 2 ^ 32 then
    some ((edx * 2 ^ 32 + eax) / ecx, (edx * 2 ^ 32 + eax) % ecx)
  else none

/-- The function `create_mul_quant_GHZ(shift, quant)`:
`(uint32_t)((((uint64_t)NSEC_PER_SEC/20) << shift) / quant)`. -/
def create_mul_quant_GHZ (shift quant : Nat) : Option Nat :=
  if quant = 0 then none
  else some (u32 (u64 ((NSEC_PER_SEC / 20) * 2 ^ shift) / quant))

/-- The function `fast_get_nano_from_abs(value, scale)`: `edx:eax = value`, `ecx = scale`. -/
def fast_get_nano_from_abs (value scale : Nat) : Nat :=
  let eax := u32 value
  let edx := u32 (value / 2 ^ 32)
  let ecx := u32 scale
  let esi := edx                      -- movl %edx,%esi
  let p1 := mull eax ecx              -- mull %ecx
  let edi := p1.1                     -- movl %edx,%edi
  let p2 := mull esi ecx              -- movl %esi,%eax ; mull %ecx
  let sum := p2.2 + edi               -- xorl %ecx,%ecx ; addl %edi,%eax
  let eax := u32 sum
  let cf := sum / 2 ^ 32
  let edx := u32 (p2.1 + 0 + cf)      -- adcl %ecx,%edx
  edx * 2 ^ 32 + eax

/-- The function `longmul(abstime, multiplicand, result)`: the three result words,
least significant first. -/
def longmul (abstime multiplicand : Nat) : Nat × Nat × Nat :=
  let lo := u32 abstime
  let hi := u32 (abstime / 2 ^ 32)
  let ecx := u32 multiplicand
  let p1 := mull lo ecx               -- movl (%eax),%eax ; mull %ecx
  let r0 := p1.2                      -- xchg %eax,%ebx ... movl %ebx,(%ecx)
  let saved := p1.1                   -- pushl %edx
  let p2 := mull hi ecx               -- movl 4(%eax),%eax ; mull %ecx
  let sum := p2.2 + saved             -- popl %ebx ; addl %ebx,%eax
  let r1 := u32 sum                   -- movl %eax,4(%ecx)
  let cf := sum / 2 ^ 32
  let r2 := u32 (p2.1 + 0 + cf)       -- adcl $0,%edx ; movl %edx,8(%ecx)
  (r0, r1, r2)

/-- The function `longdiv(numer, denom)`: two chained `divl`, high words first. -/
def longdiv (numer : Nat × Nat × Nat) (denom : Nat) : Option Nat := do
  let ecx := u32 denom
  let q1 ← divl numer.2.2 numer.2.1 ecx   -- movl 8(%eax),%edx ; movl 4(%eax),%eax ; divl %ecx
  let ebx := q1.1                         -- xchg %ebx,%eax
  let q0 ← divl q1.2 numer.1 ecx          -- movl (%eax),%eax ; divl %ecx
  pure (ebx * 2 ^ 32 + q0.1)              -- xchg %ebx,%edx

/-- The function `tsc_to_nanoseconds(abstime)`. -/
def tsc_to_nanoseconds (s : rtclock_state) (abstime : Nat) : Option Nat :=
  let numer := s.rtclock.timebase_const.numer
  let denom := s.rtclock.timebase_const.denom
  if denom = RTC_FAST_DENOM then
    some (fast_get_nano_from_abs abstime numer)
  else
    longdiv (longmul abstime numer) denom

/-- The function `rtc_set_cyc_per_sec(cycles)`: installs the conversion constants and
returns the rounded cycles per second. -/
def rtc_set_cyc_per_sec (s : rtclock_state) (cycles : Nat) : Option (rtclock_state × Nat) :=
  (if cycles > NSEC_PER_SEC / 20 then
      (create_mul_quant_GHZ 32 (u32 cycles)).bind fun scale =>
        some { s with
          rtc_quant_shift := 32
          rtc_quant_scale := scale
          rtclock := { s.rtclock with timebase_const := ⟨scale, RTC_FAST_DENOM⟩ } }
    else
      (create_mul_quant_GHZ 26 (u32 cycles)).bind fun scale =>
        some { s with
          rtc_quant_shift := 26
          rtc_quant_scale := scale
          rtclock := { s.rtclock with
            timebase_const := ⟨u32 (NSEC_PER_SEC / 20), u32 cycles⟩ } }).bind fun s1 =>
  let cyc_per_sec := u64 (cycles * 20)
  let rounded :=
    u64 (u64 (cyc_per_sec + UI_CPUFREQ_ROUNDING_FACTOR / 2) / UI_CPUFREQ_ROUNDING_FACTOR
      * UI_CPUFREQ_ROUNDING_FACTOR)
  let rate := if rounded ≥ 0x100000000 then 0xFFFFFFFF else u32 rounded
  some ({ s1 with
      rtc_cyc_per_sec := cyc_per_sec
      gPEClockFrequencyInfo :=
        { s1.gPEClockFrequencyInfo with cpu_clock_rate_hz := rate, cpu_frequency_hz := rounded } },
    rounded)

/-! ## The nanotime record -/

/-- The operator `>>` on a 64-bit word; C leaves a shift count of 64 or more
undefined, which is `none` here. -/
def shr64 (x n : Nat) : Option Nat :=
  if n < 64 then some (x / 2 ^ n) else none

/-- The function `rtc_nanotime_set_commpage(rntp)`: only the master cpu updates the commpage. -/
def rtc_nanotime_set_commpage (s : rtclock_state) (rntp : rtc_nanotime_t) : rtclock_state :=
  if ¬ s.is_master then s
  else { s with commpage := ⟨rntp.rnt_tsc, rntp.rnt_nanos, rntp.rnt_scale, rntp.rnt_shift⟩ }

/-- The function `rtc_nanotime_init()`; `tsc` is the value of `rdtsc64()` and
`master_rntp` the master processor's record (copied by the other processors). -/
def rtc_nanotime_init (s : rtclock_state) (tsc : Nat) (master_rntp : rtc_nanotime_t) :
    Option rtclock_state :=
  if s.is_master then do
    let nanos ← tsc_to_nanoseconds s tsc
    pure { s with cpu := { s.cpu with cpu_rtc_nanotime :=
      { rnt_tsc := tsc
        rnt_nanos := nanos
        rnt_scale := s.rtc_quant_scale
        rnt_shift := s.rtc_quant_shift
        rnt_step_tsc := 0
        rnt_step_nanos := 0 } } }
  else
    some { s with cpu := { s.cpu with cpu_rtc_nanotime := master_rntp } }

/-- The function `_rtc_nanotime_update(rntp, tsc)`, on the executing processor's record. -/
def _rtc_nanotime_update (s : rtclock_state) (tsc : Nat) : Option rtclock_state := do
  let rntp := s.cpu.cpu_rtc_nanotime
  let tsc_delta := sub64 tsc rntp.rnt_step_tsc
  let ns_delta ← tsc_to_nanoseconds s tsc_delta
  pure { s with cpu := { s.cpu with cpu_rtc_nanotime :=
    { rntp with rnt_nanos := u64 (rntp.rnt_step_nanos + ns_delta), rnt_tsc := tsc } } }

/-- The function `rtc_nanotime_update()`; `tsc` is the value of `rdtsc64()`. -/
def rtc_nanotime_update (s : rtclock_state) (tsc : Nat) : Option rtclock_state := do
  let s1 ← _rtc_nanotime_update s tsc
  pure (rtc_nanotime_set_commpage s1 s1.cpu.cpu_rtc_nanotime)

/-- The function `rtc_nanotime_scale_update()`; `tsc` is the value of `rdtsc64()`. -/
def rtc_nanotime_scale_update (s : rtclock_state) (tsc : Nat) : Option rtclock_state := do
  let s1 ← _rtc_nanotime_update s tsc
  let rntp := s1.cpu.cpu_rtc_nanotime
  let rntp1 := { rntp with
    rnt_scale := s1.rtc_quant_scale
    rnt_shift := s1.rtc_quant_shift
    rnt_step_tsc := rntp.rnt_tsc
    rnt_step_nanos := rntp.rnt_nanos }
  let s2 := { s1 with cpu := { s1.cpu with cpu_rtc_nanotime := rntp1 } }
  pure (rtc_nanotime_set_commpage s2 rntp1)

/-- The function `_rtc_nanotime_read()`; `tsc` is the value of `rdtsc64()`. -/
def _rtc_nanotime_read (s : rtclock_state) (tsc : Nat) : Option Nat :=
  let rntp := s.cpu.cpu_rtc_nanotime
  let rnt_scale := rntp.rnt_scale
  if rnt_scale = 0 then some 0
  else
    let rnt_shift := rntp.rnt_shift
    let rnt_nanos := rntp.rnt_nanos
    let rnt_tsc := rntp.rnt_tsc
    let tsc_delta := sub64 tsc rnt_tsc
    if tsc_delta / 2 ^ 32 ≠ 0 then
      (tsc_to_nanoseconds s tsc_delta).map fun ns => u64 (rnt_nanos + ns)
    else if rnt_shift = 32 then
      some (u64 (rnt_nanos + u64 (tsc_delta * rnt_scale) / 2 ^ 32))
    else
      (shr64 (u64 (tsc_delta * rnt_scale)) rnt_shift).map fun v => u64 (rnt_nanos + v)

/-- The function `rtc_nanotime_read()`.  The record is written only by its own
processor, so with no interrupt taken during the read `rnt_tsc` is unchanged
and the retry loop body runs once. -/
def rtc_nanotime_read (s : rtclock_state) (tsc : Nat) : Option Nat :=
  _rtc_nanotime_read s tsc

/-- The function `mach_absolute_time()`. -/
def mach_absolute_time (s : rtclock_state) (tsc : Nat) : Option Nat :=
  rtc_nanotime_read s tsc

/-! ## The countdown timer -/

/-- What the clock does to its surroundings, in order. -/
inductive rtc_event where
  /-- The call `lapic_set_timer(interrupt, one_shot, divide_by_1, initial_count)`. -/
  | lapic_set_timer (interrupt : Bool) (initial_count : Nat)
  /-- The call `hertz_tick(usermode, pc)`. -/
  | hertz_tick (usermode : Bool) (pc : Nat)
  /-- The call `(*rtclock_timer_expire)(abstime)`, with the timer as the callee finds it. -/
  | timer_expire (func : Nat) (abstime : Nat) (timer : rtclock_timer_t)
  /-- The trace point `KERNEL_DEBUG_CONSTANT(MACHDBG_CODE(DBG_MACH_EXCP_DECI, sub), a, b, 0, 0, 0)`. -/
  | kernel_debug (sub : Nat) (a b : Nat)
  /-- The call `bbc_settime(&new_time)`. -/
  | bbc_settime (new_time : mach_timespec_t)
  /-- The call `host_notify_calendar_change()`. -/
  | host_notify_calendar_change
  deriving DecidableEq, Repr

/-- The function `deadline_to_decrementer(deadline, now)`, returning `uint32_t`. -/
def deadline_to_decrementer (s : rtclock_state) (deadline now : Nat) : Nat :=
  if deadline ≤ now then u32 s.rtc_decrementer_min
  else
    let delta := sub64 deadline now
    u32 (MIN (MAX s.rtc_decrementer_min delta) DECREMENTER_MAX)

/-- The function `rtc_lapic_set_timer(interval)`: the count handed to the local timer. -/
def rtc_lapic_set_timer (s : rtclock_state) (interval : Nat) : Option rtc_event :=
  let count := u64 (u32 interval * s.rtc_lapic_scale.numer)
  if s.rtc_lapic_scale.denom = 0 then none
  else some (rtc_event.lapic_set_timer true (u32 (count / s.rtc_lapic_scale.denom)))

/-- The function `rtc_lapic_start_ticking()`; `tsc` is read by `mach_absolute_time()`. -/
def rtc_lapic_start_ticking (s : rtclock_state) (tsc : Nat) :
    Option (rtclock_state × List rtc_event) :=
  (mach_absolute_time s tsc).bind fun abstime =>
  let first_tick := u64 (abstime + NSEC_PER_HZ)
  let s1 := { s with cpu := { s.cpu with cpu_rtc_tick_deadline := first_tick } }
  let decr := deadline_to_decrementer s1 first_tick abstime
  (rtc_lapic_set_timer s1 decr).bind fun ev =>
  some (s1, [ev])

/-- The function `lapic_time_countdown(initial_count)`: arms the local timer without
interrupt and converts the cycles counted from `start_time` to `stop_time`. -/
def lapic_time_countdown (s : rtclock_state) (initial_count start_time stop_time : Nat) :
    Option (Nat × List rtc_event) := do
  let ns ← tsc_to_nanoseconds s (sub64 stop_time start_time)
  pure (ns, [rtc_event.lapic_set_timer false (u32 initial_count)])

/-- The function `rtc_lapic_timer_calibrate()`; `has_apic` is
`cpuid_features() & CPUID_FEATURE_APIC`, the four cycle-counter values are read
around the two countdowns. -/
def rtc_lapic_timer_calibrate (s : rtclock_state) (has_apic : Bool)
    (start1 stop1 start2 stop2 : Nat) : Option (rtclock_state × List rtc_event) :=
  if ¬ has_apic then some (s, [])
  else
    (lapic_time_countdown s s.rtc_intr_nsec start1 stop1).bind fun r1 =>
    let nsecs := u32 r1.1
    if nsecs = 0 then none
    else
      let countdown := u64 (s.rtc_intr_nsec * s.rtc_intr_nsec) / nsecs
      (lapic_time_countdown s (u32 countdown) start2 stop2).bind fun r2 =>
      some ({ s with rtc_lapic_scale := ⟨u32 countdown, u32 r2.1⟩ }, r1.2 ++ r2.2)

/-- The function `sysclk_init()`.  `cycle_count` is the value returned by
`timeRDTSC()`; the remaining arguments are the cycle-counter values read on
the way and the master processor's record. -/
def sysclk_init (s : rtclock_state) (cycle_count : Nat) (has_apic : Bool)
    (start1 stop1 start2 stop2 tsc_init : Nat) (master_rntp : rtc_nanotime_t) (tsc_tick : Nat) :
    Option (rtclock_state × List rtc_event) :=
  (if s.is_master then
      let s1 := { s with rtc_cycle_count := u64 cycle_count }
      (rtc_set_cyc_per_sec s1 s1.rtc_cycle_count).bind fun r2 =>
      let s3 := { r2.1 with gPEClockFrequencyInfo :=
        { r2.1.gPEClockFrequencyInfo with
          cpu_frequency_min_hz := r2.2, cpu_frequency_max_hz := r2.2 } }
      (rtc_lapic_timer_calibrate s3 has_apic start1 stop1 start2 stop2).bind fun r4 =>
      let s5 := { r4.1 with
        rtc_decrementer_min := deadline_to_decrementer r4.1 NSEC_PER_USEC 0 }
      some ({ s5 with rtc_initialized := true }, r4.2)
    else some (s, [])).bind fun r1 =>
  (rtc_nanotime_init r1.1 tsc_init master_rntp).bind fun s6 =>
  (rtc_lapic_start_ticking s6 tsc_tick).bind fun r7 =>
  some (r7.1, r1.2 ++ r7.2)

/-! ## The one-shot timer and the interrupt -/

/-- The saved registers of `struct i386_interrupt_state` read by the interrupt. -/
structure i386_interrupt_state where
  efl : Nat
  cs : Nat
  eip : Nat
  deriving DecidableEq, Repr

/-- What the rest of the kernel provides: the flag bit `EFL_VM`, the function
`clock_deadline_for_periodic_event(interval, abstime, &deadline)` as the new
deadline it stores, and the behaviour of the function a timer pointer refers to. -/
structure rtclock_env where
  EFL_VM : Nat
  clock_deadline_for_periodic_event : Nat → Nat → Nat → Nat
  timer_func : Nat → Nat → rtclock_state → rtclock_state

/-- The function `clock_set_timer_deadline(deadline)`; `tsc` is read by `mach_absolute_time()`. -/
def clock_set_timer_deadline (s : rtclock_state) (deadline tsc : Nat) :
    Option (rtclock_state × List rtc_event) :=
  let mytimer := { s.cpu.cpu_rtc_timer with deadline := deadline, is_set := true }
  let s1 := { s with cpu := { s.cpu with cpu_rtc_timer := mytimer } }
  if ¬ mytimer.has_expired then
    (mach_absolute_time s1 tsc).bind fun abstime =>
    if mytimer.deadline < s1.cpu.cpu_rtc_tick_deadline then
      let decr := deadline_to_decrementer s1 mytimer.deadline abstime
      (rtc_lapic_set_timer s1 decr).bind fun ev =>
      some ({ s1 with cpu := { s1.cpu with cpu_rtc_intr_deadline := mytimer.deadline } },
        [ev, rtc_event.kernel_debug 1 decr 2])
    else some (s1, [])
  else some (s1, [])

/-- The function `clock_set_timer_func(func)`. -/
def clock_set_timer_func (s : rtclock_state) (func : Option Nat) : rtclock_state :=
  if s.rtclock_timer_expire = none then { s with rtclock_timer_expire := func } else s

/-- The function `rtclock_intr(regs)`; `tsc0`, `tsc2`, `tsc3` are the cycle-counter
values of the three `_rtc_nanotime_read()` calls and `tsc1` the one of
`rtc_nanotime_update()`. -/
def rtclock_intr (env : rtclock_env) (s : rtclock_state) (regs : i386_interrupt_state)
    (tsc0 tsc1 tsc2 tsc3 : Nat) : Option (rtclock_state × List rtc_event) :=
  (_rtc_nanotime_read s tsc0).bind fun abstime0 =>
  let latency := u32 (sub64 (u32 abstime0) s.cpu.cpu_rtc_intr_deadline)
  (if s.cpu.cpu_rtc_tick_deadline ≤ abstime0 then
      (rtc_nanotime_update s tsc1).bind fun su =>
        let deadline := env.clock_deadline_for_periodic_event NSEC_PER_HZ abstime0
          su.cpu.cpu_rtc_tick_deadline
        some ({ su with cpu := { su.cpu with cpu_rtc_tick_deadline := deadline } },
          [rtc_event.hertz_tick
            (decide (regs.efl &&& env.EFL_VM ≠ 0) || decide (regs.cs &&& 0x03 ≠ 0)) regs.eip])
    else some (s, [])).bind fun r1 =>
  (_rtc_nanotime_read r1.1 tsc2).bind fun abstime2 =>
  (if r1.1.cpu.cpu_rtc_timer.is_set = true ∧ r1.1.cpu.cpu_rtc_timer.deadline ≤ abstime2 then
      let sa := { r1.1 with cpu := { r1.1.cpu with cpu_rtc_timer :=
        { r1.1.cpu.cpu_rtc_timer with has_expired := true, is_set := false } } }
      sa.rtclock_timer_expire.bind fun func =>
        let sb := env.timer_func func abstime2 sa
        some ({ sb with cpu := { sb.cpu with cpu_rtc_timer :=
            { sb.cpu.cpu_rtc_timer with has_expired := false } } },
          [rtc_event.timer_expire func abstime2 sa.cpu.cpu_rtc_timer])
    else some (r1.1, [])).bind fun r2 =>
  let dbg := rtc_event.kernel_debug 0 (u32 (2 ^ 32 - latency)) (u32 regs.eip)
  (_rtc_nanotime_read r2.1 tsc3).bind fun abstime3 =>
  let decr_tick := deadline_to_decrementer r2.1 r2.1.cpu.cpu_rtc_tick_deadline abstime3
  let decr_timer :=
    if r2.1.cpu.cpu_rtc_timer.is_set then
      deadline_to_decrementer r2.1 r2.1.cpu.cpu_rtc_timer.deadline abstime3
    else DECREMENTER_MAX
  let decr := MIN decr_tick decr_timer
  let s3 := { r2.1 with cpu := { r2.1.cpu with cpu_rtc_intr_deadline := u64 (abstime3 + decr) } }
  (rtc_lapic_set_timer s3 decr).bind fun ev =>
  some (s3, r1.2 ++ r2.2 ++ [dbg, ev, rtc_event.kernel_debug 1 decr 3])

/-! ## System and calendar clocks -/

/-- Conversion to `int32_t` (two's complement). -/
def int32 (x : Int) : Int := (x + 2 ^ 31) % 2 ^ 32 - 2 ^ 31

/-- Conversion to `int64_t` (two's complement). -/
def int64 (x : Int) : Int := (x + 2 ^ 63) % 2 ^ 64 - 2 ^ 63

/-- Unsigned 32-bit subtraction: `a - b` on `unsigned int` operands. -/
def sub32 (a b : Nat) : Nat := (a + (2 ^ 32 - b % 2 ^ 32)) % 2 ^ 32

/-- The values of `kern_return_t` this file returns. -/
inductive kern_return_t where
  | KERN_SUCCESS
  | KERN_FAILURE
  | KERN_INVALID_VALUE
  deriving DecidableEq, Repr

/-- The clock attribute flavors of `mach/clock_types.h`, which is not under `src/`:
four case labels, so four different numbers. -/
structure clock_flavor_consts where
  CLOCK_GET_TIME_RES : Nat
  CLOCK_ALARM_CURRES : Nat
  CLOCK_ALARM_MINRES : Nat
  CLOCK_ALARM_MAXRES : Nat

/-- The function `nanos_to_timespec(nanos)`: `divl` of `edx:eax = nanos` by
`NSEC_PER_SEC`; the quotient (`eax`) is `tv_sec`, the remainder (`edx`) is `tv_nsec`. -/
def nanos_to_timespec (nanos : Nat) : Option mach_timespec_t :=
  (divl (u32 (nanos / 2 ^ 32)) (u32 nanos) NSEC_PER_SEC).map fun r =>
    { tv_sec := r.1, tv_nsec := (r.2 : Int) }

/-- The function `tsc_to_timespec()`; `tsc` is read by `rtc_nanotime_read()`. -/
def tsc_to_timespec (s : rtclock_state) (tsc : Nat) : Option mach_timespec_t :=
  (rtc_nanotime_read s tsc).bind nanos_to_timespec

/-- The function `sysclk_gettime_internal(cur_time)`: the code returned and the time written. -/
def sysclk_gettime_internal (s : rtclock_state) (tsc : Nat) :
    Option (kern_return_t × mach_timespec_t) :=
  (tsc_to_timespec s tsc).map fun ts => (kern_return_t.KERN_SUCCESS, ts)

/-- The function `sysclk_gettime(cur_time)`. -/
def sysclk_gettime (s : rtclock_state) (tsc : Nat) :
    Option (kern_return_t × mach_timespec_t) :=
  sysclk_gettime_internal s tsc

/-- The function `sysclk_getattr(flavor, attr, count)`: the code returned, the
attribute buffer afterwards and the state afterwards. -/
def sysclk_getattr (k : clock_flavor_consts) (s : rtclock_state) (flavor attr count : Nat) :
    kern_return_t × Nat × rtclock_state :=
  if count ≠ 1 then (kern_return_t.KERN_FAILURE, attr, s)
  else if flavor = k.CLOCK_GET_TIME_RES then (kern_return_t.KERN_SUCCESS, s.rtc_intr_nsec, s)
  else if flavor = k.CLOCK_ALARM_CURRES ∨ flavor = k.CLOCK_ALARM_MAXRES
      ∨ flavor = k.CLOCK_ALARM_MINRES then
    (kern_return_t.KERN_SUCCESS, 0, s)
  else (kern_return_t.KERN_INVALID_VALUE, attr, s)

/-- Modelled from the spec: the macro `ADD_MACH_TIMESPEC(t1, t2)` of
`mach/clock_types.h`, which is not under `src/`.  The spec has the calendar read return
monotonic time plus offset: nanoseconds are added with a carry of one second into the
32-bit seconds. -/
def ADD_MACH_TIMESPEC (t1 t2 : mach_timespec_t) : mach_timespec_t :=
  let nsec := t1.tv_nsec + t2.tv_nsec
  if nsec ≥ NSEC_PER_SEC then
    { tv_sec := u32 (u32 (t1.tv_sec + 1) + t2.tv_sec), tv_nsec := nsec - NSEC_PER_SEC }
  else
    { tv_sec := u32 (t1.tv_sec + t2.tv_sec), tv_nsec := nsec }

/-- Modelled from the spec: the macro `SUB_MACH_TIMESPEC(t1, t2)` of
`mach/clock_types.h`, which is not under `src/`.  The spec has the calendar set compute
wall time minus monotonic time: nanoseconds are subtracted with a borrow of one second
from the 32-bit seconds. -/
def SUB_MACH_TIMESPEC (t1 t2 : mach_timespec_t) : mach_timespec_t :=
  let nsec := t1.tv_nsec - t2.tv_nsec
  if nsec < 0 then
    { tv_sec := sub32 (sub32 t1.tv_sec 1) t2.tv_sec, tv_nsec := nsec + NSEC_PER_SEC }
  else
    { tv_sec := sub32 t1.tv_sec t2.tv_sec, tv_nsec := nsec }

/-- Modelled from the spec: the macro `ADD_MACH_TIMESPEC_NSEC(t1, nsec)` of
`kern/clock.h`, which is not under `src/`.  The spec has the tick step add the pending
step to the offset: signed nanoseconds are added with a carry or a borrow of one second. -/
def ADD_MACH_TIMESPEC_NSEC (t1 : mach_timespec_t) (nsec : Int) : mach_timespec_t :=
  let n := t1.tv_nsec + nsec
  if nsec > 0 ∧ n ≥ NSEC_PER_SEC then
    { tv_sec := u32 (t1.tv_sec + 1), tv_nsec := n - NSEC_PER_SEC }
  else if nsec < 0 ∧ n < 0 then
    { tv_sec := sub32 t1.tv_sec 1, tv_nsec := n + NSEC_PER_SEC }
  else
    { tv_sec := t1.tv_sec, tv_nsec := n }

/-- The function `calend_gettime(cur_time)`: the code returned, `*cur_time` afterwards
and the state afterwards; `tsc` is read by `sysclk_gettime_internal`. -/
def calend_gettime (s : rtclock_state) (tsc : Nat) (cur_time : mach_timespec_t) :
    Option (kern_return_t × mach_timespec_t × rtclock_state) :=
  if ¬ s.rtclock.calend_is_set then some (kern_return_t.KERN_FAILURE, cur_time, s)
  else
    (sysclk_gettime_internal s tsc).bind fun r =>
    some (kern_return_t.KERN_SUCCESS, ADD_MACH_TIMESPEC r.2 s.rtclock.calend_offset, s)

/-- The function `clock_set_calendar_microtime(secs, microsecs)`. -/
def clock_set_calendar_microtime (s : rtclock_state) (secs microsecs tsc : Nat) :
    Option (rtclock_state × List rtc_event) :=
  let new_time : mach_timespec_t :=
    { tv_sec := u32 secs, tv_nsec := int32 (u32 (u32 microsecs * NSEC_PER_USEC)) }
  let old_offset := s.rtclock.calend_offset.tv_sec
  (sysclk_gettime_internal s tsc).bind fun r =>
  let calend_offset := SUB_MACH_TIMESPEC new_time r.2
  some ({ s with rtclock := { s.rtclock with
      calend_offset := calend_offset
      boottime := u32 (s.rtclock.boottime + sub32 calend_offset.tv_sec old_offset)
      calend_is_set := true } },
    [rtc_event.bbc_settime new_time, rtc_event.host_notify_calendar_change])

/-- The function `calend_getattr(flavor, attr, count)`: the code returned, the
attribute buffer afterwards and the state afterwards. -/
def calend_getattr (k : clock_flavor_consts) (s : rtclock_state) (flavor attr count : Nat) :
    kern_return_t × Nat × rtclock_state :=
  if count ≠ 1 then (kern_return_t.KERN_FAILURE, attr, s)
  else if flavor = k.CLOCK_GET_TIME_RES then (kern_return_t.KERN_SUCCESS, s.rtc_intr_nsec, s)
  else if flavor = k.CLOCK_ALARM_CURRES ∨ flavor = k.CLOCK_ALARM_MINRES
      ∨ flavor = k.CLOCK_ALARM_MAXRES then
    (kern_return_t.KERN_SUCCESS, 0, s)
  else (kern_return_t.KERN_INVALID_VALUE, attr, s)

/-- The macro `tickadj`: the standard skew, `40*NSEC_PER_USEC` ns per tick. -/
def tickadj : Int := 40 * NSEC_PER_USEC

/-- The macro `bigadj`: above `NSEC_PER_SEC` ns the skew is ten times larger. -/
def bigadj : Int := NSEC_PER_SEC

/-- The function `clock_set_calendar_adjtime(secs, microsecs)`: the state afterwards,
`*secs` and `*microsecs` afterwards, and the interval returned.  The arguments are
`int32_t`; the product `*microsecs * NSEC_PER_USEC` is formed in `int`. -/
def clock_set_calendar_adjtime (s : rtclock_state) (secs microsecs : Int) :
    rtclock_state × Int × Int × Nat :=
  let total := int64 (secs * NSEC_PER_SEC + int32 (microsecs * NSEC_PER_USEC))
  let ototal := s.rtclock.calend_adjtotal
  let r : rtclock_state × Nat :=
    if total ≠ 0 then
      let delta :=
        if total > 0 then
          let d1 := if total > bigadj then int32 (tickadj * 10) else tickadj
          if d1 > total then int32 total else d1
        else
          let d1 := if total < -bigadj then int32 (tickadj * 10) else tickadj
          let d2 := int32 (-d1)
          if d2 < total then int32 total else d2
      ({ s with rtclock := { s.rtclock with calend_adjtotal := total, calend_adjdelta := delta } },
        NSEC_PER_HZ)
    else
      ({ s with rtclock := { s.rtclock with calend_adjdelta := 0, calend_adjtotal := 0 } }, 0)
  let out : Int × Int :=
    if ototal = 0 then (0, 0)
    else (int32 (ototal.tdiv NSEC_PER_SEC), int32 (ototal.tmod NSEC_PER_SEC))
  (r.1, out.1, out.2, r.2)

/-- The function `clock_adjust_calendar()`: the state afterwards and the interval returned. -/
def clock_adjust_calendar (s : rtclock_state) : rtclock_state × Nat :=
  let delta := s.rtclock.calend_adjdelta
  let calend_offset := ADD_MACH_TIMESPEC_NSEC s.rtclock.calend_offset delta
  let adjtotal := int64 (s.rtclock.calend_adjtotal - delta)
  let adjdelta :=
    if delta > 0 then
      if delta > adjtotal then int32 adjtotal else delta
    else if delta < 0 then
      if delta < adjtotal then int32 adjtotal else delta
    else delta
  ({ s with rtclock := { s.rtclock with
      calend_offset := calend_offset
      calend_adjtotal := adjtotal
      calend_adjdelta := adjdelta } },
    if adjdelta ≠ 0 then NSEC_PER_HZ else 0)

/-- The calendar states reached from one with no adjustment pending and a normalised
offset by calls of `clock_set_calendar_adjtime` (with `int32_t` arguments) and
`clock_adjust_calendar`. -/
inductive adj_reachable : rtclock_state → Prop where
  | init (s : rtclock_state) (h0 : s.rtclock.calend_adjtotal = 0)
      (h1 : s.rtclock.calend_adjdelta = 0)
      (h2 : 0 ≤ s.rtclock.calend_offset.tv_nsec)
      (h3 : s.rtclock.calend_offset.tv_nsec < NSEC_PER_SEC)
      (h4 : s.rtclock.calend_offset.tv_sec < 2 ^ 32) : adj_reachable s
  | adjtime (s : rtclock_state) (secs microsecs : Int) (h : adj_reachable s)
      (hs : -(2 ^ 31) ≤ secs ∧ secs < 2 ^ 31)
      (hm : -(2 ^ 31) ≤ microsecs ∧ microsecs < 2 ^ 31) :
      adj_reachable (clock_set_calendar_adjtime s secs microsecs).1
  | adjust (s : rtclock_state) (h : adj_reachable s) :
      adj_reachable (clock_adjust_calendar s).1

/-- The state after `n` calls of `clock_adjust_calendar`. -/
def adjust_iter (s : rtclock_state) : Nat → rtclock_state
  | 0 => s
  | n + 1 => (clock_adjust_calendar (adjust_iter s n)).1

/-- The state after the calls `clock_set_timer_func(f)` for the `f` of a list, in order. -/
def clock_set_timer_func_seq (s : rtclock_state) (fs : List (Option Nat)) : rtclock_state :=
  fs.foldl clock_set_timer_func s

/-- Is the event a call of `hertz_tick`? -/
def rtc_event.is_hertz_tick : rtc_event → Bool
  | .hertz_tick _ _ => true
  | _ => false

/-- Is the event a call through `rtclock_timer_expire`? -/
def rtc_event.is_timer_expire : rtc_event → Bool
  | .timer_expire _ _ _ => true
  | _ => false

/-- Is the event a call of `lapic_set_timer`? -/
def rtc_event.is_lapic_set_timer : rtc_event → Bool
  | .lapic_set_timer _ _ => true
  | _ => false

/-! ## Example states -/

/-- A 2 GHz master processor after `rtc_set_cyc_per_sec(100000000)` and
`rtc_nanotime_init()` at cycle 0: fast path, scale `2^31`, shift 32. -/
def example_fast_state : rtclock_state :=
  { boot_state with
    rtc_quant_shift := 32
    rtc_quant_scale := 2147483648
    rtclock := { boot_state.rtclock with timebase_const := ⟨2147483648, RTC_FAST_DENOM⟩ }
    rtc_cyc_per_sec := 2000000000
    gPEClockFrequencyInfo := ⟨2000000000, 2000000000, 0, 0⟩
    cpu := { boot_state.cpu with cpu_rtc_nanotime := ⟨0, 0, 2147483648, 32, 0, 0⟩ } }

/-- A 500 MHz master processor after `rtc_set_cyc_per_sec(25000000)` and
`rtc_nanotime_init()` at cycle 0: precise path, numer 50,000,000, denom 25,000,000,
scale `2^27`, shift 26. -/
def example_precise_state : rtclock_state :=
  { boot_state with
    rtc_quant_shift := 26
    rtc_quant_scale := 134217728
    rtclock := { boot_state.rtclock with timebase_const := ⟨50000000, 25000000⟩ }
    rtc_cyc_per_sec := 500000000
    gPEClockFrequencyInfo := ⟨500000000, 500000000, 0, 0⟩
    cpu := { boot_state.cpu with cpu_rtc_nanotime := ⟨0, 0, 134217728, 26, 0, 0⟩ } }

/-- The rest of the kernel in the examples: `EFL_VM` is bit 17, the next periodic
deadline is `abstime + interval`, and every timer function rearms the timer 600 ns
after its argument through `clock_set_timer_deadline`. -/
def example_env : rtclock_env where
  EFL_VM := 0x20000
  clock_deadline_for_periodic_event := fun interval abstime _ => abstime + interval
  timer_func := fun _ abstime st =>
    match clock_set_timer_deadline st (abstime + 600) 0 with
    | some r => r.1
    | none => st

/-- The 2 GHz processor with a 1000 ns minimum interval, the local timer counting
nanoseconds, a registered callback, the tick due at 10,000,000 ns and the one-shot
timer armed for 9,000,000 ns. -/
def example_intr_state : rtclock_state :=
  { example_fast_state with
    rtc_decrementer_min := 1000
    rtc_lapic_scale := ⟨1, 1⟩
    rtclock_timer_expire := some 1
    cpu := { example_fast_state.cpu with
      cpu_rtc_tick_deadline := 10000000
      cpu_rtc_intr_deadline := 10000000
      cpu_rtc_timer := ⟨9000000, true, false⟩ } }

/-- Saved registers of an interrupt taken in kernel mode. -/
def example_regs : i386_interrupt_state := ⟨0, 8, 4096⟩

/-- The master processor booting at 2 GHz: `timeRDTSC()` returns 100,000,000, both
local-timer countdowns take 20,000,000 cycles, the record is initialised at cycle
40,000,000 and ticking starts at cycle 40,000,100. -/
def example_init : Option (rtclock_state × List rtc_event) :=
  sysclk_init boot_state 100000000 true 0 20000000 0 20000000 40000000
    boot_state.cpu.cpu_rtc_nanotime 40000100

/-- The state after `example_init`, with a callback registered and the one-shot
timer armed for 20,001,000 ns. -/
def example_armed_state : rtclock_state :=
  match example_init with
  | some r => { r.1 with
      rtclock_timer_expire := some 1
      cpu := { r.1.cpu with cpu_rtc_timer := ⟨20001000, true, false⟩ } }
  | none => boot_state

/-- The outcome of the interrupt taken in `example_intr_state` with the cycle counter
at 20,000,200, 20,000,400, 20,000,600 and 20,000,800 at its four readings. -/
def example_intr_result : rtclock_state × List rtc_event :=
  (rtclock_intr example_env example_intr_state example_regs
    20000200 20000400 20000600 20000800).getD (boot_state, [])

/-- The outcome of the interrupt taken in `example_armed_state` with the cycle
counter at 40,001,000 throughout (20,000,500 ns). -/
def example_armed_result : rtclock_state × List rtc_event :=
  (rtclock_intr example_env example_armed_state example_regs
    40001000 40001000 40001000 40001000).getD (boot_state, [])

/-- The kernel of `example_env`, except that every timer function rearms the timer
for 9,500,000 ns through `clock_set_timer_deadline`. -/
def example_rearm_env : rtclock_env where
  EFL_VM := 0x20000
  clock_deadline_for_periodic_event := fun interval abstime _ => abstime + interval
  timer_func := fun _ _ st =>
    match clock_set_timer_deadline st 9500000 0 with
    | some r => r.1
    | none => st

/-- The outcome of the interrupt taken in `example_intr_state` under `example_rearm_env`. -/
def example_rearm_result : rtclock_state × List rtc_event :=
  (rtclock_intr example_rearm_env example_intr_state example_regs
    20000200 20000400 20000600 20000800).getD (boot_state, [])

/-- The pending adjustment as `clock_set_calendar_adjtime` and `clock_adjust_calendar`
keep it: the total is one that two `int32_t` arguments can request, and the step has the
sign of the total, is no larger in magnitude and is at most ten times `tickadj`. -/
def adj_inv (s : rtclock_state) : Prop :=
  -(2 ^ 62) ≤ s.rtclock.calend_adjtotal ∧ s.rtclock.calend_adjtotal < 2 ^ 62
  ∧ (s.rtclock.calend_adjtotal = 0 → s.rtclock.calend_adjdelta = 0)
  ∧ (0 < s.rtclock.calend_adjtotal → 0 < s.rtclock.calend_adjdelta
      ∧ s.rtclock.calend_adjdelta ≤ s.rtclock.calend_adjtotal
      ∧ s.rtclock.calend_adjdelta ≤ 400000)
  ∧ (s.rtclock.calend_adjtotal < 0 → s.rtclock.calend_adjdelta < 0
      ∧ s.rtclock.calend_adjtotal ≤ s.rtclock.calend_adjdelta
      ∧ -400000 ≤ s.rtclock.calend_adjdelta)

/-- A normalised `mach_timespec_t`: 32-bit seconds and `0 <= tv_nsec < NSEC_PER_SEC`. -/
def timespec_normal (t : mach_timespec_t) : Prop :=
  t.tv_sec < 2 ^ 32 ∧ 0 ≤ t.tv_nsec ∧ t.tv_nsec < 1000000000

/-- The nanoseconds a `mach_timespec_t` stands for. -/
def timespec_nanos (t : mach_timespec_t) : Int :=
  (t.tv_sec : Int) * 1000000000 + t.tv_nsec

/-- The state after `clock_set_calendar_adjtime(0, 100)` on the boot state: 100,000 ns
pending, applied 40,000 ns per tick. -/
def example_slew_state : rtclock_state :=
  (clock_set_calendar_adjtime boot_state 0 100).1


/-- The 2 GHz processor after `clock_set_calendar_microtime(1000, 250000)` with the
cycle counter at 4,000,000,000 (2 s of uptime): the offset is 998.25 s. -/
def example_calendar_state : rtclock_state :=
  match clock_set_calendar_microtime example_fast_state 1000 250000 4000000000 with
  | some r => r.1
  | none => boot_state


/-- The function `clock_get_uptime(result)`; `tsc` is read by `rtc_nanotime_read()`. -/
def clock_get_uptime (s : rtclock_state) (tsc : Nat) : Option Nat :=
  rtc_nanotime_read s tsc

/-- The function `clock_interval_to_absolutetime_interval(interval, scale_factor, result)`:
`(uint64_t)interval * scale_factor` on two `uint32_t` arguments. -/
def clock_interval_to_absolutetime_interval (interval scale_factor : Nat) : Nat :=
  u64 (u32 interval * u32 scale_factor)

/-- The function `clock_interval_to_deadline(interval, scale_factor, result)`. -/
def clock_interval_to_deadline (s : rtclock_state) (interval scale_factor tsc : Nat) :
    Option Nat :=
  (clock_get_uptime s tsc).map fun result =>
    u64 (result + clock_interval_to_absolutetime_interval interval scale_factor)

/-- The function `clock_absolutetime_interval_to_deadline(abstime, result)`. -/
def clock_absolutetime_interval_to_deadline (s : rtclock_state) (abstime tsc : Nat) :
    Option Nat :=
  (clock_get_uptime s tsc).map fun result => u64 (result + u64 abstime)


/-- The function `rtc_clock_stepping(new_frequency, old_frequency)`, both arguments
unused; `tsc` is read by `rtc_nanotime_scale_update()`. -/
def rtc_clock_stepping (s : rtclock_state) (_new_frequency _old_frequency tsc : Nat) :
    Option rtclock_state :=
  rtc_nanotime_scale_update s tsc

/-- The function `rtc_clock_stepped(new_frequency, old_frequency)`; the division by
`rtc_boot_frequency` raises a divide error when that is 0, and `tsc` is read by
`rtc_nanotime_scale_update()`. -/
def rtc_clock_stepped (s : rtclock_state) (new_frequency old_frequency tsc : Nat) :
    Option rtclock_state :=
  let s1 :=
    if s.rtc_boot_frequency = 0 then { s with rtc_boot_frequency := u32 old_frequency } else s
  if s1.rtc_boot_frequency = 0 then none
  else
    (rtc_set_cyc_per_sec s1
        (u64 (s1.rtc_cycle_count * u32 new_frequency) / s1.rtc_boot_frequency)).bind fun r =>
      rtc_nanotime_scale_update r.1 tsc

/-- The 2 GHz example with the calibration count `rtc_cycle_count = 100,000,000` kept,
before any speed step. -/
def example_step_state : rtclock_state :=
  { example_fast_state with rtc_cycle_count := 100000000 }


/-- The state `rtc_clock_stepping` leaves at cycle 4,000,000,000 (2 s): the step is
frozen there and the 2 GHz constants are still installed. -/
def example_stepping_state : rtclock_state :=
  (rtc_clock_stepping example_step_state 1000 2000 4000000000).getD boot_state


/-- The state `rtc_clock_stepped` to half speed leaves 2,000 cycles after
`example_stepping_state`. -/
def example_stepped_state : rtclock_state :=
  (rtc_clock_stepped example_stepping_state 1000 2000 4000002000).getD boot_state


/-- The state with `cpu_rtc_intr_deadline`, the previously expected fire time, replaced. -/
def set_intr_deadline (s : rtclock_state) (v : Nat) : rtclock_state :=
  { s with cpu := { s.cpu with cpu_rtc_intr_deadline := v } }

/-- Is the event the latency trace point of `rtclock_intr`
(`MACHDBG_CODE(DBG_MACH_EXCP_DECI, 0)`)? -/
def rtc_event.is_latency_trace : rtc_event → Bool
  | .kernel_debug 0 _ _ => true
  | _ => false

/-- The tick part of `rtclock_intr`, from the first reading `abstime0`. -/
def rtclock_intr_tick (env : rtclock_env) (s : rtclock_state) (regs : i386_interrupt_state)
    (abstime0 tsc1 : Nat) : Option (rtclock_state × List rtc_event) :=
  if s.cpu.cpu_rtc_tick_deadline ≤ abstime0 then
    (rtc_nanotime_update s tsc1).bind fun su =>
      let deadline := env.clock_deadline_for_periodic_event NSEC_PER_HZ abstime0
        su.cpu.cpu_rtc_tick_deadline
      some ({ su with cpu := { su.cpu with cpu_rtc_tick_deadline := deadline } },
        [rtc_event.hertz_tick
          (decide (regs.efl &&& env.EFL_VM ≠ 0) || decide (regs.cs &&& 0x03 ≠ 0)) regs.eip])
  else some (s, [])

/-- The one-shot timer part of `rtclock_intr`, from the second reading `abstime2`. -/
def rtclock_intr_timer (env : rtclock_env) (s : rtclock_state) (abstime2 : Nat) :
    Option (rtclock_state × List rtc_event) :=
  if s.cpu.cpu_rtc_timer.is_set = true ∧ s.cpu.cpu_rtc_timer.deadline ≤ abstime2 then
    let sa := { s with cpu := { s.cpu with cpu_rtc_timer :=
      { s.cpu.cpu_rtc_timer with has_expired := true, is_set := false } } }
    sa.rtclock_timer_expire.bind fun func =>
      let sb := env.timer_func func abstime2 sa
      some ({ sb with cpu := { sb.cpu with cpu_rtc_timer :=
          { sb.cpu.cpu_rtc_timer with has_expired := false } } },
        [rtc_event.timer_expire func abstime2 sa.cpu.cpu_rtc_timer])
  else some (s, [])

/-- The reprogramming part of `rtclock_intr`, from the third reading `abstime3`: the
state afterwards and the two events after the latency trace point. -/
def rtclock_intr_reprogram (s : rtclock_state) (abstime3 : Nat) :
    Option (rtclock_state × List rtc_event) :=
  let decr_tick := deadline_to_decrementer s s.cpu.cpu_rtc_tick_deadline abstime3
  let decr_timer :=
    if s.cpu.cpu_rtc_timer.is_set then
      deadline_to_decrementer s s.cpu.cpu_rtc_timer.deadline abstime3
    else DECREMENTER_MAX
  let decr := MIN decr_tick decr_timer
  let s3 := { s with cpu := { s.cpu with cpu_rtc_intr_deadline := u64 (abstime3 + decr) } }
  (rtc_lapic_set_timer s3 decr).bind fun ev =>
  some (s3, [ev, rtc_event.kernel_debug 1 decr 3])


/-- The macro `SAMPLE_NSECS` of `timeRDTSC`. -/
def SAMPLE_NSECS : Nat := 2000000000

/-- One reading by `get_PIT2(&value)`: the cycle counter at the latch (`edx:eax`) and the
count read from port 0x42 (`ecx`, 16 bits). -/
structure pit_sample where
  tsc : Nat
  value : Nat
  deriving DecidableEq, Repr

/-- How the loop `do { ... } while (timerValue > 5)` of `timeRDTSC` ends on the simulated
readings it is given. -/
inductive pit_loop_result where
  /-- The loop ended with `timerValue <= 5`: `intermediate`, `timerValue`, readings left. -/
  | finished (intermediate timerValue : Nat) (rest : List pit_sample)
  /-- A count was greater than the one before: `goto restart`, with the readings left. -/
  | backwards (rest : List pit_sample)
  /-- The simulated readings ran out before the loop ended. -/
  | starved
  deriving DecidableEq, Repr

/-- The loop `do { intermediate = get_PIT2(&timerValue); ... } while (timerValue > 5)` of
`timeRDTSC`, entered with `lastValue`, on the readings `get_PIT2` will deliver. -/
def timeRDTSC_loop (lastValue : Nat) : List pit_sample → pit_loop_result
  | [] => .starved
  | p :: rest =>
    let intermediate := u64 p.tsc
    let timerValue := p.value % 2 ^ 16
    if timerValue > lastValue then .backwards rest
    else if timerValue > 5 then timeRDTSC_loop timerValue rest
    else .finished intermediate timerValue rest

/-- How one pass through the body of `timeRDTSC` after `restart:` ends. -/
inductive attempt_result where
  /-- The pass reached `return intermediate`. -/
  | measured (intermediate : Nat)
  /-- The pass ended in `goto restart`, with the readings not yet consumed. -/
  | backwards (tscs : List Nat) (pit : List pit_sample)
  /-- The simulated readings ran out. -/
  | starved
  deriving DecidableEq, Repr

/-- One pass through the body of `timeRDTSC` after the `attempts` test: `tscs` are the
values `rdtsc64()` will return and `pit` the readings `get_PIT2` will deliver, in order.
The table `scale[6]` is a parameter: its entries are computed in floating point from
`CLKNUM` of `i386/pit.h`, which is not under `src/`. -/
def timeRDTSC_attempt (scale : Nat → Nat) (tscs : List Nat) (pit : List pit_sample) :
    attempt_result :=
  match tscs, pit with
  | t0 :: t1 :: tscs1, p0 :: _ :: p2 :: pit1 =>
    let latchTime := sub64 (u64 p0.tsc) (u64 t0)
    let saveTime := u64 t1
    let lastValue := p2.value % 2 ^ 16
    match timeRDTSC_loop lastValue pit1 with
    | .finished intermediate timerValue _ =>
      .measured (u64 (u64 (sub64 intermediate saveTime * u64 (scale timerValue))
        / SAMPLE_NSECS + latchTime))
    | .backwards rest => .backwards tscs1 rest
    | .starved => .starved
  | _, _ => .starved

/-- How `timeRDTSC` ends: with the value returned, or in `panic`, or with the simulated
readings exhausted; `attempts` is the value of the local variable at that point. -/
inductive timeRDTSC_result where
  | returned (cycles attempts : Nat)
  | panic (attempts : Nat)
  | starved
  deriving DecidableEq, Repr

/-- The function `timeRDTSC()` from the label `restart:` on, with `attempts` as it is there. -/
def timeRDTSC_restart (scale : Nat → Nat) (attempts : Nat) (tscs : List Nat)
    (pit : List pit_sample) : timeRDTSC_result :=
  if attempts ≥ 2 then .panic attempts
  else
    match timeRDTSC_attempt scale tscs pit with
    | .measured v => .returned v (attempts + 1)
    | .backwards tscs1 pit1 => timeRDTSC_restart scale (attempts + 1) tscs1 pit1
    | .starved => .starved
termination_by 2 - attempts
decreasing_by omega

/-- The function `timeRDTSC()`. -/
def timeRDTSC (scale : Nat → Nat) (tscs : List Nat) (pit : List pit_sample) :
    timeRDTSC_result :=
  timeRDTSC_restart scale 0 tscs pit

/-- Simulated readings for two passes: in the first the count goes from 40,000 up to
40,001; the second counts down to 3. -/
def example_pit : List pit_sample :=
  [⟨1050, 0⟩, ⟨1200, 59659⟩, ⟨1300, 59650⟩, ⟨2000, 40000⟩, ⟨3000, 40001⟩,
   ⟨5040, 0⟩, ⟨5200, 59659⟩, ⟨5300, 59650⟩, ⟨50000000, 30000⟩, ⟨100005100, 3⟩]

/-- The cycle counter values `rdtsc64()` returns in the two passes of `example_pit`. -/
def example_tscs : List Nat := [1000, 1100, 5000, 5100]


/-- The state after the calls `rtc_clock_stepped(new_frequency, old_frequency)` of a
list, in order; each entry is `(new_frequency, old_frequency, tsc)`. -/
def rtc_clock_stepped_seq (s : rtclock_state) : List (Nat × Nat × Nat) → Option rtclock_state
  | [] => some s
  | step :: steps =>
    (rtc_clock_stepped s step.1 step.2.1 step.2.2).bind fun s1 =>
      rtc_clock_stepped_seq s1 steps


/-- The state after `example_step_state` steps to half speed at cycle 4,000,000,000 and
back to the boot frequency at cycle 8,000,000,000. -/
def example_round_trip_state : rtclock_state :=
  (rtc_clock_stepped_seq example_step_state
    [(1000, 2000, 4000000000), (2000, 1000, 8000000000)]).getD boot_state


/-- The state after `example_step_state` steps to half speed at cycle 4,000,000,000. -/
def example_half_speed_state : rtclock_state :=
  (rtc_clock_stepped example_step_state 1000 2000 4000000000).getD boot_state

/-- What `rtc_set_cyc_per_sec(100000000)` gives on the boot state: the calibration of the
2 GHz example. -/
def example_calibrated : rtclock_state × Nat :=
  (rtc_set_cyc_per_sec boot_state 100000000).getD (boot_state, 0)


/-- The 2 GHz processor after `clock_set_calendar_microtime(10, 2000000)` with the cycle
counter at 5,000,000,000 (2.5 s of uptime): `microsecs` is not range-checked, so the
offset stored is 8 s and 1,500,000,000 ns. -/
def example_unchecked_calendar_state : rtclock_state :=
  match clock_set_calendar_microtime example_fast_state 10 2000000 5000000000 with
  | some r => r.1
  | none => boot_state

/-- The state `rtc_clock_stepping` leaves at cycle 6,000,002,000, before the processor
goes back from half speed (`example_stepped_state`) to full speed. -/
def example_restepping_state : rtclock_state :=
  (rtc_clock_stepping example_stepped_state 2000 1000 6000002000).getD boot_state

/-- The state `rtc_clock_stepped` back to full speed leaves 2,000 cycles after
`example_restepping_state`. -/
def example_restepped_state : rtclock_state :=
  (rtc_clock_stepped example_restepping_state 2000 1000 6000004000).getD boot_state

/-! ## Arithmetic facts about the conversion routines -/

theorem u32_lt (n : Nat) : u32 n < 2 ^ 32 := Nat.mod_lt _ (by norm_num)

theorem u64_lt (n : Nat) : u64 n < 2 ^ 64 := Nat.mod_lt _ (by norm_num)

theorem u32_of_lt {n : Nat} (h : n < 2 ^ 32) : u32 n = n := Nat.mod_eq_of_lt h

theorem u64_of_lt {n : Nat} (h : n < 2 ^ 64) : u64 n = n := Nat.mod_eq_of_lt h

theorem mul_word_bound {a b : Nat} (ha : a < 2 ^ 32) (hb : b < 2 ^ 32) :
    a * b ≤ (2 ^ 32 - 1) * (2 ^ 32 - 1) :=
  Nat.mul_le_mul (by omega) (by omega)

/-- The assembly of `fast_get_nano_from_abs` computes the 96-bit product shifted right by 32. -/
theorem fast_get_nano_from_abs_val (value scale : Nat) (hv : value < 2 ^ 64) :
    fast_get_nano_from_abs value scale = value * u32 scale / 2 ^ 32 := by
  have hs := u32_lt scale
  have hlo : u32 value < 2 ^ 32 := u32_lt value
  have hhi : value / 2 ^ 32 < 2 ^ 32 := by omega
  have hsplit : value = (value / 2 ^ 32) * 2 ^ 32 + u32 value := by
    unfold u32; omega
  have h1 := mul_word_bound hlo hs
  have h2 := mul_word_bound hhi hs
  have hprod : value * u32 scale
      = (value / 2 ^ 32 * u32 scale) * 2 ^ 32 + u32 value * u32 scale := by
    conv_lhs => rw [hsplit]
    ring
  simp only [fast_get_nano_from_abs, mull, u32_of_lt hhi]
  rw [hprod]
  generalize value / 2 ^ 32 * u32 scale = b at *
  generalize u32 value * u32 scale = a at *
  unfold u32
  omega

/-- The three words written by `longmul` hold the exact 96-bit product. -/
theorem longmul_val (a m : Nat) (ha : a < 2 ^ 64) :
    (longmul a m).1 + (longmul a m).2.1 * 2 ^ 32 + (longmul a m).2.2 * 2 ^ 64 = a * u32 m
    ∧ (longmul a m).1 < 2 ^ 32 ∧ (longmul a m).2.1 < 2 ^ 32 := by
  have hs := u32_lt m
  have hlo : u32 a < 2 ^ 32 := u32_lt a
  have hhi : a / 2 ^ 32 < 2 ^ 32 := by omega
  have hsplit : a = (a / 2 ^ 32) * 2 ^ 32 + u32 a := by
    unfold u32; omega
  have h1 := mul_word_bound hlo hs
  have h2 := mul_word_bound hhi hs
  have hprod : a * u32 m = (a / 2 ^ 32 * u32 m) * 2 ^ 32 + u32 a * u32 m := by
    conv_lhs => rw [hsplit]
    ring
  simp only [longmul, mull, u32_of_lt hhi]
  rw [hprod]
  generalize a / 2 ^ 32 * u32 m = b at *
  generalize u32 a * u32 m = c at *
  unfold u32
  omega

/-- Two chained `divl` divide a three-word number exactly, trapping when the
quotient needs more than 64 bits. -/
theorem longdiv_val (r0 r1 r2 d : Nat) (h0 : r0 < 2 ^ 32) :
    longdiv (r0, r1, r2) d =
      if u32 d = 0 then none
      else if (r0 + r1 * 2 ^ 32 + r2 * 2 ^ 64) / u32 d < 2 ^ 64 then
        some ((r0 + r1 * 2 ^ 32 + r2 * 2 ^ 64) / u32 d)
      else none := by
  show (divl r2 r1 (u32 d)).bind (fun q1 =>
      (divl q1.2 r0 (u32 d)).bind (fun q0 => some (q1.1 * 2 ^ 32 + q0.1))) = _
  generalize u32 d = e
  by_cases he : e = 0
  · simp [divl, he]
  have hepos : 0 < e := Nat.pos_of_ne_zero he
  have hN : r0 + r1 * 2 ^ 32 + r2 * 2 ^ 64 = (r2 * 2 ^ 32 + r1) * 2 ^ 32 + r0 := by ring
  rw [hN, if_neg he]
  unfold divl
  rw [if_neg he]
  generalize r2 * 2 ^ 32 + r1 = n
  have hdm := Nat.div_add_mod n e
  have hrem : n % e < e := Nat.mod_lt _ hepos
  have hq : (n * 2 ^ 32 + r0) / e = (n / e) * 2 ^ 32 + ((n % e) * 2 ^ 32 + r0) / e := by
    have : n * 2 ^ 32 + r0 = e * ((n / e) * 2 ^ 32) + ((n % e) * 2 ^ 32 + r0) := by
      nlinarith [hdm]
    rw [this, Nat.mul_add_div hepos]
  have hq0 : ((n % e) * 2 ^ 32 + r0) / e < 2 ^ 32 := by
    rw [Nat.div_lt_iff_lt_mul hepos]
    nlinarith
  rw [hq]
  generalize hk : ((n % e) * 2 ^ 32 + r0) / e = k at hq0 hq
  generalize hj : n / e = j at hq
  by_cases hq1 : j < 2 ^ 32
  · have hlt : j * 2 ^ 32 + k < 2 ^ 64 := by omega
    rw [if_pos hq1, if_pos hlt]
    simp only [Option.some_bind, if_neg he, hk, if_pos hq0]
  · have hge : ¬ j * 2 ^ 32 + k < 2 ^ 64 := by omega
    rw [if_neg hq1, if_neg hge]
    rfl

/-- The precise conversion: `longdiv (longmul abstime numer) denom` is the exact
quotient, or a divide error when the divisor is zero or the quotient exceeds 64 bits. -/
theorem longdiv_longmul (a m d : Nat) (ha : a < 2 ^ 64) :
    longdiv (longmul a m) d =
      if u32 d = 0 then none
      else if a * u32 m / u32 d < 2 ^ 64 then some (a * u32 m / u32 d)
      else none := by
  obtain ⟨hv, h0, _⟩ := longmul_val a m ha
  have := longdiv_val (longmul a m).1 (longmul a m).2.1 (longmul a m).2.2 d h0
  rw [hv] at this
  exact this

/-! ## Calibration constants -/

theorem create_mul_quant_GHZ_of_pos (shift quant : Nat) (hq : quant ≠ 0) :
    create_mul_quant_GHZ shift quant
      = some (u32 (u64 ((NSEC_PER_SEC / 20) * 2 ^ shift) / quant)) := by
  simp [create_mul_quant_GHZ, hq]

/-- C2: calibrating with 100,000,000 cycles per 1/20 s reports 2,000,000,000 cycles
per second (return value and `rtc_cyc_per_sec`), selects the fast path (shift 32,
denominator `0xFFFFFFFF`), and 2,000,000,000 cycles then convert to 1,000,000,000 ns,
which is within one unit of 1,000,000,000. -/
theorem C2_calibration_scenario (s0 : rtclock_state) :
    ∃ s n, rtc_set_cyc_per_sec s0 100000000 = some (s, 2000000000)
      ∧ s.rtc_cyc_per_sec = 2000000000
      ∧ s.rtc_quant_shift = 32
      ∧ s.rtclock.timebase_const.denom = 0xFFFFFFFF
      ∧ tsc_to_nanoseconds s 2000000000 = some n
      ∧ 1000000000 - 1 ≤ n ∧ n ≤ 1000000000 + 1 := by
  have h : rtc_set_cyc_per_sec s0 100000000 = some (
      { s0 with
        rtc_quant_shift := 32
        rtc_quant_scale := 2147483648
        rtclock := { s0.rtclock with timebase_const := ⟨2147483648, RTC_FAST_DENOM⟩ }
        rtc_cyc_per_sec := 2000000000
        gPEClockFrequencyInfo :=
          { s0.gPEClockFrequencyInfo with
            cpu_clock_rate_hz := 2000000000, cpu_frequency_hz := 2000000000 } },
      2000000000) := by
    rfl
  refine ⟨_, 1000000000, h, rfl, rfl, rfl, ?_, by decide, by decide⟩
  simp only [tsc_to_nanoseconds, if_true]
  decide

/-- C3 fails as stated: a measured count of `2^32 + 1` takes the fast path, but the
divisor is truncated to 32 bits and the installed scale is 0, while
`floor(50,000,000 * 2^32 / c)` is 49,999,999; and a count of 0 traps in the division. -/
theorem C3_counterexample :
    (rtc_set_cyc_per_sec boot_state 4294967297).map (fun r => r.1.rtc_quant_scale) = some 0
      ∧ (50000000 * 2 ^ 32) / 4294967297 = 49999999
      ∧ rtc_set_cyc_per_sec boot_state 0 = none := by
  decide

/-- C3 (amended): for every measured count `c` with `0 < c < 2^32`,
`rtc_set_cyc_per_sec(c)` sets `rtc_cyc_per_sec = 20 * c`; if `c > 50,000,000` it
selects the fast path (shift 32, scale `floor(50,000,000 * 2^32 / c)`, numer equal
to the scale, denom `0xFFFFFFFF`), otherwise the precise path (shift 26, numer
50,000,000, denom `c`). -/
theorem C3_constant_selection (s0 : rtclock_state) (c : Nat) (hc0 : 0 < c) (hc : c < 2 ^ 32) :
    ∃ s ret, rtc_set_cyc_per_sec s0 c = some (s, ret)
      ∧ s.rtc_cyc_per_sec = 20 * c
      ∧ (c > 50000000 →
          s.rtc_quant_shift = 32
          ∧ s.rtc_quant_scale = (50000000 * 2 ^ 32) / c
          ∧ s.rtclock.timebase_const.numer = s.rtc_quant_scale
          ∧ s.rtclock.timebase_const.denom = 0xFFFFFFFF)
      ∧ (¬ c > 50000000 →
          s.rtc_quant_shift = 26
          ∧ s.rtclock.timebase_const.numer = 50000000
          ∧ s.rtclock.timebase_const.denom = c) := by
  have hu : u32 c = c := u32_of_lt hc
  have hne : u32 c ≠ 0 := by omega
  have h20 : u64 (c * 20) = 20 * c := by unfold u64; omega
  by_cases hfast : c > 50000000
  · have hq : 50000000 * 2 ^ 32 / c < 2 ^ 32 := by
      rw [Nat.div_lt_iff_lt_mul hc0]
      nlinarith
    have hscale : u32 (u64 ((NSEC_PER_SEC / 20) * 2 ^ 32) / c) = 50000000 * 2 ^ 32 / c := by
      have : u64 ((NSEC_PER_SEC / 20) * 2 ^ 32) = 50000000 * 2 ^ 32 := by decide
      rw [this, u32_of_lt hq]
    have hif : c > NSEC_PER_SEC / 20 := hfast
    simp only [rtc_set_cyc_per_sec, if_pos hif, hu, create_mul_quant_GHZ_of_pos _ _ (hu ▸ hne),
      hscale, h20]
    refine ⟨_, _, rfl, rfl, fun _ => ⟨rfl, rfl, rfl, rfl⟩, fun h => absurd hfast h⟩
  · have hif : ¬ c > NSEC_PER_SEC / 20 := hfast
    have hn : u32 (NSEC_PER_SEC / 20) = 50000000 := by decide
    simp only [rtc_set_cyc_per_sec, if_neg hif, hu, create_mul_quant_GHZ_of_pos _ _ (hu ▸ hne),
      h20, hn]
    refine ⟨_, _, rfl, rfl, fun h => absurd h hfast, fun _ => ⟨rfl, rfl, rfl⟩⟩

/-- C3 (amended), at 2 GHz and at 500 MHz. -/
theorem C3_constant_selection_witness :
    (0 < 100000000 ∧ 100000000 < 2 ^ 32 ∧ 0 < 25000000 ∧ 25000000 < 2 ^ 32)
    ∧ (∃ s ret, rtc_set_cyc_per_sec boot_state 100000000 = some (s, ret)
      ∧ s.rtc_cyc_per_sec = 20 * 100000000
      ∧ (100000000 > 50000000 →
          s.rtc_quant_shift = 32
          ∧ s.rtc_quant_scale = (50000000 * 2 ^ 32) / 100000000
          ∧ s.rtclock.timebase_const.numer = s.rtc_quant_scale
          ∧ s.rtclock.timebase_const.denom = 0xFFFFFFFF)
      ∧ (¬ 100000000 > 50000000 →
          s.rtc_quant_shift = 26
          ∧ s.rtclock.timebase_const.numer = 50000000
          ∧ s.rtclock.timebase_const.denom = 100000000)) :=
  ⟨by decide, C3_constant_selection boot_state 100000000 (by decide) (by decide)⟩

/-! ## Reading the nanotime record -/

theorem sub64_lt (a b : Nat) : sub64 a b < 2 ^ 64 := Nat.mod_lt _ (by norm_num)

theorem sub64_of_le {a b : Nat} (hab : b ≤ a) (ha : a < 2 ^ 64) : sub64 a b = a - b := by
  unfold sub64
  omega

theorem sub64_self (a : Nat) : sub64 a a = 0 := by
  unfold sub64
  omega

/-- On the fast path `tsc_to_nanoseconds` is the multiply-shift by the numerator. -/
theorem tsc_to_nanoseconds_fast (s : rtclock_state) (x : Nat) (hx : x < 2 ^ 64)
    (hd : s.rtclock.timebase_const.denom = RTC_FAST_DENOM) :
    tsc_to_nanoseconds s x = some (x * u32 s.rtclock.timebase_const.numer / 2 ^ 32) := by
  simp only [tsc_to_nanoseconds, hd, if_true, fast_get_nano_from_abs_val _ _ hx]

/-- On the precise path `tsc_to_nanoseconds` is the exact quotient, or a divide error. -/
theorem tsc_to_nanoseconds_precise (s : rtclock_state) (x : Nat) (hx : x < 2 ^ 64)
    (hd : s.rtclock.timebase_const.denom ≠ RTC_FAST_DENOM) :
    tsc_to_nanoseconds s x =
      if u32 s.rtclock.timebase_const.denom = 0 then none
      else if x * u32 s.rtclock.timebase_const.numer / u32 s.rtclock.timebase_const.denom < 2 ^ 64
        then some (x * u32 s.rtclock.timebase_const.numer / u32 s.rtclock.timebase_const.denom)
      else none := by
  simp only [tsc_to_nanoseconds, if_neg hd, longdiv_longmul _ _ _ hx]

/-- C4: with a non-zero scale and `0 <= tsc - rnt_tsc < 2^32`, `_rtc_nanotime_read`
returns `rnt_nanos + floor((tsc - rnt_tsc) * rnt_scale / 2^rnt_shift)` modulo `2^64`,
the product staying below `2^64`; with a zero scale it returns 0.  The scale is a
32-bit word and the shift count is one C defines (below 64). -/
theorem C4_fast_nanotime_formula (s : rtclock_state) (tsc : Nat) :
    (s.cpu.cpu_rtc_nanotime.rnt_scale ≠ 0 →
      s.cpu.cpu_rtc_nanotime.rnt_scale < 2 ^ 32 →
      s.cpu.cpu_rtc_nanotime.rnt_shift < 64 →
      s.cpu.cpu_rtc_nanotime.rnt_tsc ≤ tsc → tsc < 2 ^ 64 →
      tsc - s.cpu.cpu_rtc_nanotime.rnt_tsc < 2 ^ 32 →
        _rtc_nanotime_read s tsc
          = some ((s.cpu.cpu_rtc_nanotime.rnt_nanos
              + (tsc - s.cpu.cpu_rtc_nanotime.rnt_tsc) * s.cpu.cpu_rtc_nanotime.rnt_scale
                / 2 ^ s.cpu.cpu_rtc_nanotime.rnt_shift) % 2 ^ 64)
        ∧ (tsc - s.cpu.cpu_rtc_nanotime.rnt_tsc) * s.cpu.cpu_rtc_nanotime.rnt_scale < 2 ^ 64)
    ∧ (s.cpu.cpu_rtc_nanotime.rnt_scale = 0 → _rtc_nanotime_read s tsc = some 0) := by
  refine ⟨fun hne hsc hsh hle htsc hd => ?_, fun h0 => by simp [_rtc_nanotime_read, h0]⟩
  have hsub := sub64_of_le hle htsc
  have hprod : (tsc - s.cpu.cpu_rtc_nanotime.rnt_tsc) * s.cpu.cpu_rtc_nanotime.rnt_scale
      < 2 ^ 64 := by
    have := mul_word_bound hd hsc
    omega
  have hdiv : (tsc - s.cpu.cpu_rtc_nanotime.rnt_tsc) / 2 ^ 32 = 0 :=
    Nat.div_eq_of_lt hd
  refine ⟨?_, hprod⟩
  simp only [_rtc_nanotime_read, if_neg hne, hsub, hdiv, ne_eq, not_true_eq_false, if_false,
    u64_of_lt hprod, shr64, if_pos hsh, Option.map_some']
  by_cases h32 : s.cpu.cpu_rtc_nanotime.rnt_shift = 32
  · simp only [h32, if_true, u64]
  · simp only [if_neg h32, u64]

/-- C5 (amended): with a non-zero scale and a delta of `2^32` cycles or more,
`_rtc_nanotime_read` returns `rnt_nanos + tsc_to_nanoseconds(delta)`: the conversion of
the calibrated mode at full width, which is the 96-bit multiply by numer shifted right
by 32 (`fast_get_nano_from_abs`) when denom is `0xFFFFFFFF`, and the widened multiply and
divide (`longmul`, `longdiv`) otherwise. -/
theorem C5_long_delta_conversion (s : rtclock_state) (tsc : Nat)
    (hne : s.cpu.cpu_rtc_nanotime.rnt_scale ≠ 0)
    (hlong : 2 ^ 32 ≤ sub64 tsc s.cpu.cpu_rtc_nanotime.rnt_tsc) :
    _rtc_nanotime_read s tsc
        = (tsc_to_nanoseconds s (sub64 tsc s.cpu.cpu_rtc_nanotime.rnt_tsc)).map
            (fun ns => u64 (s.cpu.cpu_rtc_nanotime.rnt_nanos + ns))
    ∧ (s.rtclock.timebase_const.denom = RTC_FAST_DENOM →
        tsc_to_nanoseconds s (sub64 tsc s.cpu.cpu_rtc_nanotime.rnt_tsc)
          = some (fast_get_nano_from_abs (sub64 tsc s.cpu.cpu_rtc_nanotime.rnt_tsc)
              s.rtclock.timebase_const.numer)
        ∧ fast_get_nano_from_abs (sub64 tsc s.cpu.cpu_rtc_nanotime.rnt_tsc)
              s.rtclock.timebase_const.numer
          = sub64 tsc s.cpu.cpu_rtc_nanotime.rnt_tsc * u32 s.rtclock.timebase_const.numer
              / 2 ^ 32)
    ∧ (s.rtclock.timebase_const.denom ≠ RTC_FAST_DENOM →
        tsc_to_nanoseconds s (sub64 tsc s.cpu.cpu_rtc_nanotime.rnt_tsc)
          = longdiv (longmul (sub64 tsc s.cpu.cpu_rtc_nanotime.rnt_tsc)
              s.rtclock.timebase_const.numer) s.rtclock.timebase_const.denom) := by
  have hdiv : sub64 tsc s.cpu.cpu_rtc_nanotime.rnt_tsc / 2 ^ 32 ≠ 0 := by
    have : 0 < sub64 tsc s.cpu.cpu_rtc_nanotime.rnt_tsc / 2 ^ 32 :=
      Nat.div_pos hlong (by norm_num)
    omega
  refine ⟨?_, fun hd => ⟨?_, fast_get_nano_from_abs_val _ _ (sub64_lt _ _)⟩, fun hd => ?_⟩
  · simp only [_rtc_nanotime_read, if_neg hne, if_pos hdiv]
  · simp only [tsc_to_nanoseconds, hd, if_true]
  · simp only [tsc_to_nanoseconds, if_neg hd]

/-- The example states are what calibration and initialisation produce. -/
theorem example_states_calibrated :
    (rtc_set_cyc_per_sec boot_state 100000000).bind
        (fun r => rtc_nanotime_init r.1 0 r.1.cpu.cpu_rtc_nanotime) = some example_fast_state
    ∧ (rtc_set_cyc_per_sec boot_state 25000000).bind
        (fun r => rtc_nanotime_init r.1 0 r.1.cpu.cpu_rtc_nanotime)
          = some example_precise_state := by
  decide

/-- C4 at 2 GHz, 1000 cycles after the base: 500 ns; and with a zero scale at boot: 0. -/
theorem C4_fast_nanotime_formula_witness :
    _rtc_nanotime_read example_fast_state 1000 = some ((0 + (1000 - 0) * 2147483648 / 2 ^ 32) % 2 ^ 64)
    ∧ (1000 - 0) * 2147483648 < 2 ^ 64
    ∧ _rtc_nanotime_read boot_state 1000 = some 0 :=
  ⟨((C4_fast_nanotime_formula example_fast_state 1000).1
      (by decide) (by decide) (by decide) (by decide) (by decide) (by decide)).1,
   ((C4_fast_nanotime_formula example_fast_state 1000).1
      (by decide) (by decide) (by decide) (by decide) (by decide) (by decide)).2,
   (C4_fast_nanotime_formula boot_state 1000).2 (by decide)⟩

/-- C5 fails as stated: at 2 GHz (fast path selected at calibration) a read `2^34`
cycles after the base returns 8589934592, the multiply-shift of the fast conversion,
while the precise conversion of that delta (`longmul` by numer, `longdiv` by denom)
gives 8589934594. -/
theorem C5_counterexample :
    2 ^ 32 ≤ sub64 (2 ^ 34) example_fast_state.cpu.cpu_rtc_nanotime.rnt_tsc
    ∧ _rtc_nanotime_read example_fast_state (2 ^ 34) = some 8589934592
    ∧ (longdiv (longmul (sub64 (2 ^ 34) example_fast_state.cpu.cpu_rtc_nanotime.rnt_tsc)
          example_fast_state.rtclock.timebase_const.numer)
          example_fast_state.rtclock.timebase_const.denom).map
        (fun ns => u64 (example_fast_state.cpu.cpu_rtc_nanotime.rnt_nanos + ns))
        = some 8589934594 := by
  decide

/-- C5 (amended) at 2 GHz, `2^34` cycles after the base. -/
theorem C5_long_delta_conversion_witness :
    (example_fast_state.cpu.cpu_rtc_nanotime.rnt_scale ≠ 0
      ∧ 2 ^ 32 ≤ sub64 (2 ^ 34) example_fast_state.cpu.cpu_rtc_nanotime.rnt_tsc)
    ∧ _rtc_nanotime_read example_fast_state (2 ^ 34)
        = (tsc_to_nanoseconds example_fast_state
            (sub64 (2 ^ 34) example_fast_state.cpu.cpu_rtc_nanotime.rnt_tsc)).map
            (fun ns => u64 (example_fast_state.cpu.cpu_rtc_nanotime.rnt_nanos + ns)) :=
  ⟨by decide, (C5_long_delta_conversion example_fast_state (2 ^ 34) (by decide) (by decide)).1⟩

theorem rtc_nanotime_set_commpage_cpu (s : rtclock_state) (r : rtc_nanotime_t) :
    (rtc_nanotime_set_commpage s r).cpu = s.cpu := by
  unfold rtc_nanotime_set_commpage
  split <;> rfl

theorem rtc_nanotime_set_commpage_rtclock (s : rtclock_state) (r : rtc_nanotime_t) :
    (rtc_nanotime_set_commpage s r).rtclock = s.rtclock := by
  unfold rtc_nanotime_set_commpage
  split <;> rfl

/-- Reads depend on the state only through the record and the timebase constants. -/
theorem _rtc_nanotime_read_congr (s t : rtclock_state) (tsc : Nat)
    (hcpu : s.cpu.cpu_rtc_nanotime = t.cpu.cpu_rtc_nanotime)
    (htb : s.rtclock.timebase_const = t.rtclock.timebase_const) :
    _rtc_nanotime_read s tsc = _rtc_nanotime_read t tsc := by
  simp only [_rtc_nanotime_read, tsc_to_nanoseconds, hcpu, htb]

/-- C6: whenever `rtc_nanotime_scale_update` completes, the record has
`rnt_step_tsc = rnt_tsc`, `rnt_step_nanos = rnt_nanos`, `rnt_scale = rtc_quant_scale`,
`rnt_shift = rtc_quant_shift`, and `_rtc_nanotime_read` at `rnt_step_tsc` with the new
non-zero scale yields exactly `rnt_step_nanos`.  It completes exactly when the
conversion of the cycles since the old step does not trap: always on the fast path,
and on the precise path when the divisor is non-zero and the quotient fits 64 bits. -/
theorem C6_rescale_continuity (s : rtclock_state) (tsc : Nat)
    (hscale : s.rtc_quant_scale ≠ 0) (hshift : s.rtc_quant_shift < 64) :
    (∀ s1, rtc_nanotime_scale_update s tsc = some s1 →
        s1.cpu.cpu_rtc_nanotime.rnt_step_tsc = s1.cpu.cpu_rtc_nanotime.rnt_tsc
        ∧ s1.cpu.cpu_rtc_nanotime.rnt_step_nanos = s1.cpu.cpu_rtc_nanotime.rnt_nanos
        ∧ s1.cpu.cpu_rtc_nanotime.rnt_scale = s.rtc_quant_scale
        ∧ s1.cpu.cpu_rtc_nanotime.rnt_shift = s.rtc_quant_shift
        ∧ _rtc_nanotime_read s1 s1.cpu.cpu_rtc_nanotime.rnt_step_tsc
            = some s1.cpu.cpu_rtc_nanotime.rnt_step_nanos)
    ∧ ((rtc_nanotime_scale_update s tsc).isSome ↔
        (s.rtclock.timebase_const.denom = RTC_FAST_DENOM
          ∨ (u32 s.rtclock.timebase_const.denom ≠ 0
            ∧ sub64 tsc s.cpu.cpu_rtc_nanotime.rnt_step_tsc * u32 s.rtclock.timebase_const.numer
                / u32 s.rtclock.timebase_const.denom < 2 ^ 64))) := by
  constructor
  · intro s1 h
    simp only [rtc_nanotime_scale_update, _rtc_nanotime_update, Option.bind_eq_bind,
      Option.pure_def, Option.bind_eq_some, Option.some.injEq] at h
    obtain ⟨s2, ⟨ns, _, rfl⟩, rfl⟩ := h
    refine ⟨by rw [rtc_nanotime_set_commpage_cpu], by rw [rtc_nanotime_set_commpage_cpu],
      by rw [rtc_nanotime_set_commpage_cpu], by rw [rtc_nanotime_set_commpage_cpu], ?_⟩
    simp only [_rtc_nanotime_read, rtc_nanotime_set_commpage_cpu, if_neg hscale, sub64_self,
      Nat.zero_div, ne_eq, not_true_eq_false, if_false, Nat.zero_mul, u64, shr64, if_pos hshift,
      Nat.zero_mod, Nat.add_zero, Option.map_some', Nat.mod_mod, ite_self]
  · have hx := sub64_lt tsc s.cpu.cpu_rtc_nanotime.rnt_step_tsc
    by_cases hd : s.rtclock.timebase_const.denom = RTC_FAST_DENOM
    · simp [rtc_nanotime_scale_update, _rtc_nanotime_update, tsc_to_nanoseconds_fast _ _ hx hd, hd]
    · simp only [rtc_nanotime_scale_update, _rtc_nanotime_update,
        tsc_to_nanoseconds_precise _ _ hx hd, hd, false_or]
      split_ifs with h0 h1
      · simp [h0]
      · simpa [h0] using h1
      · simpa [h0] using h1

/-- C6 at 500 MHz, rescaling at cycle 1000: the frozen pair is (1000, 2000), and the
precise conversion does not trap. -/
theorem C6_rescale_continuity_witness :
    (example_precise_state.rtc_quant_scale ≠ 0 ∧ example_precise_state.rtc_quant_shift < 64)
    ∧ (rtc_nanotime_scale_update example_precise_state 1000).isSome
    ∧ (∀ s1, rtc_nanotime_scale_update example_precise_state 1000 = some s1 →
        s1.cpu.cpu_rtc_nanotime.rnt_step_tsc = s1.cpu.cpu_rtc_nanotime.rnt_tsc
        ∧ s1.cpu.cpu_rtc_nanotime.rnt_step_nanos = s1.cpu.cpu_rtc_nanotime.rnt_nanos
        ∧ s1.cpu.cpu_rtc_nanotime.rnt_scale = example_precise_state.rtc_quant_scale
        ∧ s1.cpu.cpu_rtc_nanotime.rnt_shift = example_precise_state.rtc_quant_shift
        ∧ _rtc_nanotime_read s1 s1.cpu.cpu_rtc_nanotime.rnt_step_tsc
            = some s1.cpu.cpu_rtc_nanotime.rnt_step_nanos) :=
  ⟨by decide, by decide,
    (C6_rescale_continuity example_precise_state 1000 (by decide) (by decide)).1⟩

/-! ## Monotonicity of the nanotime clock -/

theorem conv_mono (N D : Nat) {a b : Nat} (h : a ≤ b) : a * N / D ≤ b * N / D :=
  Nat.div_le_div_right (Nat.mul_le_mul_right N h)

theorem conv_superadd (N D a b : Nat) : a * N / D + b * N / D ≤ (a + b) * N / D := by
  rw [Nat.add_mul]
  exact Nat.add_div_le_add_div _ _ _

theorem tsc_to_nanoseconds_congr (s t : rtclock_state) (x : Nat)
    (htb : s.rtclock.timebase_const = t.rtclock.timebase_const) :
    tsc_to_nanoseconds s x = tsc_to_nanoseconds t x := by
  simp only [tsc_to_nanoseconds, htb]

/-- The two shapes of constants `rtc_set_cyc_per_sec` can install. -/
theorem rtc_set_cyc_per_sec_mode (s0 sc : rtclock_state) (c ret : Nat)
    (hcal : rtc_set_cyc_per_sec s0 c = some (sc, ret)) :
    (sc.rtclock.timebase_const.denom = RTC_FAST_DENOM
      ∧ sc.rtclock.timebase_const.numer = sc.rtc_quant_scale
      ∧ sc.rtc_quant_scale < 2 ^ 32 ∧ sc.rtc_quant_shift = 32)
    ∨ (sc.rtclock.timebase_const.denom ≠ RTC_FAST_DENOM
      ∧ u32 sc.rtclock.timebase_const.denom = sc.rtclock.timebase_const.denom
      ∧ 0 < sc.rtclock.timebase_const.denom
      ∧ sc.rtclock.timebase_const.numer = 50000000
      ∧ sc.rtc_quant_shift = 26
      ∧ sc.rtc_quant_scale * sc.rtclock.timebase_const.denom ≤ 50000000 * 2 ^ 26
      ∧ sc.rtc_quant_scale < 2 ^ 32) := by
  by_cases hq : u32 c = 0
  · simp [rtc_set_cyc_per_sec, create_mul_quant_GHZ, hq] at hcal
  have hqpos : 0 < u32 c := Nat.pos_of_ne_zero hq
  by_cases hfast : c > NSEC_PER_SEC / 20
  · left
    simp only [rtc_set_cyc_per_sec, if_pos hfast, create_mul_quant_GHZ_of_pos _ _ hq,
      Option.bind_eq_bind, Option.pure_def, Option.some_bind, Option.some.injEq,
      Prod.mk.injEq] at hcal
    obtain ⟨rfl, _⟩ := hcal
    exact ⟨rfl, rfl, u32_lt _, rfl⟩
  · right
    simp only [rtc_set_cyc_per_sec, if_neg hfast, create_mul_quant_GHZ_of_pos _ _ hq,
      Option.bind_eq_bind, Option.pure_def, Option.some_bind, Option.some.injEq,
      Prod.mk.injEq] at hcal
    obtain ⟨rfl, _⟩ := hcal
    have hc : c ≤ 50000000 := by
      have : NSEC_PER_SEC / 20 = 50000000 := by decide
      omega
    have hcu : u32 c = c := u32_of_lt (by omega)
    have hnum : u32 (NSEC_PER_SEC / 20) = 50000000 := by decide
    have h26 : u64 ((NSEC_PER_SEC / 20) * 2 ^ 26) = 50000000 * 2 ^ 26 := by decide
    refine ⟨?_, ?_, ?_, hnum, rfl, ?_, u32_lt _⟩
    · show u32 c ≠ RTC_FAST_DENOM
      rw [hcu]
      have : RTC_FAST_DENOM = 4294967295 := by decide
      omega
    · show u32 (u32 c) = u32 c
      rw [hcu, hcu]
    · exact hqpos
    · show u32 (u64 ((NSEC_PER_SEC / 20) * 2 ^ 26) / u32 c) * u32 c ≤ 50000000 * 2 ^ 26
      rw [h26]
      calc u32 (50000000 * 2 ^ 26 / u32 c) * u32 c
          ≤ (50000000 * 2 ^ 26 / u32 c) * u32 c :=
            Nat.mul_le_mul_right _ (Nat.mod_le _ _)
        _ ≤ 50000000 * 2 ^ 26 := Nat.div_mul_le_self _ _

/-- With constants installed by `rtc_set_cyc_per_sec`, `tsc_to_nanoseconds` is
`floor(x * N / D)` for one ratio `N / D` (trapping when the value exceeds 64 bits),
and the inline scale-and-shift of the record never exceeds it. -/
theorem calibrated_conv (s0 sc s : rtclock_state) (c ret : Nat)
    (hcal : rtc_set_cyc_per_sec s0 c = some (sc, ret))
    (htb : s.rtclock.timebase_const = sc.rtclock.timebase_const)
    (hsc : s.cpu.cpu_rtc_nanotime.rnt_scale = sc.rtc_quant_scale)
    (hsh : s.cpu.cpu_rtc_nanotime.rnt_shift = sc.rtc_quant_shift) :
    ∃ N D, (∀ x, x < 2 ^ 64 →
        tsc_to_nanoseconds s x = if x * N / D < 2 ^ 64 then some (x * N / D) else none)
      ∧ (∀ d, d * s.cpu.cpu_rtc_nanotime.rnt_scale / 2 ^ s.cpu.cpu_rtc_nanotime.rnt_shift
          ≤ d * N / D)
      ∧ s.cpu.cpu_rtc_nanotime.rnt_shift < 64
      ∧ s.cpu.cpu_rtc_nanotime.rnt_scale < 2 ^ 32 := by
  rcases rtc_set_cyc_per_sec_mode s0 sc c ret hcal with
    ⟨hd, hn, hlt, h32⟩ | ⟨hd, hdu, hdpos, hn, h26, hle, hlt⟩
  · refine ⟨sc.rtc_quant_scale, 2 ^ 32, fun x hx => ?_, fun d => ?_, by omega, by omega⟩
    · have hfit : x * sc.rtc_quant_scale / 2 ^ 32 < 2 ^ 64 := by
        rw [Nat.div_lt_iff_lt_mul (by norm_num)]
        exact Nat.mul_lt_mul'' hx hlt
      rw [tsc_to_nanoseconds_fast s x hx (htb ▸ hd), htb, hn, u32_of_lt hlt, if_pos hfit]
    · rw [hsc, hsh, h32]
  · refine ⟨50000000, sc.rtclock.timebase_const.denom, fun x hx => ?_, fun d => ?_,
      by omega, by omega⟩
    · have hnu : u32 50000000 = 50000000 := by decide
      have hne : u32 sc.rtclock.timebase_const.denom ≠ 0 := by omega
      rw [tsc_to_nanoseconds_precise s x hx (htb ▸ hd), htb, hn, hdu, hnu]
      rw [hdu] at hne
      rw [if_neg hne]
    · rw [hsc, hsh, h26, Nat.le_div_iff_mul_le hdpos]
      have h1 : d * sc.rtc_quant_scale / 2 ^ 26 * 2 ^ 26 ≤ d * sc.rtc_quant_scale :=
        Nat.div_mul_le_self _ _
      have h2 : d * sc.rtc_quant_scale * sc.rtclock.timebase_const.denom
          ≤ d * 50000000 * 2 ^ 26 := by
        calc d * sc.rtc_quant_scale * sc.rtclock.timebase_const.denom
            = d * (sc.rtc_quant_scale * sc.rtclock.timebase_const.denom) := by ring
          _ ≤ d * (50000000 * 2 ^ 26) := Nat.mul_le_mul_left _ hle
          _ = d * 50000000 * 2 ^ 26 := by ring
      have h3 : (d * sc.rtc_quant_scale / 2 ^ 26 * sc.rtclock.timebase_const.denom) * 2 ^ 26
          ≤ (d * 50000000) * 2 ^ 26 := by
        calc (d * sc.rtc_quant_scale / 2 ^ 26 * sc.rtclock.timebase_const.denom) * 2 ^ 26
            = (d * sc.rtc_quant_scale / 2 ^ 26 * 2 ^ 26) * sc.rtclock.timebase_const.denom := by
              ring
          _ ≤ d * sc.rtc_quant_scale * sc.rtclock.timebase_const.denom :=
              Nat.mul_le_mul_right _ h1
          _ ≤ d * 50000000 * 2 ^ 26 := h2
      exact Nat.le_of_mul_le_mul_right h3 (by norm_num)

/-- The value of a read at or after the base, when the exact conversion fits 64 bits:
the record's nanoseconds plus the full-width conversion for a delta of `2^32` or more,
and plus the inline scale-and-shift below that. -/
theorem _rtc_nanotime_read_val (s : rtclock_state) (N D : Nat)
    (hconv : ∀ x, x < 2 ^ 64 →
      tsc_to_nanoseconds s x = if x * N / D < 2 ^ 64 then some (x * N / D) else none)
    (hinl : ∀ d, d * s.cpu.cpu_rtc_nanotime.rnt_scale / 2 ^ s.cpu.cpu_rtc_nanotime.rnt_shift
      ≤ d * N / D)
    (hsh : s.cpu.cpu_rtc_nanotime.rnt_shift < 64)
    (hsc : s.cpu.cpu_rtc_nanotime.rnt_scale < 2 ^ 32)
    (hne : s.cpu.cpu_rtc_nanotime.rnt_scale ≠ 0)
    (t : Nat) (hle : s.cpu.cpu_rtc_nanotime.rnt_tsc ≤ t) (ht : t < 2 ^ 64)
    (hfit : s.cpu.cpu_rtc_nanotime.rnt_nanos + (t - s.cpu.cpu_rtc_nanotime.rnt_tsc) * N / D
      < 2 ^ 64) :
    _rtc_nanotime_read s t = some (s.cpu.cpu_rtc_nanotime.rnt_nanos +
      (if 2 ^ 32 ≤ t - s.cpu.cpu_rtc_nanotime.rnt_tsc
        then (t - s.cpu.cpu_rtc_nanotime.rnt_tsc) * N / D
        else (t - s.cpu.cpu_rtc_nanotime.rnt_tsc) * s.cpu.cpu_rtc_nanotime.rnt_scale
          / 2 ^ s.cpu.cpu_rtc_nanotime.rnt_shift)) := by
  have hsub := sub64_of_le hle ht
  have hdlt : t - s.cpu.cpu_rtc_nanotime.rnt_tsc < 2 ^ 64 := by omega
  have hi := hinl (t - s.cpu.cpu_rtc_nanotime.rnt_tsc)
  by_cases hlong : 2 ^ 32 ≤ t - s.cpu.cpu_rtc_nanotime.rnt_tsc
  · have hdiv : (t - s.cpu.cpu_rtc_nanotime.rnt_tsc) / 2 ^ 32 ≠ 0 := by
      have : 0 < (t - s.cpu.cpu_rtc_nanotime.rnt_tsc) / 2 ^ 32 :=
        Nat.div_pos hlong (by norm_num)
      omega
    have hf : (t - s.cpu.cpu_rtc_nanotime.rnt_tsc) * N / D < 2 ^ 64 := by omega
    simp only [_rtc_nanotime_read, if_neg hne, hsub, if_pos hdiv, hconv _ hdlt, if_pos hf,
      Option.map_some', if_pos hlong, u64_of_lt hfit]
  · have hshort : t - s.cpu.cpu_rtc_nanotime.rnt_tsc < 2 ^ 32 := by omega
    have hdiv : ¬ (t - s.cpu.cpu_rtc_nanotime.rnt_tsc) / 2 ^ 32 ≠ 0 := by
      rw [Nat.div_eq_of_lt hshort]
      simp
    have hprod : (t - s.cpu.cpu_rtc_nanotime.rnt_tsc) * s.cpu.cpu_rtc_nanotime.rnt_scale
        < 2 ^ 64 := by
      have := mul_word_bound hshort hsc
      omega
    have hfit2 : s.cpu.cpu_rtc_nanotime.rnt_nanos +
        (t - s.cpu.cpu_rtc_nanotime.rnt_tsc) * s.cpu.cpu_rtc_nanotime.rnt_scale
          / 2 ^ s.cpu.cpu_rtc_nanotime.rnt_shift < 2 ^ 64 := by omega
    simp only [_rtc_nanotime_read, if_neg hne, hsub, if_neg hdiv, u64_of_lt hprod, shr64,
      if_pos hsh, Option.map_some', if_neg hlong]
    by_cases h32 : s.cpu.cpu_rtc_nanotime.rnt_shift = 32
    · rw [if_pos h32]
      rw [h32] at hfit2
      rw [u64_of_lt hfit2, h32]
    · rw [if_neg h32, u64_of_lt hfit2]

/-- The value added to the record's nanoseconds by a read grows with the delta. -/
theorem read_delta_mono (N D scale shift : Nat)
    (hinl : ∀ d, d * scale / 2 ^ shift ≤ d * N / D) {d1 d2 : Nat} (h : d1 ≤ d2) :
    (if 2 ^ 32 ≤ d1 then d1 * N / D else d1 * scale / 2 ^ shift)
      ≤ (if 2 ^ 32 ≤ d2 then d2 * N / D else d2 * scale / 2 ^ shift) := by
  have hf := conv_mono N D h
  have hg : d1 * scale / 2 ^ shift ≤ d2 * scale / 2 ^ shift :=
    Nat.div_le_div_right (Nat.mul_le_mul_right scale h)
  have h1 := hinl d1
  split_ifs with ha hb hb
  · exact hf
  · omega
  · exact le_trans h1 hf
  · exact hg

/-- The value added by a read never exceeds the exact conversion of the delta. -/
theorem read_delta_le (N D scale shift : Nat)
    (hinl : ∀ d, d * scale / 2 ^ shift ≤ d * N / D) (d : Nat) :
    (if 2 ^ 32 ≤ d then d * N / D else d * scale / 2 ^ shift) ≤ d * N / D := by
  split_ifs
  · exact le_rfl
  · exact hinl d

/-- A completed `rtc_nanotime_update` rewrites `rnt_tsc` and `rnt_nanos` and nothing
else of the clock constants or the record. -/
theorem rtc_nanotime_update_some (s : rtclock_state) (u n : Nat)
    (h : tsc_to_nanoseconds s (sub64 u s.cpu.cpu_rtc_nanotime.rnt_step_tsc) = some n) :
    ∃ su, rtc_nanotime_update s u = some su
      ∧ su.rtclock = s.rtclock
      ∧ su.cpu.cpu_rtc_nanotime =
        { s.cpu.cpu_rtc_nanotime with
          rnt_nanos := u64 (s.cpu.cpu_rtc_nanotime.rnt_step_nanos + n)
          rnt_tsc := u } := by
  simp only [rtc_nanotime_update, _rtc_nanotime_update, h, Option.bind_eq_bind,
    Option.pure_def, Option.some_bind]
  exact ⟨_, rfl, by rw [rtc_nanotime_set_commpage_rtclock],
    by rw [rtc_nanotime_set_commpage_cpu]⟩

/-- C1: with constants installed by `rtc_set_cyc_per_sec` and a record as left by
`rtc_nanotime_init` / `rtc_nanotime_update` (`rnt_nanos = rnt_step_nanos +
tsc_to_nanoseconds(rnt_tsc - rnt_step_tsc)`), for counter values
`rnt_tsc <= t1 <= t2 < 2^64` whose time since the step converts without trap and
without 64-bit wrap-around, both reads return and the read at `t2` is at least the
read at `t1`; the same holds when `rtc_nanotime_update` runs at any `u` with
`t1 <= u <= t2` between the two reads.  No bound is put on `t1 - rnt_tsc` or
`t2 - rnt_tsc`, so the reads may lie on either side of the 32-bit delta boundary. -/
theorem C1_nanotime_monotonic (s0 sc s : rtclock_state) (c ret t1 t2 : Nat)
    (hcal : rtc_set_cyc_per_sec s0 c = some (sc, ret))
    (htb : s.rtclock.timebase_const = sc.rtclock.timebase_const)
    (hsc : s.cpu.cpu_rtc_nanotime.rnt_scale = sc.rtc_quant_scale)
    (hsh : s.cpu.cpu_rtc_nanotime.rnt_shift = sc.rtc_quant_shift)
    (hrec : ∃ n, tsc_to_nanoseconds s
        (sub64 s.cpu.cpu_rtc_nanotime.rnt_tsc s.cpu.cpu_rtc_nanotime.rnt_step_tsc) = some n
      ∧ s.cpu.cpu_rtc_nanotime.rnt_nanos = u64 (s.cpu.cpu_rtc_nanotime.rnt_step_nanos + n))
    (hstep : s.cpu.cpu_rtc_nanotime.rnt_step_tsc ≤ s.cpu.cpu_rtc_nanotime.rnt_tsc)
    (hb1 : s.cpu.cpu_rtc_nanotime.rnt_tsc ≤ t1) (h12 : t1 ≤ t2) (ht2 : t2 < 2 ^ 64)
    (hnowrap : ∃ n, tsc_to_nanoseconds s
        (sub64 t2 s.cpu.cpu_rtc_nanotime.rnt_step_tsc) = some n
      ∧ s.cpu.cpu_rtc_nanotime.rnt_step_nanos + n < 2 ^ 64) :
    ∃ r1 r2, _rtc_nanotime_read s t1 = some r1 ∧ _rtc_nanotime_read s t2 = some r2 ∧ r1 ≤ r2
      ∧ ∀ u, t1 ≤ u → u ≤ t2 →
          ∃ su r2u, rtc_nanotime_update s u = some su
            ∧ _rtc_nanotime_read su t2 = some r2u ∧ r1 ≤ r2u := by
  obtain ⟨N, D, hconv, hinl, hshift, hscale⟩ := calibrated_conv s0 sc s c ret hcal htb hsc hsh
  obtain ⟨n0, hn0, hnanos⟩ := hrec
  obtain ⟨nT, hnT, hfitT⟩ := hnowrap
  -- the exact conversions involved
  have hval : ∀ x, x < 2 ^ 64 → ∀ n, tsc_to_nanoseconds s x = some n →
      x * N / D = n ∧ x * N / D < 2 ^ 64 := by
    intro x hx n h
    rw [hconv x hx] at h
    split_ifs at h with hlt
    exact ⟨Option.some.inj h, hlt⟩
  have hsubT := sub64_of_le (le_trans hstep (le_trans hb1 h12)) ht2
  have hsub0 := sub64_of_le hstep (by omega : s.cpu.cpu_rtc_nanotime.rnt_tsc < 2 ^ 64)
  rw [hsubT] at hnT
  rw [hsub0] at hn0
  obtain ⟨hfT, _⟩ := hval _ (by omega) _ hnT
  obtain ⟨hf0, _⟩ := hval _ (by omega) _ hn0
  -- every shorter stretch since the step converts below the bound
  have hbound : ∀ x, x ≤ t2 - s.cpu.cpu_rtc_nanotime.rnt_step_tsc →
      s.cpu.cpu_rtc_nanotime.rnt_step_nanos + x * N / D < 2 ^ 64 := by
    intro x hx
    have := conv_mono N D hx
    omega
  have hsplit : ∀ a b, a ≤ b → s.cpu.cpu_rtc_nanotime.rnt_step_tsc ≤ a →
      (a - s.cpu.cpu_rtc_nanotime.rnt_step_tsc) * N / D + (b - a) * N / D
        ≤ (b - s.cpu.cpu_rtc_nanotime.rnt_step_tsc) * N / D := by
    intro a b hab hsa
    have := conv_superadd N D (a - s.cpu.cpu_rtc_nanotime.rnt_step_tsc) (b - a)
    have he : a - s.cpu.cpu_rtc_nanotime.rnt_step_tsc + (b - a)
        = b - s.cpu.cpu_rtc_nanotime.rnt_step_tsc := by omega
    rwa [he] at this
  have hnanos2 : s.cpu.cpu_rtc_nanotime.rnt_nanos
      = s.cpu.cpu_rtc_nanotime.rnt_step_nanos
        + (s.cpu.cpu_rtc_nanotime.rnt_tsc - s.cpu.cpu_rtc_nanotime.rnt_step_tsc) * N / D := by
    rw [hnanos, ← hf0, u64_of_lt (hbound _ (by omega))]
  have hfit : ∀ t, s.cpu.cpu_rtc_nanotime.rnt_tsc ≤ t → t ≤ t2 →
      s.cpu.cpu_rtc_nanotime.rnt_nanos + (t - s.cpu.cpu_rtc_nanotime.rnt_tsc) * N / D
        ≤ s.cpu.cpu_rtc_nanotime.rnt_step_nanos
          + (t - s.cpu.cpu_rtc_nanotime.rnt_step_tsc) * N / D := by
    intro t hbt _
    have := hsplit s.cpu.cpu_rtc_nanotime.rnt_tsc t hbt hstep
    omega
  have hfit64 : ∀ t, s.cpu.cpu_rtc_nanotime.rnt_tsc ≤ t → t ≤ t2 →
      s.cpu.cpu_rtc_nanotime.rnt_nanos + (t - s.cpu.cpu_rtc_nanotime.rnt_tsc) * N / D
        < 2 ^ 64 := by
    intro t hbt htt
    have h1 := hfit t hbt htt
    have h2 := hbound (t - s.cpu.cpu_rtc_nanotime.rnt_step_tsc) (by omega)
    omega
  -- the update at `u` does not trap and keeps the constants
  have hupd : ∀ u, t1 ≤ u → u ≤ t2 → ∃ su, rtc_nanotime_update s u = some su
      ∧ su.rtclock.timebase_const = s.rtclock.timebase_const
      ∧ su.cpu.cpu_rtc_nanotime =
        { s.cpu.cpu_rtc_nanotime with
          rnt_nanos := s.cpu.cpu_rtc_nanotime.rnt_step_nanos
            + (u - s.cpu.cpu_rtc_nanotime.rnt_step_tsc) * N / D
          rnt_tsc := u } := by
    intro u h1u hu2
    have hsubu := sub64_of_le (le_trans hstep (le_trans hb1 h1u)) (by omega : u < 2 ^ 64)
    have hb := hbound (u - s.cpu.cpu_rtc_nanotime.rnt_step_tsc) (by omega)
    have hlt : (u - s.cpu.cpu_rtc_nanotime.rnt_step_tsc) * N / D < 2 ^ 64 := by omega
    have hc := hconv _ (by omega : u - s.cpu.cpu_rtc_nanotime.rnt_step_tsc < 2 ^ 64)
    rw [if_pos hlt, ← hsubu] at hc
    obtain ⟨su, hsu, hrt, hcpu⟩ := rtc_nanotime_update_some s u _ hc
    refine ⟨su, hsu, by rw [hrt], ?_⟩
    rw [hcpu, hsubu, u64_of_lt hb]
  by_cases hne : s.cpu.cpu_rtc_nanotime.rnt_scale = 0
  · -- a zero scale reads 0 throughout
    refine ⟨0, 0, by simp [_rtc_nanotime_read, hne], by simp [_rtc_nanotime_read, hne],
      le_rfl, fun u h1u hu2 => ?_⟩
    obtain ⟨su, hsu, _, hcpu⟩ := hupd u h1u hu2
    exact ⟨su, 0, hsu, by simp [_rtc_nanotime_read, hcpu, hne], le_rfl⟩
  · have hr1 := _rtc_nanotime_read_val s N D hconv hinl hshift hscale hne t1 hb1 (by omega)
      (hfit64 t1 hb1 h12)
    have hr2 := _rtc_nanotime_read_val s N D hconv hinl hshift hscale hne t2 (by omega) ht2
      (hfit64 t2 (by omega) le_rfl)
    refine ⟨_, _, hr1, hr2, ?_, fun u h1u hu2 => ?_⟩
    · have := read_delta_mono N D _ _ hinl
        (by omega : t1 - s.cpu.cpu_rtc_nanotime.rnt_tsc ≤ t2 - s.cpu.cpu_rtc_nanotime.rnt_tsc)
      omega
    · obtain ⟨su, hsu, hsutb, hcpu⟩ := hupd u h1u hu2
      have hconv2 : ∀ x, x < 2 ^ 64 →
          tsc_to_nanoseconds su x = if x * N / D < 2 ^ 64 then some (x * N / D) else none := by
        intro x hx
        rw [tsc_to_nanoseconds_congr su s x hsutb]
        exact hconv x hx
      have hs1 := hsplit u t2 hu2 (by omega)
      have hbT := hbound (t2 - s.cpu.cpu_rtc_nanotime.rnt_step_tsc) le_rfl
      have hr2u := _rtc_nanotime_read_val su N D hconv2
        (by rw [hcpu]; exact hinl) (by rw [hcpu]; exact hshift) (by rw [hcpu]; exact hscale)
        (by rw [hcpu]; exact hne) t2 (by rw [hcpu]; exact hu2) ht2
        (by rw [hcpu]; show _ + _ + (t2 - u) * N / D < 2 ^ 64; omega)
      refine ⟨su, _, hsu, hr2u, ?_⟩
      rw [hcpu]
      show _ ≤ s.cpu.cpu_rtc_nanotime.rnt_step_nanos
        + (u - s.cpu.cpu_rtc_nanotime.rnt_step_tsc) * N / D + _
      have h1 := read_delta_le N D _ _ hinl (t1 - s.cpu.cpu_rtc_nanotime.rnt_tsc)
      have h2 := hfit t1 hb1 h12
      have h3 := conv_mono N D
        (by omega : t1 - s.cpu.cpu_rtc_nanotime.rnt_step_tsc
          ≤ u - s.cpu.cpu_rtc_nanotime.rnt_step_tsc)
      omega

/-- C1 at 500 MHz (precise path), reading 1000 cycles and `2^33` cycles after the base:
the two reads lie on different sides of the 32-bit delta boundary. -/
theorem C1_nanotime_monotonic_witness :
    (rtc_set_cyc_per_sec boot_state 25000000
        = some ({ example_precise_state with cpu := boot_state.cpu }, 500000000)
      ∧ (1000 : Nat) - 0 < 2 ^ 32 ∧ 2 ^ 32 ≤ (2 ^ 33 : Nat) - 0)
    ∧ ∃ r1 r2, _rtc_nanotime_read example_precise_state 1000 = some r1
      ∧ _rtc_nanotime_read example_precise_state (2 ^ 33) = some r2 ∧ r1 ≤ r2
      ∧ ∀ u, 1000 ≤ u → u ≤ 2 ^ 33 →
          ∃ su r2u, rtc_nanotime_update example_precise_state u = some su
            ∧ _rtc_nanotime_read su (2 ^ 33) = some r2u ∧ r1 ≤ r2u :=
  ⟨by decide,
    C1_nanotime_monotonic boot_state { example_precise_state with cpu := boot_state.cpu }
      example_precise_state 25000000 500000000 1000 (2 ^ 33)
      (by decide) (by decide) (by decide) (by decide) ⟨0, by decide, by decide⟩
      (by decide) (by decide) (by decide) (by decide) ⟨17179869184, by decide, by decide⟩⟩

/-! ## The interrupt dispatcher -/

theorem MIN_eq_min (a b : Nat) : MIN a b = min a b := by
  unfold MIN
  split <;> omega

theorem MAX_eq_max (a b : Nat) : MAX a b = max a b := by
  unfold MAX
  split <;> omega

/-- The function `deadline_to_decrementer` clamps `deadline - now` into
`[rtc_decrementer_min, UINT_MAX]`, and gives `rtc_decrementer_min` for a deadline not
after `now`. -/
theorem deadline_to_decrementer_val (s : rtclock_state) (deadline now : Nat)
    (hmin : s.rtc_decrementer_min ≤ UINT_MAX) (hd : deadline < 2 ^ 64) :
    deadline_to_decrementer s deadline now =
      if deadline ≤ now then s.rtc_decrementer_min
      else max s.rtc_decrementer_min (min (deadline - now) UINT_MAX) := by
  have hU : UINT_MAX = 4294967295 := by decide
  unfold deadline_to_decrementer
  split_ifs with h
  · exact u32_of_lt (by omega)
  · have hsub : sub64 deadline now = deadline - now := by
      unfold sub64
      have h1 : now % 2 ^ 64 = now := Nat.mod_eq_of_lt (by omega)
      omega
    simp only [hsub, MIN_eq_min, MAX_eq_max, DECREMENTER_MAX]
    rw [u32_of_lt (by omega)]
    omega

theorem deadline_to_decrementer_le (s : rtclock_state) (deadline now : Nat) :
    deadline_to_decrementer s deadline now ≤ UINT_MAX := by
  have hU : UINT_MAX = 4294967295 := by decide
  unfold deadline_to_decrementer
  split_ifs
  · have := u32_lt s.rtc_decrementer_min
    omega
  · have := u32_lt (MIN (MAX s.rtc_decrementer_min (sub64 deadline now)) DECREMENTER_MAX)
    show u32 (MIN (MAX s.rtc_decrementer_min (sub64 deadline now)) DECREMENTER_MAX) ≤ UINT_MAX
    omega

/-- The value of `deadline_to_decrementer` grows with the deadline. -/
theorem deadline_to_decrementer_mono (s : rtclock_state) (d1 d2 now : Nat)
    (hmin : s.rtc_decrementer_min ≤ UINT_MAX) (h1 : d1 < 2 ^ 64) (h2 : d2 < 2 ^ 64)
    (h : d1 ≤ d2) :
    deadline_to_decrementer s d1 now ≤ deadline_to_decrementer s d2 now := by
  rw [deadline_to_decrementer_val s d1 now hmin h1, deadline_to_decrementer_val s d2 now hmin h2]
  split_ifs <;> omega

theorem _rtc_nanotime_read_lt (s : rtclock_state) (tsc a : Nat)
    (h : _rtc_nanotime_read s tsc = some a) : a < 2 ^ 64 := by
  unfold _rtc_nanotime_read at h
  simp only [shr64] at h
  split_ifs at h
  · cases h; norm_num
  · simp only [Option.map_eq_some'] at h
    obtain ⟨_, _, rfl⟩ := h
    exact u64_lt _
  · cases h; exact u64_lt _
  · simp only [Option.map_some', Option.some.injEq] at h
    subst h
    exact u64_lt _
  · simp at h

/-- The steps of a completed `rtclock_intr`, in order: first read, tick processing,
second read, timer processing, third read and reprogramming. -/
theorem rtclock_intr_unfold (env : rtclock_env) (s : rtclock_state)
    (regs : i386_interrupt_state) (t0 t1 t2 t3 : Nat) (s1 : rtclock_state)
    (tr : List rtc_event) (h : rtclock_intr env s regs t0 t1 t2 t3 = some (s1, tr)) :
    ∃ a0 sa eva a2 sb evb a3 ev,
      _rtc_nanotime_read s t0 = some a0
      ∧ ((s.cpu.cpu_rtc_tick_deadline ≤ a0
          ∧ ∃ su, rtc_nanotime_update s t1 = some su
            ∧ sa = { su with cpu := { su.cpu with cpu_rtc_tick_deadline :=
                (env.clock_deadline_for_periodic_event NSEC_PER_HZ a0
                  su.cpu.cpu_rtc_tick_deadline) } }
            ∧ eva = [rtc_event.hertz_tick
                (decide (regs.efl &&& env.EFL_VM ≠ 0) || decide (regs.cs &&& 0x03 ≠ 0))
                regs.eip])
        ∨ (¬ s.cpu.cpu_rtc_tick_deadline ≤ a0 ∧ sa = s ∧ eva = []))
      ∧ _rtc_nanotime_read sa t2 = some a2
      ∧ ((sa.cpu.cpu_rtc_timer.is_set = true ∧ sa.cpu.cpu_rtc_timer.deadline ≤ a2
          ∧ ∃ func sc, sa.rtclock_timer_expire = some func
            ∧ sc = env.timer_func func a2
                { sa with cpu := { sa.cpu with cpu_rtc_timer :=
                  { sa.cpu.cpu_rtc_timer with has_expired := true, is_set := false } } }
            ∧ sb = { sc with cpu := { sc.cpu with cpu_rtc_timer :=
                { sc.cpu.cpu_rtc_timer with has_expired := false } } }
            ∧ evb = [rtc_event.timer_expire func a2
                ⟨sa.cpu.cpu_rtc_timer.deadline, false, true⟩])
        ∨ (¬ (sa.cpu.cpu_rtc_timer.is_set = true ∧ sa.cpu.cpu_rtc_timer.deadline ≤ a2)
          ∧ sb = sa ∧ evb = []))
      ∧ _rtc_nanotime_read sb t3 = some a3
      ∧ rtc_lapic_set_timer sb
          (MIN (deadline_to_decrementer sb sb.cpu.cpu_rtc_tick_deadline a3)
            (if sb.cpu.cpu_rtc_timer.is_set then
              deadline_to_decrementer sb sb.cpu.cpu_rtc_timer.deadline a3
            else DECREMENTER_MAX)) = some ev
      ∧ s1 = { sb with cpu := { sb.cpu with cpu_rtc_intr_deadline :=
          (u64 (a3 + MIN (deadline_to_decrementer sb sb.cpu.cpu_rtc_tick_deadline a3)
            (if sb.cpu.cpu_rtc_timer.is_set then
              deadline_to_decrementer sb sb.cpu.cpu_rtc_timer.deadline a3
            else DECREMENTER_MAX))) } }
      ∧ tr = eva ++ evb ++
          [rtc_event.kernel_debug 0
              (u32 (2 ^ 32 - u32 (sub64 (u32 a0) s.cpu.cpu_rtc_intr_deadline))) (u32 regs.eip),
            ev,
            rtc_event.kernel_debug 1
              (MIN (deadline_to_decrementer sb sb.cpu.cpu_rtc_tick_deadline a3)
                (if sb.cpu.cpu_rtc_timer.is_set then
                  deadline_to_decrementer sb sb.cpu.cpu_rtc_timer.deadline a3
                else DECREMENTER_MAX)) 3] := by
  simp only [rtclock_intr, Option.bind_eq_some, Option.some.injEq, Prod.mk.injEq] at h
  obtain ⟨a0, h0, r1, hr1, a2, h2, r2, hr2, a3, h3, ev, hev, hs, htr⟩ := h
  refine ⟨a0, r1.1, r1.2, a2, r2.1, r2.2, a3, ev, h0, ?_, h2, ?_, h3, hev, hs.symm, htr.symm⟩
  · split_ifs at hr1 with hc
    · simp only [Option.bind_eq_some, Option.some.injEq] at hr1
      obtain ⟨su, hsu, rfl⟩ := hr1
      exact Or.inl ⟨hc, su, hsu, rfl, rfl⟩
    · cases hr1
      exact Or.inr ⟨hc, rfl, rfl⟩
  · split_ifs at hr2 with hc
    · simp only [Option.bind_eq_some, Option.some.injEq] at hr2
      obtain ⟨func, hf, rfl⟩ := hr2
      exact Or.inl ⟨hc.1, hc.2, func, _, hf, rfl, rfl, rfl⟩
    · cases hr2
      exact Or.inr ⟨hc, rfl, rfl⟩

/-- A completed `rtc_nanotime_update` leaves everything but the record and the
commpage as it was. -/
theorem rtc_nanotime_update_frame (s su : rtclock_state) (u : Nat)
    (h : rtc_nanotime_update s u = some su) :
    su.cpu.cpu_rtc_timer = s.cpu.cpu_rtc_timer
    ∧ su.cpu.cpu_rtc_tick_deadline = s.cpu.cpu_rtc_tick_deadline
    ∧ su.cpu.cpu_rtc_intr_deadline = s.cpu.cpu_rtc_intr_deadline
    ∧ su.rtclock_timer_expire = s.rtclock_timer_expire
    ∧ su.rtclock = s.rtclock := by
  simp only [rtc_nanotime_update, _rtc_nanotime_update, Option.bind_eq_bind, Option.pure_def,
    Option.bind_eq_some, Option.some.injEq] at h
  obtain ⟨s2, ⟨ns, _, rfl⟩, rfl⟩ := h
  simp only [rtc_nanotime_set_commpage]
  split_ifs <;> exact ⟨rfl, rfl, rfl, rfl, rfl⟩

theorem rtc_lapic_set_timer_is_lapic (s : rtclock_state) (interval : Nat) (ev : rtc_event)
    (h : rtc_lapic_set_timer s interval = some ev) :
    ev.is_lapic_set_timer = true ∧ ev.is_hertz_tick = false ∧ ev.is_timer_expire = false := by
  unfold rtc_lapic_set_timer at h
  split_ifs at h
  cases h
  exact ⟨rfl, rfl, rfl⟩

/-- The countdown a completed `rtclock_intr` programs, read off its final state. -/
theorem rtclock_intr_countdown (env : rtclock_env) (s : rtclock_state)
    (regs : i386_interrupt_state) (t0 t1 t2 t3 : Nat) (s1 : rtclock_state)
    (tr : List rtc_event) (h : rtclock_intr env s regs t0 t1 t2 t3 = some (s1, tr)) :
    ∃ now ev,
      _rtc_nanotime_read s1 t3 = some now
      ∧ rtc_lapic_set_timer s1
          (min (deadline_to_decrementer s1 s1.cpu.cpu_rtc_tick_deadline now)
            (if s1.cpu.cpu_rtc_timer.is_set then
              deadline_to_decrementer s1 s1.cpu.cpu_rtc_timer.deadline now
            else DECREMENTER_MAX)) = some ev
      ∧ tr.filter rtc_event.is_lapic_set_timer = [ev]
      ∧ s1.cpu.cpu_rtc_intr_deadline =
          u64 (now + min (deadline_to_decrementer s1 s1.cpu.cpu_rtc_tick_deadline now)
            (if s1.cpu.cpu_rtc_timer.is_set then
              deadline_to_decrementer s1 s1.cpu.cpu_rtc_timer.deadline now
            else DECREMENTER_MAX)) := by
  obtain ⟨a0, sa, eva, a2, sb, evb, a3, ev, _, hA, _, hB, h3, hev, hs, htr⟩ :=
    rtclock_intr_unfold env s regs t0 t1 t2 t3 s1 tr h
  have hread : _rtc_nanotime_read s1 t3 = some a3 := by
    rw [_rtc_nanotime_read_congr s1 sb t3 (by rw [hs]) (by rw [hs])]
    exact h3
  have hevl := (rtc_lapic_set_timer_is_lapic _ _ _ hev).1
  have heva : eva.filter rtc_event.is_lapic_set_timer = [] := by
    rcases hA with ⟨_, su, _, _, rfl⟩ | ⟨_, _, rfl⟩ <;> rfl
  have hevb : evb.filter rtc_event.is_lapic_set_timer = [] := by
    rcases hB with ⟨_, _, func, sc, _, _, _, rfl⟩ | ⟨_, _, rfl⟩ <;> rfl
  refine ⟨a3, ev, hread, ?_, ?_, ?_⟩
  · rw [← MIN_eq_min, hs]
    exact hev
  · rw [htr, List.filter_append, List.filter_append, heva, hevb]
    simp only [List.filter, hevl, show ∀ a b c, (rtc_event.kernel_debug a b c).is_lapic_set_timer
      = false from fun _ _ _ => rfl, List.nil_append]
  · rw [← MIN_eq_min, hs]
    rfl

/-- The minimum of the two clamped intervals is the clamped interval to the nearer
deadline, the timer counting only when it is armed. -/
theorem min_decrementer (st : rtclock_state) (now : Nat)
    (hmin : st.rtc_decrementer_min ≤ UINT_MAX)
    (hT : st.cpu.cpu_rtc_tick_deadline < 2 ^ 64) (hD : st.cpu.cpu_rtc_timer.deadline < 2 ^ 64) :
    min (deadline_to_decrementer st st.cpu.cpu_rtc_tick_deadline now)
        (if st.cpu.cpu_rtc_timer.is_set then
          deadline_to_decrementer st st.cpu.cpu_rtc_timer.deadline now
        else DECREMENTER_MAX)
      = deadline_to_decrementer st
          (if st.cpu.cpu_rtc_timer.is_set then
            min st.cpu.cpu_rtc_tick_deadline st.cpu.cpu_rtc_timer.deadline
          else st.cpu.cpu_rtc_tick_deadline) now := by
  by_cases hset : st.cpu.cpu_rtc_timer.is_set = true
  · simp only [hset, if_true]
    rcases Nat.le_total st.cpu.cpu_rtc_tick_deadline st.cpu.cpu_rtc_timer.deadline with hle | hle
    · rw [Nat.min_eq_left hle,
        Nat.min_eq_left (deadline_to_decrementer_mono st _ _ now hmin hT hD hle)]
    · rw [Nat.min_eq_right hle,
        Nat.min_eq_right (deadline_to_decrementer_mono st _ _ now hmin hD hT hle)]
  · simp only [hset, Bool.false_eq_true, if_false]
    exact Nat.min_eq_left (deadline_to_decrementer_le st _ now)

/-- C7 fails as stated: at 2 GHz with a 1000 ns minimum interval, the interrupt is
taken at 10,000,100 ns with the tick deadline (10,000,000) and the armed timer's
deadline (9,000,000) both passed; both callbacks run once, the timer callback rearms
the timer for 10,000,900 ns, the next tick deadline is 20,000,100 ns and the time
read for reprogramming is 10,000,400 ns, so `min(next_tick, next_timer) - now` is 500,
but the countdown programmed is 1000. -/
theorem C7_counterexample :
    _rtc_nanotime_read example_intr_state 20000200 = some 10000100
    ∧ example_intr_state.cpu.cpu_rtc_tick_deadline ≤ 10000100
    ∧ example_intr_state.cpu.cpu_rtc_timer.is_set = true
    ∧ example_intr_state.cpu.cpu_rtc_timer.deadline ≤ 10000100
    ∧ (rtclock_intr example_env example_intr_state example_regs
          20000200 20000400 20000600 20000800).map
        (fun r => (r.2, r.1.cpu.cpu_rtc_tick_deadline, r.1.cpu.cpu_rtc_timer,
          _rtc_nanotime_read r.1 20000800))
      = some ([rtc_event.hertz_tick false 4096,
          rtc_event.timer_expire 1 10000300 ⟨9000000, false, true⟩,
          rtc_event.kernel_debug 0 4294967196 4096,
          rtc_event.lapic_set_timer true 1000,
          rtc_event.kernel_debug 1 1000 3],
        20000100, ⟨10000900, true, false⟩, some 10000400)
    ∧ min 20000100 10000900 - 10000400 = 500
    ∧ rtc_lapic_set_timer example_intr_state 500 ≠ some (rtc_event.lapic_set_timer true 1000) := by
  decide

/-- C7 (amended): when at interrupt time `a0` the tick deadline has passed and the
timer is armed with a deadline that has passed (the clock not running backwards up to
the read after tick processing), a completed `rtclock_intr` calls `hertz_tick` exactly
once and the registered timer callback exactly once, and the one countdown it programs
afterwards is `min(next_tick_deadline, next_timer_deadline) - now` clamped into
`[rtc_decrementer_min, UINT_MAX]`, which is `rtc_decrementer_min` when that deadline is
not after `now`; the timer deadline counts only if the callback rearmed. -/
theorem C7_dispatcher_fires_both (env : rtclock_env) (s : rtclock_state)
    (regs : i386_interrupt_state) (t0 t1 t2 t3 : Nat) (s1 : rtclock_state)
    (tr : List rtc_event) (a0 : Nat)
    (h : rtclock_intr env s regs t0 t1 t2 t3 = some (s1, tr))
    (h0 : _rtc_nanotime_read s t0 = some a0)
    (htick : s.cpu.cpu_rtc_tick_deadline ≤ a0)
    (hset : s.cpu.cpu_rtc_timer.is_set = true)
    (hdl : s.cpu.cpu_rtc_timer.deadline ≤ a0)
    (hmono : ∀ su a2, rtc_nanotime_update s t1 = some su →
      _rtc_nanotime_read su t2 = some a2 → a0 ≤ a2)
    (hmin : s1.rtc_decrementer_min ≤ UINT_MAX)
    (hT : s1.cpu.cpu_rtc_tick_deadline < 2 ^ 64)
    (hD : s1.cpu.cpu_rtc_timer.deadline < 2 ^ 64) :
    (tr.filter rtc_event.is_hertz_tick).length = 1
    ∧ (tr.filter rtc_event.is_timer_expire).length = 1
    ∧ ∃ now ev, _rtc_nanotime_read s1 t3 = some now
        ∧ tr.filter rtc_event.is_lapic_set_timer = [ev]
        ∧ rtc_lapic_set_timer s1
            (if (if s1.cpu.cpu_rtc_timer.is_set then
                  min s1.cpu.cpu_rtc_tick_deadline s1.cpu.cpu_rtc_timer.deadline
                else s1.cpu.cpu_rtc_tick_deadline) ≤ now
              then s1.rtc_decrementer_min
              else max s1.rtc_decrementer_min
                (min ((if s1.cpu.cpu_rtc_timer.is_set then
                    min s1.cpu.cpu_rtc_tick_deadline s1.cpu.cpu_rtc_timer.deadline
                  else s1.cpu.cpu_rtc_tick_deadline) - now) UINT_MAX)) = some ev := by
  obtain ⟨b0, sa, eva, a2, sb, evb, a3, ev, hb0, hA, h2, hB, _, hev, hs, htr⟩ :=
    rtclock_intr_unfold env s regs t0 t1 t2 t3 s1 tr h
  have hb : b0 = a0 := Option.some.inj (hb0.symm.trans h0)
  subst hb
  have hevk := rtc_lapic_set_timer_is_lapic _ _ _ hev
  -- the tick fires
  rcases hA with ⟨_, su, hsu, hsa, heva⟩ | ⟨hn, _, _⟩
  swap
  · exact absurd htick hn
  obtain ⟨f1, _, _, _, _⟩ := rtc_nanotime_update_frame s su t1 hsu
  have htm : sa.cpu.cpu_rtc_timer = s.cpu.cpu_rtc_timer := by rw [hsa]; exact f1
  have hread : _rtc_nanotime_read su t2 = some a2 := by
    rw [← h2, hsa]
    exact _rtc_nanotime_read_congr _ _ t2 rfl rfl
  have ha2 : s.cpu.cpu_rtc_timer.deadline ≤ a2 := le_trans hdl (hmono su a2 hsu hread)
  -- the timer fires
  rcases hB with ⟨_, _, func, sc, _, _, _, hevb⟩ | ⟨hn, _, _⟩
  swap
  · rw [htm] at hn
    exact absurd ⟨hset, ha2⟩ hn
  have hkd : ∀ a b c, (rtc_event.kernel_debug a b c).is_hertz_tick = false
      ∧ (rtc_event.kernel_debug a b c).is_timer_expire = false := fun _ _ _ => ⟨rfl, rfl⟩
  have hht : ∀ a b, (rtc_event.hertz_tick a b).is_hertz_tick = true
      ∧ (rtc_event.hertz_tick a b).is_timer_expire = false := fun _ _ => ⟨rfl, rfl⟩
  have hte : ∀ a b c, (rtc_event.timer_expire a b c).is_hertz_tick = false
      ∧ (rtc_event.timer_expire a b c).is_timer_expire = true := fun _ _ _ => ⟨rfl, rfl⟩
  refine ⟨?_, ?_, ?_⟩
  · rw [htr, heva, hevb]
    simp only [List.filter_append, List.filter, hevk.2.1, (hkd _ _ _).1, (hht _ _).1,
      (hte _ _ _).1, List.append_nil, List.length_singleton]
  · rw [htr, heva, hevb]
    simp only [List.filter_append, List.filter, hevk.2.2, (hkd _ _ _).2, (hht _ _).2,
      (hte _ _ _).2, List.append_nil, List.nil_append, List.length_singleton]
  · obtain ⟨now, ev1, hnow, hprog, hfil, _⟩ :=
      rtclock_intr_countdown env s regs t0 t1 t2 t3 s1 tr h
    refine ⟨now, ev1, hnow, hfil, ?_⟩
    rw [min_decrementer s1 now hmin hT hD, deadline_to_decrementer_val s1 _ now hmin
      (by split_ifs <;> omega)] at hprog
    exact hprog

/-- C8: at the end of every completed `rtclock_intr`, with `now` the third time read,
the interval handed to `rtc_lapic_set_timer` (the only countdown the interrupt programs)
is `min(deadline_to_decrementer(tick_deadline, now), D)`, where `D` is
`deadline_to_decrementer(timer.deadline, now)` if the timer is armed and `DECREMENTER_MAX`
otherwise, and `cpu_rtc_intr_deadline` is `now` plus that interval (64-bit sum); and for
every deadline and `now`, with `rtc_decrementer_min <= UINT_MAX`,
`deadline_to_decrementer` returns `rtc_decrementer_min` when `deadline <= now` and
otherwise `deadline - now` clamped into `[rtc_decrementer_min, UINT_MAX]`. -/
theorem C8_countdown_reprogramming (env : rtclock_env) (s : rtclock_state)
    (regs : i386_interrupt_state) (t0 t1 t2 t3 : Nat) (s1 : rtclock_state)
    (tr : List rtc_event) (h : rtclock_intr env s regs t0 t1 t2 t3 = some (s1, tr)) :
    (∃ now ev,
      _rtc_nanotime_read s1 t3 = some now
      ∧ rtc_lapic_set_timer s1
          (min (deadline_to_decrementer s1 s1.cpu.cpu_rtc_tick_deadline now)
            (if s1.cpu.cpu_rtc_timer.is_set then
              deadline_to_decrementer s1 s1.cpu.cpu_rtc_timer.deadline now
            else DECREMENTER_MAX)) = some ev
      ∧ tr.filter rtc_event.is_lapic_set_timer = [ev]
      ∧ s1.cpu.cpu_rtc_intr_deadline =
          u64 (now + min (deadline_to_decrementer s1 s1.cpu.cpu_rtc_tick_deadline now)
            (if s1.cpu.cpu_rtc_timer.is_set then
              deadline_to_decrementer s1 s1.cpu.cpu_rtc_timer.deadline now
            else DECREMENTER_MAX)))
    ∧ (∀ (st : rtclock_state) (deadline now : Nat),
        st.rtc_decrementer_min ≤ UINT_MAX → deadline < 2 ^ 64 →
        deadline_to_decrementer st deadline now =
          if deadline ≤ now then st.rtc_decrementer_min
          else max st.rtc_decrementer_min (min (deadline - now) UINT_MAX)) := by
  exact ⟨rtclock_intr_countdown env s regs t0 t1 t2 t3 s1 tr h,
    fun st deadline now hmin hd => deadline_to_decrementer_val st deadline now hmin hd⟩

/-- C10: in a completed `rtclock_intr`, with `a2` the time read after tick processing:
if the timer is armed and its deadline is at most `a2`, the registered callback is
invoked exactly once, with `a2` as argument, finding `has_expired` TRUE and `is_set`
FALSE, and `has_expired` is FALSE on return; otherwise the callback is not invoked and
the timer's deadline, `is_set` and `has_expired` are unchanged; so `has_expired`, FALSE
on entry, is FALSE on return. -/
theorem C10_one_shot_firing (env : rtclock_env) (s : rtclock_state)
    (regs : i386_interrupt_state) (t0 t1 t2 t3 : Nat) (s1 : rtclock_state)
    (tr : List rtc_event) (h : rtclock_intr env s regs t0 t1 t2 t3 = some (s1, tr)) :
    ∃ a0 a2, _rtc_nanotime_read s t0 = some a0
      ∧ (if s.cpu.cpu_rtc_tick_deadline ≤ a0 then
          ∃ su, rtc_nanotime_update s t1 = some su ∧ _rtc_nanotime_read su t2 = some a2
        else _rtc_nanotime_read s t2 = some a2)
      ∧ (s.cpu.cpu_rtc_timer.is_set = true ∧ s.cpu.cpu_rtc_timer.deadline ≤ a2 →
          ∃ func, s.rtclock_timer_expire = some func
            ∧ tr.filter rtc_event.is_timer_expire =
                [rtc_event.timer_expire func a2
                  { deadline := s.cpu.cpu_rtc_timer.deadline, is_set := false,
                    has_expired := true }]
            ∧ s1.cpu.cpu_rtc_timer.has_expired = false)
      ∧ (¬ (s.cpu.cpu_rtc_timer.is_set = true ∧ s.cpu.cpu_rtc_timer.deadline ≤ a2) →
          tr.filter rtc_event.is_timer_expire = []
            ∧ s1.cpu.cpu_rtc_timer = s.cpu.cpu_rtc_timer)
      ∧ (s.cpu.cpu_rtc_timer.has_expired = false →
          s1.cpu.cpu_rtc_timer.has_expired = false) := by
  obtain ⟨a0, sa, eva, a2, sb, evb, a3, ev, h0, hA, h2, hB, _, hev, hs, htr⟩ :=
    rtclock_intr_unfold env s regs t0 t1 t2 t3 s1 tr h
  have hevt := (rtc_lapic_set_timer_is_lapic _ _ _ hev).2.2
  -- tick processing leaves the timer and the callback pointer alone
  have hsa : sa.cpu.cpu_rtc_timer = s.cpu.cpu_rtc_timer
      ∧ sa.rtclock_timer_expire = s.rtclock_timer_expire
      ∧ eva.filter rtc_event.is_timer_expire = []
      ∧ (if s.cpu.cpu_rtc_tick_deadline ≤ a0 then
          ∃ su, rtc_nanotime_update s t1 = some su ∧ _rtc_nanotime_read su t2 = some a2
        else _rtc_nanotime_read s t2 = some a2) := by
    rcases hA with ⟨hc, su, hsu, rfl, rfl⟩ | ⟨hc, rfl, rfl⟩
    · obtain ⟨f1, _, _, f4, _⟩ := rtc_nanotime_update_frame s su t1 hsu
      refine ⟨f1, f4, rfl, ?_⟩
      rw [if_pos hc]
      refine ⟨su, hsu, ?_⟩
      rw [← h2]
      exact _rtc_nanotime_read_congr _ _ t2 rfl rfl
    · exact ⟨rfl, rfl, rfl, by rw [if_neg hc]; exact h2⟩
  obtain ⟨htm, hfn, heva, hphase⟩ := hsa
  have hfin : s1.cpu.cpu_rtc_timer = sb.cpu.cpu_rtc_timer := by rw [hs]
  have htail : ∀ l : List rtc_event, tr.filter rtc_event.is_timer_expire = l ↔
      evb.filter rtc_event.is_timer_expire = l := by
    intro l
    rw [htr, List.filter_append, List.filter_append, heva]
    simp only [List.filter, hevt, show ∀ a b c, (rtc_event.kernel_debug a b c).is_timer_expire
      = false from fun _ _ _ => rfl, List.nil_append, List.append_nil]
  refine ⟨a0, a2, h0, hphase, ?_, ?_, ?_⟩
  · intro hfire
    rw [← htm] at hfire
    rcases hB with ⟨_, _, func, sc, hf, _, hsb, rfl⟩ | ⟨hn, _, _⟩
    · refine ⟨func, by rw [← hfn]; exact hf, ?_, by rw [hfin, hsb]⟩
      rw [htail, htm]
      rfl
    · exact absurd hfire hn
  · intro hnf
    rw [← htm] at hnf
    rcases hB with ⟨h1, h2, _⟩ | ⟨_, rfl, rfl⟩
    · exact absurd ⟨h1, h2⟩ hnf
    · exact ⟨(htail []).2 rfl, by rw [hfin, htm]⟩
  · intro hexp
    rcases hB with ⟨_, _, func, sc, _, _, hsb, _⟩ | ⟨_, rfl, _⟩
    · rw [hfin, hsb]
    · rw [hfin, htm]
      exact hexp

theorem option_bind_unique {α β : Type} (o : Option α) (f : α → Option β) (v : β)
    (h : o.bind f = some v) (x : α) (a : β) (hx : o = some x) (ha : f x = some a) : a = v := by
  subst hx
  rw [Option.some_bind, ha] at h
  exact Option.some.inj h

/-- C7 (amended) on the example interrupt: tick and timer both due at 10,000,100 ns. -/
theorem C7_dispatcher_fires_both_witness :
    (rtclock_intr example_env example_intr_state example_regs
        20000200 20000400 20000600 20000800 = some example_intr_result
      ∧ _rtc_nanotime_read example_intr_state 20000200 = some 10000100
      ∧ example_intr_state.cpu.cpu_rtc_tick_deadline ≤ 10000100
      ∧ example_intr_state.cpu.cpu_rtc_timer.is_set = true
      ∧ example_intr_state.cpu.cpu_rtc_timer.deadline ≤ 10000100)
    ∧ (example_intr_result.2.filter rtc_event.is_hertz_tick).length = 1
    ∧ (example_intr_result.2.filter rtc_event.is_timer_expire).length = 1 :=
  have hc := C7_dispatcher_fires_both example_env example_intr_state example_regs
    20000200 20000400 20000600 20000800 example_intr_result.1 example_intr_result.2 10000100
    (by decide) (by decide) (by decide) (by decide) (by decide)
    (fun su a2 h1 h2 => by
      have := option_bind_unique _ (fun su => _rtc_nanotime_read su 20000600) 10000300
        (by decide) su a2 h1 h2
      omega)
    (by decide) (by decide) (by decide)
  ⟨by decide, hc.1, hc.2.1⟩

/-- C8 on the example interrupt: the interval is `min(9,999,700, 1000) = 1000`. -/
theorem C8_countdown_reprogramming_witness :
    rtclock_intr example_env example_intr_state example_regs
        20000200 20000400 20000600 20000800 = some example_intr_result
    ∧ ∃ now ev,
      _rtc_nanotime_read example_intr_result.1 20000800 = some now
      ∧ rtc_lapic_set_timer example_intr_result.1
          (min (deadline_to_decrementer example_intr_result.1
              example_intr_result.1.cpu.cpu_rtc_tick_deadline now)
            (if example_intr_result.1.cpu.cpu_rtc_timer.is_set then
              deadline_to_decrementer example_intr_result.1
                example_intr_result.1.cpu.cpu_rtc_timer.deadline now
            else DECREMENTER_MAX)) = some ev
      ∧ example_intr_result.2.filter rtc_event.is_lapic_set_timer = [ev]
      ∧ example_intr_result.1.cpu.cpu_rtc_intr_deadline =
          u64 (now + min (deadline_to_decrementer example_intr_result.1
              example_intr_result.1.cpu.cpu_rtc_tick_deadline now)
            (if example_intr_result.1.cpu.cpu_rtc_timer.is_set then
              deadline_to_decrementer example_intr_result.1
                example_intr_result.1.cpu.cpu_rtc_timer.deadline now
            else DECREMENTER_MAX)) :=
  ⟨by decide,
    (C8_countdown_reprogramming example_env example_intr_state example_regs
      20000200 20000400 20000600 20000800 example_intr_result.1 example_intr_result.2
      (by decide)).1⟩

/-- C10 on the example interrupt: the callback runs once, at 10,000,300 ns. -/
theorem C10_one_shot_firing_witness :
    rtclock_intr example_env example_intr_state example_regs
        20000200 20000400 20000600 20000800 = some example_intr_result
    ∧ example_intr_result.2.filter rtc_event.is_timer_expire
        = [rtc_event.timer_expire 1 10000300 ⟨9000000, false, true⟩]
    ∧ ∃ a0 a2, _rtc_nanotime_read example_intr_state 20000200 = some a0
      ∧ (if example_intr_state.cpu.cpu_rtc_tick_deadline ≤ a0 then
          ∃ su, rtc_nanotime_update example_intr_state 20000400 = some su
            ∧ _rtc_nanotime_read su 20000600 = some a2
        else _rtc_nanotime_read example_intr_state 20000600 = some a2)
      ∧ (example_intr_state.cpu.cpu_rtc_timer.is_set = true
          ∧ example_intr_state.cpu.cpu_rtc_timer.deadline ≤ a2 →
          ∃ func, example_intr_state.rtclock_timer_expire = some func
            ∧ example_intr_result.2.filter rtc_event.is_timer_expire =
                [rtc_event.timer_expire func a2
                  { deadline := example_intr_state.cpu.cpu_rtc_timer.deadline, is_set := false,
                    has_expired := true }]
            ∧ example_intr_result.1.cpu.cpu_rtc_timer.has_expired = false)
      ∧ (¬ (example_intr_state.cpu.cpu_rtc_timer.is_set = true
          ∧ example_intr_state.cpu.cpu_rtc_timer.deadline ≤ a2) →
          example_intr_result.2.filter rtc_event.is_timer_expire = []
            ∧ example_intr_result.1.cpu.cpu_rtc_timer = example_intr_state.cpu.cpu_rtc_timer)
      ∧ (example_intr_state.cpu.cpu_rtc_timer.has_expired = false →
          example_intr_result.1.cpu.cpu_rtc_timer.has_expired = false) :=
  ⟨by decide, by decide,
    C10_one_shot_firing example_env example_intr_state example_regs
      20000200 20000400 20000600 20000800 example_intr_result.1 example_intr_result.2
      (by decide)⟩

/-- C9 fails as stated: after `sysclk_init` the minimum interval is 1000 ns; with the
clock at 20,000,500 ns, the timer armed for 20,001,000 ns (500 ns ahead) and the next
tick at 30,000,050 ns, `rtclock_intr` programs a countdown of 1000 ns, and so does
`clock_set_timer_deadline(20,001,000)`; a countdown of 500 ns would be the count 500. -/
theorem C9_counterexample :
    example_init.map (fun r => r.1.rtc_decrementer_min) = some 1000
    ∧ _rtc_nanotime_read example_armed_state 40001000 = some 20000500
    ∧ example_armed_state.cpu.cpu_rtc_timer = ⟨20000500 + 500, true, false⟩
    ∧ 20000500 + 500 < example_armed_state.cpu.cpu_rtc_tick_deadline
    ∧ (rtclock_intr example_env example_armed_state example_regs
        40001000 40001000 40001000 40001000).map (fun r => r.2)
      = some [rtc_event.kernel_debug 0 4274966796 4096,
          rtc_event.lapic_set_timer true 1000,
          rtc_event.kernel_debug 1 1000 3]
    ∧ (clock_set_timer_deadline
        { example_armed_state with cpu :=
          { example_armed_state.cpu with cpu_rtc_timer := ⟨0, false, false⟩ } }
        (20000500 + 500) 40001000).map (fun r => r.2)
      = some [rtc_event.lapic_set_timer true 1000, rtc_event.kernel_debug 1 1000 2]
    ∧ rtc_lapic_set_timer example_armed_state 500
      = some (rtc_event.lapic_set_timer true 500) := by
  decide

theorem rtc_set_cyc_per_sec_min (s sc : rtclock_state) (c ret : Nat)
    (h : rtc_set_cyc_per_sec s c = some (sc, ret)) :
    sc.rtc_decrementer_min = s.rtc_decrementer_min := by
  unfold rtc_set_cyc_per_sec at h
  simp only [Option.bind_eq_some, Option.some.injEq, Prod.mk.injEq] at h
  obtain ⟨s1, hs1, rfl, _⟩ := h
  split_ifs at hs1
  · simp only [Option.bind_eq_some, Option.some.injEq] at hs1
    obtain ⟨_, _, rfl⟩ := hs1
    rfl
  · simp only [Option.bind_eq_some, Option.some.injEq] at hs1
    obtain ⟨_, _, rfl⟩ := hs1
    rfl

theorem rtc_lapic_timer_calibrate_min (s : rtclock_state) (has_apic : Bool)
    (a b c d : Nat) (r : rtclock_state × List rtc_event)
    (h : rtc_lapic_timer_calibrate s has_apic a b c d = some r) :
    r.1.rtc_decrementer_min = s.rtc_decrementer_min := by
  unfold rtc_lapic_timer_calibrate at h
  by_cases hb : has_apic = true
  · rw [if_neg (not_not_intro hb), Option.bind_eq_some] at h
    obtain ⟨r1, _, h⟩ := h
    by_cases hn : u32 r1.1 = 0
    · simp only [hn, if_true] at h
      cases h
    · simp only [hn, if_false, Option.bind_eq_some, Option.some.injEq] at h
      obtain ⟨r2, _, rfl⟩ := h
      rfl
  · rw [if_pos hb] at h
    cases h
    rfl

theorem rtc_nanotime_init_min (s s1 : rtclock_state) (tsc : Nat) (m : rtc_nanotime_t)
    (h : rtc_nanotime_init s tsc m = some s1) :
    s1.rtc_decrementer_min = s.rtc_decrementer_min := by
  unfold rtc_nanotime_init at h
  by_cases hm : s.is_master = true
  · simp only [hm, if_true, Option.bind_eq_bind, Option.pure_def, Option.bind_eq_some,
      Option.some.injEq] at h
    obtain ⟨_, _, rfl⟩ := h
    rfl
  · simp only [hm, Bool.false_eq_true, if_false, Option.some.injEq] at h
    subst h
    rfl

theorem set_tick_deadline_min (s : rtclock_state) (v : Nat) (ev : rtc_event) :
    (({ s with cpu := { s.cpu with cpu_rtc_tick_deadline := v } }, [ev]) :
      rtclock_state × List rtc_event).1.rtc_decrementer_min = s.rtc_decrementer_min := rfl

theorem rtc_lapic_start_ticking_min (s : rtclock_state) (tsc : Nat)
    (r : rtclock_state × List rtc_event) (h : rtc_lapic_start_ticking s tsc = some r) :
    r.1.rtc_decrementer_min = s.rtc_decrementer_min := by
  simp only [rtc_lapic_start_ticking, Option.bind_eq_some, Option.some.injEq] at h
  obtain ⟨abstime, -, ev, -, h⟩ := h
  subst h
  exact set_tick_deadline_min s _ ev

/-- On the master processor, booting with the zero-initialised minimum, `sysclk_init`
leaves `rtc_decrementer_min` at 1000 ns. -/
theorem sysclk_init_min (s : rtclock_state) (cycle_count : Nat) (has_apic : Bool)
    (a b c d tsc_init : Nat) (m : rtc_nanotime_t) (tsc_tick : Nat)
    (r : rtclock_state × List rtc_event)
    (hm : s.is_master = true) (h0 : s.rtc_decrementer_min = 0)
    (h : sysclk_init s cycle_count has_apic a b c d tsc_init m tsc_tick = some r) :
    r.1.rtc_decrementer_min = 1000 := by
  unfold sysclk_init at h
  simp only [hm, if_true, Option.bind_eq_bind, Option.pure_def, Option.bind_eq_some,
    Option.some.injEq] at h
  obtain ⟨r1, ⟨r2, hr2, r4, hr4, rfl⟩, s6, hs6, r7, hr7, rfl⟩ := h
  have e2 := rtc_set_cyc_per_sec_min _ _ _ _ (show rtc_set_cyc_per_sec _ _ = some (r2.1, r2.2)
    from hr2)
  have e4 := rtc_lapic_timer_calibrate_min _ _ _ _ _ _ _ hr4
  have e6 := rtc_nanotime_init_min _ _ _ _ hs6
  have e7 := rtc_lapic_start_ticking_min _ _ _ hr7
  rw [e7, e6]
  show deadline_to_decrementer r4.1 NSEC_PER_USEC 0 = 1000
  have hmin : r4.1.rtc_decrementer_min = 0 := by
    rw [e4]
    show r2.1.rtc_decrementer_min = 0
    rw [e2]
    exact h0
  simp only [deadline_to_decrementer, hmin]
  decide

theorem deadline_to_decrementer_ge_min (s : rtclock_state) (deadline now : Nat)
    (hmin : s.rtc_decrementer_min ≤ UINT_MAX) :
    s.rtc_decrementer_min ≤ deadline_to_decrementer s deadline now := by
  have hU : UINT_MAX = 4294967295 := by decide
  unfold deadline_to_decrementer
  split_ifs
  · rw [u32_of_lt (by omega)]
  · show _ ≤ u32 (MIN (MAX s.rtc_decrementer_min (sub64 deadline now)) DECREMENTER_MAX)
    rw [MIN_eq_min, MAX_eq_max, u32_of_lt (by unfold DECREMENTER_MAX; omega)]
    unfold DECREMENTER_MAX
    omega

/-- A deadline 500 ns ahead gets the minimum interval when that is 1000 ns. -/
theorem deadline_to_decrementer_near (s : rtclock_state) (now : Nat)
    (hmin : s.rtc_decrementer_min = 1000) :
    deadline_to_decrementer s (now + 500) now = 1000 := by
  have hU : UINT_MAX = 4294967295 := by decide
  have hsub : sub64 (now + 500) now = 500 := by
    unfold sub64
    omega
  unfold deadline_to_decrementer
  rw [if_neg (by omega)]
  show u32 (MIN (MAX s.rtc_decrementer_min (sub64 (now + 500) now)) DECREMENTER_MAX) = 1000
  rw [hsub, hmin, MIN_eq_min, MAX_eq_max]
  unfold DECREMENTER_MAX u32
  omega

theorem set_timer_read (s : rtclock_state) (t : rtclock_timer_t) (tsc : Nat) :
    mach_absolute_time { s with cpu := { s.cpu with cpu_rtc_timer := t } } tsc
      = mach_absolute_time s tsc := rfl

theorem set_timer_decrementer (s : rtclock_state) (t : rtclock_timer_t) (d now : Nat) :
    deadline_to_decrementer { s with cpu := { s.cpu with cpu_rtc_timer := t } } d now
      = deadline_to_decrementer s d now := rfl

theorem set_timer_lapic (s : rtclock_state) (t : rtclock_timer_t) (i : Nat) :
    rtc_lapic_set_timer { s with cpu := { s.cpu with cpu_rtc_timer := t } } i
      = rtc_lapic_set_timer s i := rfl

/-- What `clock_set_timer_deadline` does, with the stored timer named. -/
theorem clock_set_timer_deadline_val (s : rtclock_state) (d tsc : Nat) :
    clock_set_timer_deadline s d tsc =
      if s.cpu.cpu_rtc_timer.has_expired = true then
        some ({ s with cpu := { s.cpu with cpu_rtc_timer :=
          { s.cpu.cpu_rtc_timer with deadline := d, is_set := true } } }, [])
      else
        (mach_absolute_time s tsc).bind fun abstime =>
          if d < s.cpu.cpu_rtc_tick_deadline then
            (rtc_lapic_set_timer s (deadline_to_decrementer s d abstime)).bind fun ev =>
              some ({ s with cpu := { s.cpu with
                  cpu_rtc_timer := { s.cpu.cpu_rtc_timer with deadline := d, is_set := true }
                  cpu_rtc_intr_deadline := d } },
                [ev, rtc_event.kernel_debug 1 (deadline_to_decrementer s d abstime) 2])
          else
            some ({ s with cpu := { s.cpu with cpu_rtc_timer :=
              { s.cpu.cpu_rtc_timer with deadline := d, is_set := true } } }, []) := by
  unfold clock_set_timer_deadline
  by_cases hexp : s.cpu.cpu_rtc_timer.has_expired = true
  · simp only [hexp, not_true_eq_false, if_false, if_true]
  · simp only [hexp, not_false_eq_true, if_true, if_false, Bool.false_eq_true, set_timer_read,
      set_timer_decrementer, set_timer_lapic]

/-- C9 (amended): `sysclk_init` on the master processor raises the zero-initialised
minimum interval to 1000 ns; with that minimum, when the one-shot timer is armed with a
deadline 500 ns ahead of the time read for reprogramming, the countdown `rtclock_intr`
programs is the minimum interval, 1000 ns (neither 500 ns nor the tick period); and
`clock_set_timer_deadline` with a deadline 500 ns ahead and before the tick deadline,
while the timer is not firing, likewise programs 1000 ns. -/
theorem C9_near_deadline_gets_minimum :
    (∀ (s : rtclock_state) (cycle_count : Nat) (has_apic : Bool)
        (a b c d tsc_init : Nat) (m : rtc_nanotime_t) (tsc_tick : Nat)
        (r : rtclock_state × List rtc_event),
        s.is_master = true → s.rtc_decrementer_min = 0 →
        sysclk_init s cycle_count has_apic a b c d tsc_init m tsc_tick = some r →
        r.1.rtc_decrementer_min = 1000)
    ∧ (∀ (env : rtclock_env) (s : rtclock_state) (regs : i386_interrupt_state)
        (t0 t1 t2 t3 : Nat) (s1 : rtclock_state) (tr : List rtc_event) (now : Nat),
        rtclock_intr env s regs t0 t1 t2 t3 = some (s1, tr) →
        _rtc_nanotime_read s1 t3 = some now →
        s1.rtc_decrementer_min = 1000 →
        s1.cpu.cpu_rtc_timer.is_set = true →
        s1.cpu.cpu_rtc_timer.deadline = now + 500 →
        ∃ ev, rtc_lapic_set_timer s1 1000 = some ev
          ∧ tr.filter rtc_event.is_lapic_set_timer = [ev])
    ∧ (∀ (st : rtclock_state) (d tsc now : Nat),
        st.cpu.cpu_rtc_timer.has_expired = false →
        mach_absolute_time st tsc = some now →
        st.rtc_decrementer_min = 1000 →
        d = now + 500 → d < st.cpu.cpu_rtc_tick_deadline →
        (clock_set_timer_deadline st d tsc).map Prod.snd
          = (rtc_lapic_set_timer st 1000).map
              (fun ev => [ev, rtc_event.kernel_debug 1 1000 2])) := by
  have hU : UINT_MAX = 4294967295 := by decide
  refine ⟨?_, ?_, ?_⟩
  · intro s cycle_count has_apic a b c d tsc_init m tsc_tick r hm h0 h
    exact sysclk_init_min s cycle_count has_apic a b c d tsc_init m tsc_tick r hm h0 h
  · intro env s regs t0 t1 t2 t3 s1 tr now h hnow hmin hset hd
    obtain ⟨now1, ev, hnow1, hprog, hfil, _⟩ :=
      rtclock_intr_countdown env s regs t0 t1 t2 t3 s1 tr h
    have hn : now1 = now := Option.some.inj (hnow1.symm.trans hnow)
    subst hn
    have h1 := deadline_to_decrementer_near s1 now1 hmin
    have h2 := deadline_to_decrementer_ge_min s1 s1.cpu.cpu_rtc_tick_deadline now1 (by omega)
    rw [hset, if_pos rfl, hd, h1, Nat.min_eq_right (by omega)] at hprog
    exact ⟨ev, hprog, hfil⟩
  · intro st d tsc now hexp hnow hmin hd hbefore
    have h1 := deadline_to_decrementer_near st now hmin
    rw [clock_set_timer_deadline_val, if_neg (by rw [hexp]; decide), hnow, Option.some_bind,
      if_pos hbefore, hd, h1]
    cases rtc_lapic_set_timer st 1000 <;> rfl

/-- C9 (amended) on the example boot: the minimum is 1000 ns, and with the timer armed
500 ns ahead both paths program the count 1000. -/
theorem C9_near_deadline_gets_minimum_witness :
    (boot_state.is_master = true ∧ boot_state.rtc_decrementer_min = 0
      ∧ example_init.isSome = true
      ∧ rtclock_intr example_env example_armed_state example_regs
          40001000 40001000 40001000 40001000 = some example_armed_result
      ∧ _rtc_nanotime_read example_armed_result.1 40001000 = some 20000500
      ∧ example_armed_result.1.rtc_decrementer_min = 1000
      ∧ example_armed_result.1.cpu.cpu_rtc_timer.is_set = true
      ∧ example_armed_result.1.cpu.cpu_rtc_timer.deadline = 20000500 + 500)
    ∧ (∃ ev, rtc_lapic_set_timer example_armed_result.1 1000 = some ev
        ∧ example_armed_result.2.filter rtc_event.is_lapic_set_timer = [ev])
    ∧ (clock_set_timer_deadline
          { example_armed_state with cpu :=
            { example_armed_state.cpu with cpu_rtc_timer := ⟨0, false, false⟩ } }
          (20000500 + 500) 40001000).map Prod.snd
        = (rtc_lapic_set_timer
            { example_armed_state with cpu :=
              { example_armed_state.cpu with cpu_rtc_timer := ⟨0, false, false⟩ } } 1000).map
            (fun ev => [ev, rtc_event.kernel_debug 1 1000 2]) :=
  ⟨by decide,
    C9_near_deadline_gets_minimum.2.1 example_env example_armed_state example_regs
      40001000 40001000 40001000 40001000 example_armed_result.1 example_armed_result.2
      20000500 (by decide) (by decide) (by decide) (by decide) (by decide),
    C9_near_deadline_gets_minimum.2.2
      { example_armed_state with cpu :=
        { example_armed_state.cpu with cpu_rtc_timer := ⟨0, false, false⟩ } }
      (20000500 + 500) 40001000 20000500 (by decide) (by decide) (by decide) (by decide)
      (by decide)⟩

/-! ## Arming the one-shot timer -/

/-- C11: while the timer is firing (`has_expired` TRUE), `clock_set_timer_deadline(d)`
only stores `deadline = d` and `is_set = TRUE`: no hardware countdown is programmed and
`cpu_rtc_intr_deadline` and everything else stay as they were; and when the callback of
an `rtclock_intr` rearms the timer this way, the callback is invoked exactly once in
that interrupt whatever `d` is, the timer is left armed with `d`, and the one countdown
the interrupt programs is `min(deadline_to_decrementer(tick_deadline, now),
deadline_to_decrementer(d, now))`. -/
theorem C11_rearm_is_deferred :
    (∀ (s : rtclock_state) (d tsc : Nat), s.cpu.cpu_rtc_timer.has_expired = true →
      clock_set_timer_deadline s d tsc =
        some ({ s with cpu := { s.cpu with cpu_rtc_timer :=
          { deadline := d, is_set := true, has_expired := true } } }, []))
    ∧ (∀ (env : rtclock_env) (s : rtclock_state) (regs : i386_interrupt_state)
        (t0 t1 t2 t3 : Nat) (s1 : rtclock_state) (tr : List rtc_event)
        (func d tsc_cb : Nat),
        rtclock_intr env s regs t0 t1 t2 t3 = some (s1, tr) →
        s.rtclock_timer_expire = some func →
        (∀ t st, st.cpu.cpu_rtc_timer.has_expired = true →
          ∃ r, clock_set_timer_deadline st d tsc_cb = some r ∧ env.timer_func func t st = r.1) →
        tr.filter rtc_event.is_timer_expire ≠ [] →
        (tr.filter rtc_event.is_timer_expire).length = 1
        ∧ s1.cpu.cpu_rtc_timer = { deadline := d, is_set := true, has_expired := false }
        ∧ ∃ now ev, _rtc_nanotime_read s1 t3 = some now
          ∧ rtc_lapic_set_timer s1
              (min (deadline_to_decrementer s1 s1.cpu.cpu_rtc_tick_deadline now)
                (deadline_to_decrementer s1 d now)) = some ev
          ∧ tr.filter rtc_event.is_lapic_set_timer = [ev]) := by
  have hfiring : ∀ (s : rtclock_state) (d tsc : Nat), s.cpu.cpu_rtc_timer.has_expired = true →
      clock_set_timer_deadline s d tsc =
        some ({ s with cpu := { s.cpu with cpu_rtc_timer :=
          { deadline := d, is_set := true, has_expired := true } } }, []) := by
    intro s d tsc hexp
    rw [clock_set_timer_deadline_val, if_pos hexp]
    simp only [hexp]
  refine ⟨hfiring, ?_⟩
  intro env s regs t0 t1 t2 t3 s1 tr func d tsc_cb h hfunc hcb hfired
  obtain ⟨a0, sa, eva, a2, sb, evb, a3, ev, _, hA, _, hB, _, hev, hs, htr⟩ :=
    rtclock_intr_unfold env s regs t0 t1 t2 t3 s1 tr h
  have hevt := (rtc_lapic_set_timer_is_lapic _ _ _ hev).2.2
  have hsa : sa.rtclock_timer_expire = s.rtclock_timer_expire
      ∧ eva.filter rtc_event.is_timer_expire = [] := by
    rcases hA with ⟨_, su, hsu, rfl, rfl⟩ | ⟨_, rfl, rfl⟩
    · exact ⟨(rtc_nanotime_update_frame s su t1 hsu).2.2.2.1, rfl⟩
    · exact ⟨rfl, rfl⟩
  have htail : tr.filter rtc_event.is_timer_expire = evb.filter rtc_event.is_timer_expire := by
    rw [htr, List.filter_append, List.filter_append, hsa.2]
    simp only [List.filter, hevt, show ∀ a b c, (rtc_event.kernel_debug a b c).is_timer_expire
      = false from fun _ _ _ => rfl, List.nil_append, List.append_nil]
  rcases hB with ⟨_, _, func1, sc, hf1, hsc, hsb, hevb⟩ | ⟨_, _, hevb⟩
  swap
  · rw [htail, hevb] at hfired
    exact absurd rfl hfired
  have hfe : func1 = func := by
    rw [hsa.1, hfunc] at hf1
    exact (Option.some.inj hf1).symm
  subst hfe
  obtain ⟨r, hr, hrs⟩ := hcb a2
    { sa with cpu := { sa.cpu with cpu_rtc_timer :=
      { sa.cpu.cpu_rtc_timer with has_expired := true, is_set := false } } } rfl
  rw [hfiring _ d tsc_cb rfl] at hr
  have hsct : sc.cpu.cpu_rtc_timer = { deadline := d, is_set := true, has_expired := true } := by
    rw [hsc, hrs, ← Option.some.inj hr]
  have htimer : s1.cpu.cpu_rtc_timer = { deadline := d, is_set := true, has_expired := false } := by
    rw [hs, hsb]
    show ({ sc.cpu.cpu_rtc_timer with has_expired := false } : rtclock_timer_t) = _
    rw [hsct]
  refine ⟨?_, htimer, ?_⟩
  · rw [htail, hevb]
    rfl
  · obtain ⟨now, ev1, hnow, hprog, hfil, _⟩ :=
      rtclock_intr_countdown env s regs t0 t1 t2 t3 s1 tr h
    rw [htimer] at hprog
    exact ⟨now, ev1, hnow, hprog, hfil⟩

/-- C11 on the example interrupt with a callback that rearms the timer for 9,500,000 ns,
a deadline already passed when the callback runs at 10,000,300 ns. -/
theorem C11_rearm_is_deferred_witness :
    (rtclock_intr example_rearm_env example_intr_state example_regs
        20000200 20000400 20000600 20000800 = some example_rearm_result
      ∧ example_intr_state.rtclock_timer_expire = some 1
      ∧ example_rearm_result.2.filter rtc_event.is_timer_expire ≠ [])
    ∧ ((example_rearm_result.2.filter rtc_event.is_timer_expire).length = 1
      ∧ example_rearm_result.1.cpu.cpu_rtc_timer
          = { deadline := 9500000, is_set := true, has_expired := false }
      ∧ ∃ now ev, _rtc_nanotime_read example_rearm_result.1 20000800 = some now
        ∧ rtc_lapic_set_timer example_rearm_result.1
            (min (deadline_to_decrementer example_rearm_result.1
                example_rearm_result.1.cpu.cpu_rtc_tick_deadline now)
              (deadline_to_decrementer example_rearm_result.1 9500000 now)) = some ev
        ∧ example_rearm_result.2.filter rtc_event.is_lapic_set_timer = [ev]) :=
  ⟨by decide,
    C11_rearm_is_deferred.2 example_rearm_env example_intr_state example_regs
      20000200 20000400 20000600 20000800 example_rearm_result.1 example_rearm_result.2
      1 9500000 0 (by decide) (by decide)
      (fun _ st hexp =>
        ⟨_, C11_rearm_is_deferred.1 st 9500000 0 hexp, by
          show (match clock_set_timer_deadline st 9500000 0 with
            | some r => r.1
            | none => st) = _
          rw [C11_rearm_is_deferred.1 st 9500000 0 hexp]⟩)
      (by decide)⟩

/-- C12 as worded fails: after the example interrupt the countdown is programmed to fire at
10,001,400 ns and the next tick is due at 20,000,100 ns.  Arming 15,000,000 ns, which does
not precede the programmed fire time, still reprograms the countdown (to 4,999,500 ns) and
moves the programmed interrupt deadline to 15,000,000 ns. -/
theorem C12_counterexample :
    example_intr_result.1.cpu.cpu_rtc_timer.has_expired = false
    ∧ example_intr_result.1.cpu.cpu_rtc_intr_deadline = 10001400
    ∧ example_intr_result.1.cpu.cpu_rtc_tick_deadline = 20000100
    ∧ ¬ (15000000 < example_intr_result.1.cpu.cpu_rtc_intr_deadline)
    ∧ (clock_set_timer_deadline example_intr_result.1 15000000 20001000).map
        (fun r => (r.1.cpu.cpu_rtc_intr_deadline, r.2))
      = some (15000000, [rtc_event.lapic_set_timer true 4999500,
          rtc_event.kernel_debug 1 4999500 2]) := by
  decide

/-- C12, amended: when the clock read returns `now` and the local timer accepts the count,
`clock_set_timer_deadline(d)` returns, stores `deadline = d` and marks the timer armed; it
reprograms the countdown to `deadline_to_decrementer(d, now)` and records `d` in
`cpu_rtc_intr_deadline` if and only if the timer is not firing and `d` precedes the next
periodic tick deadline `cpu_rtc_tick_deadline`; otherwise nothing is programmed and
`cpu_rtc_intr_deadline` is unchanged. -/
theorem C12_arming_a_deadline (s : rtclock_state) (d tsc now : Nat) (ev : rtc_event)
    (hnow : mach_absolute_time s tsc = some now)
    (hev : rtc_lapic_set_timer s (deadline_to_decrementer s d now) = some ev) :
    ∃ r, clock_set_timer_deadline s d tsc = some r
      ∧ r.1.cpu.cpu_rtc_timer = { s.cpu.cpu_rtc_timer with deadline := d, is_set := true }
      ∧ ((s.cpu.cpu_rtc_timer.has_expired = false ∧ d < s.cpu.cpu_rtc_tick_deadline) →
          r.2 = [ev, rtc_event.kernel_debug 1 (deadline_to_decrementer s d now) 2]
          ∧ r.1.cpu.cpu_rtc_intr_deadline = d)
      ∧ (¬ (s.cpu.cpu_rtc_timer.has_expired = false ∧ d < s.cpu.cpu_rtc_tick_deadline) →
          r.2 = [] ∧ r.1.cpu.cpu_rtc_intr_deadline = s.cpu.cpu_rtc_intr_deadline)
      ∧ (r.2.filter rtc_event.is_lapic_set_timer ≠ [] ↔
          (s.cpu.cpu_rtc_timer.has_expired = false ∧ d < s.cpu.cpu_rtc_tick_deadline)) := by
  have hevl := rtc_lapic_set_timer_is_lapic s _ ev hev
  rw [clock_set_timer_deadline_val]
  by_cases hexp : s.cpu.cpu_rtc_timer.has_expired = true
  · rw [if_pos hexp]
    refine ⟨_, rfl, rfl, ?_, ?_, ?_⟩
    · rintro ⟨h, -⟩
      rw [hexp] at h
      exact absurd h (by decide)
    · intro _
      exact ⟨rfl, rfl⟩
    · constructor
      · intro h
        exact absurd rfl h
      · rintro ⟨h, -⟩
        rw [hexp] at h
        exact absurd h (by decide)
  · have hexp2 : s.cpu.cpu_rtc_timer.has_expired = false := by
      cases h : s.cpu.cpu_rtc_timer.has_expired
      · rfl
      · exact absurd h hexp
    rw [if_neg hexp, hnow, Option.some_bind]
    by_cases hd : d < s.cpu.cpu_rtc_tick_deadline
    · rw [if_pos hd, hev, Option.some_bind]
      refine ⟨_, rfl, rfl, ?_, ?_, ?_⟩
      · intro _
        exact ⟨rfl, rfl⟩
      · intro h
        exact absurd ⟨hexp2, hd⟩ h
      · constructor
        · intro _
          exact ⟨hexp2, hd⟩
        · intro _
          simp only [List.filter, hevl]
          exact List.cons_ne_nil _ _
    · rw [if_neg hd]
      refine ⟨_, rfl, rfl, ?_, ?_, ?_⟩
      · rintro ⟨-, h⟩
        exact absurd h hd
      · intro _
        exact ⟨rfl, rfl⟩
      · constructor
        · intro h
          exact absurd rfl h
        · rintro ⟨-, h⟩
          exact absurd h hd

/-- C12 on the state after the example interrupt, arming 15,000,000 ns at 10,000,500 ns. -/
theorem C12_arming_a_deadline_witness :
    (mach_absolute_time example_intr_result.1 20001000 = some 10000500
      ∧ rtc_lapic_set_timer example_intr_result.1
          (deadline_to_decrementer example_intr_result.1 15000000 10000500)
        = some (rtc_event.lapic_set_timer true 4999500))
    ∧ ∃ r, clock_set_timer_deadline example_intr_result.1 15000000 20001000 = some r
      ∧ r.1.cpu.cpu_rtc_timer
        = { example_intr_result.1.cpu.cpu_rtc_timer with deadline := 15000000, is_set := true }
      ∧ ((example_intr_result.1.cpu.cpu_rtc_timer.has_expired = false
            ∧ 15000000 < example_intr_result.1.cpu.cpu_rtc_tick_deadline) →
          r.2 = [rtc_event.lapic_set_timer true 4999500, rtc_event.kernel_debug 1
              (deadline_to_decrementer example_intr_result.1 15000000 10000500) 2]
          ∧ r.1.cpu.cpu_rtc_intr_deadline = 15000000)
      ∧ (¬ (example_intr_result.1.cpu.cpu_rtc_timer.has_expired = false
            ∧ 15000000 < example_intr_result.1.cpu.cpu_rtc_tick_deadline) →
          r.2 = [] ∧ r.1.cpu.cpu_rtc_intr_deadline
            = example_intr_result.1.cpu.cpu_rtc_intr_deadline)
      ∧ (r.2.filter rtc_event.is_lapic_set_timer ≠ [] ↔
          (example_intr_result.1.cpu.cpu_rtc_timer.has_expired = false
            ∧ 15000000 < example_intr_result.1.cpu.cpu_rtc_tick_deadline)) :=
  ⟨by decide,
    C12_arming_a_deadline example_intr_result.1 15000000 20001000 10000500
      (rtc_event.lapic_set_timer true 4999500) (by decide) (by decide)⟩

/-! ## Registering the timer function -/

theorem clock_set_timer_func_registered (s : rtclock_state) (f : Nat) (g : Option Nat)
    (h : s.rtclock_timer_expire = some f) : clock_set_timer_func s g = s := by
  unfold clock_set_timer_func
  rw [if_neg]
  rw [h]
  exact Option.some_ne_none f

theorem clock_set_timer_func_seq_registered (fs : List (Option Nat)) (s : rtclock_state)
    (f : Nat) (h : s.rtclock_timer_expire = some f) : clock_set_timer_func_seq s fs = s := by
  induction fs with
  | nil => rfl
  | cons g gs ih =>
    show clock_set_timer_func_seq (clock_set_timer_func s g) gs = s
    rw [clock_set_timer_func_registered s f g h]
    exact ih

/-- C13: when no function is registered yet and the first call of a sequence of
`clock_set_timer_func` calls passes a non-null `f`, then after every call of the sequence
(every non-empty prefix) the registered function is `f` and the state is the one the
first call left; and calling `clock_set_timer_func` twice with the same argument has the
effect of calling it once. -/
theorem C13_first_registration_wins :
    (∀ (s : rtclock_state) (f : Nat) (fs : List (Option Nat)) (n : Nat),
      s.rtclock_timer_expire = none →
      (clock_set_timer_func_seq s ((some f :: fs).take (n + 1))).rtclock_timer_expire = some f
      ∧ clock_set_timer_func_seq s ((some f :: fs).take (n + 1))
        = { s with rtclock_timer_expire := some f })
    ∧ (∀ (s : rtclock_state) (g : Option Nat),
      clock_set_timer_func (clock_set_timer_func s g) g = clock_set_timer_func s g) := by
  constructor
  · intro s f fs n h
    have h1 : clock_set_timer_func s (some f) = { s with rtclock_timer_expire := some f } := by
      unfold clock_set_timer_func
      rw [if_pos h]
    have h2 : clock_set_timer_func_seq s ((some f :: fs).take (n + 1))
        = { s with rtclock_timer_expire := some f } := by
      show clock_set_timer_func_seq (clock_set_timer_func s (some f)) (fs.take n) = _
      rw [h1]
      exact clock_set_timer_func_seq_registered _ _ f rfl
    exact ⟨by rw [h2], h2⟩
  · intro s g
    cases hs : s.rtclock_timer_expire with
    | some f =>
      rw [clock_set_timer_func_registered s f g hs, clock_set_timer_func_registered s f g hs]
    | none =>
      cases g with
      | some f =>
        have h1 : clock_set_timer_func s (some f) = { s with rtclock_timer_expire := some f } := by
          unfold clock_set_timer_func
          rw [if_pos hs]
        rw [h1]
        exact clock_set_timer_func_registered _ f _ rfl
      | none =>
        have h1 : clock_set_timer_func s none = s := by
          unfold clock_set_timer_func
          rw [if_pos hs]
          cases s
          simp only at hs
          subst hs
          rfl
        rw [h1, h1]

/-- C13 from the boot state: registering 7, then 9, then nothing, then 7 again. -/
theorem C13_first_registration_wins_witness :
    boot_state.rtclock_timer_expire = none
    ∧ (clock_set_timer_func_seq boot_state
        ((some 7 :: [some 9, none, some 7]).take (2 + 1))).rtclock_timer_expire = some 7
    ∧ clock_set_timer_func_seq boot_state ((some 7 :: [some 9, none, some 7]).take (2 + 1))
        = { boot_state with rtclock_timer_expire := some 7 }
    ∧ clock_set_timer_func (clock_set_timer_func boot_state (some 9)) (some 9)
        = clock_set_timer_func boot_state (some 9) :=
  ⟨rfl, (C13_first_registration_wins.1 boot_state 7 [some 9, none, some 7] 2 rfl).1,
    (C13_first_registration_wins.1 boot_state 7 [some 9, none, some 7] 2 rfl).2,
    C13_first_registration_wins.2 boot_state (some 9)⟩

/-! ## Slewing the calendar -/

theorem int32_of_range {x : Int} (h1 : -(2 ^ 31) ≤ x) (h2 : x < 2 ^ 31) : int32 x = x := by
  unfold int32
  omega

theorem int64_of_range {x : Int} (h1 : -(2 ^ 63) ≤ x) (h2 : x < 2 ^ 63) : int64 x = x := by
  unfold int64
  omega

theorem int32_range (x : Int) : -(2 ^ 31) ≤ int32 x ∧ int32 x < 2 ^ 31 := by
  unfold int32
  omega

theorem clock_set_calendar_adjtime_fields (s : rtclock_state) (secs microsecs total : Int)
    (ht : total = secs * 1000000000 + int32 (microsecs * 1000))
    (hb1 : -(2 ^ 62) ≤ total) (hb2 : total < 2 ^ 62) :
    (clock_set_calendar_adjtime s secs microsecs).1.rtclock.calend_adjtotal = total
    ∧ (0 < total → (clock_set_calendar_adjtime s secs microsecs).1.rtclock.calend_adjdelta
        = min (if 1000000000 < total then 400000 else 40000) total)
    ∧ (total < 0 → (clock_set_calendar_adjtime s secs microsecs).1.rtclock.calend_adjdelta
        = max (if total < -1000000000 then -400000 else -40000) total)
    ∧ (total = 0 → (clock_set_calendar_adjtime s secs microsecs).1.rtclock.calend_adjdelta = 0)
    ∧ (clock_set_calendar_adjtime s secs microsecs).1.rtclock.calend_offset
        = s.rtclock.calend_offset
    ∧ (clock_set_calendar_adjtime s secs microsecs).2.2.2
        = if total = 0 then 0 else 10000000 := by
  have h64 : int64 (secs * (NSEC_PER_SEC : Nat) + int32 (microsecs * (NSEC_PER_USEC : Nat)))
      = total := by
    rw [ht]
    have e1 : ((NSEC_PER_SEC : Nat) : Int) = 1000000000 := rfl
    have e2 : ((NSEC_PER_USEC : Nat) : Int) = 1000 := rfl
    rw [e1, e2]
    apply int64_of_range <;> omega
  unfold clock_set_calendar_adjtime
  simp only [h64]
  have e3 : tickadj = 40000 := rfl
  have e4 : bigadj = 1000000000 := rfl
  have e5 : int32 (40000 * 10) = 400000 := by decide
  have e6 : (NSEC_PER_HZ : Nat) = 10000000 := rfl
  simp only [e3, e4, e5, e6]
  rcases lt_trichotomy total 0 with h | h | h
  · have hne : total ≠ 0 := by omega
    have hng : ¬ total > 0 := by omega
    simp only [if_pos hne, if_neg hng, if_neg hne, true_and]
    unfold int32
    and_intros
    all_goals first | trivial | omega
  · subst h
    simp
  · have hne : total ≠ 0 := by omega
    have hng : total > 0 := h
    simp only [if_pos hne, if_pos hng, if_neg hne, true_and]
    unfold int32
    and_intros
    all_goals first | trivial | omega

theorem adj_inv_adjtime (s : rtclock_state) (secs microsecs : Int)
    (hs : -(2 ^ 31) ≤ secs ∧ secs < 2 ^ 31) :
    adj_inv (clock_set_calendar_adjtime s secs microsecs).1 := by
  have hr := int32_range (microsecs * 1000)
  obtain ⟨h1, h2, h3, h4, -, -⟩ := clock_set_calendar_adjtime_fields s secs microsecs _ rfl
    (by omega) (by omega)
  unfold adj_inv
  rw [h1]
  refine ⟨by omega, by omega, h4, ?_, ?_⟩
  · intro h
    rw [h2 h]
    split_ifs <;> omega
  · intro h
    rw [h3 h]
    split_ifs <;> omega

theorem clock_adjust_calendar_fields (s : rtclock_state) (h : adj_inv s) :
    (clock_adjust_calendar s).1.rtclock.calend_adjtotal
      = s.rtclock.calend_adjtotal - s.rtclock.calend_adjdelta
    ∧ (clock_adjust_calendar s).1.rtclock.calend_adjdelta
      = (if (s.rtclock.calend_adjtotal - s.rtclock.calend_adjdelta).natAbs
            < s.rtclock.calend_adjdelta.natAbs
          then s.rtclock.calend_adjtotal - s.rtclock.calend_adjdelta
          else s.rtclock.calend_adjdelta)
    ∧ (clock_adjust_calendar s).2
      = (if (clock_adjust_calendar s).1.rtclock.calend_adjdelta = 0 then 0 else 10000000) := by
  obtain ⟨h1, h2, h3, h4, h5⟩ := h
  have h64 : int64 (s.rtclock.calend_adjtotal - s.rtclock.calend_adjdelta)
      = s.rtclock.calend_adjtotal - s.rtclock.calend_adjdelta := by
    apply int64_of_range <;> omega
  have e6 : (NSEC_PER_HZ : Nat) = 10000000 := rfl
  unfold clock_adjust_calendar
  simp only [h64, e6]
  generalize s.rtclock.calend_adjtotal = T at *
  generalize s.rtclock.calend_adjdelta = D at *
  unfold int32
  and_intros
  · trivial
  · split_ifs <;> omega
  · split_ifs <;> omega

theorem adj_inv_adjust (s : rtclock_state) (h : adj_inv s) :
    adj_inv (clock_adjust_calendar s).1 := by
  obtain ⟨e1, e2, -⟩ := clock_adjust_calendar_fields s h
  obtain ⟨h1, h2, h3, h4, h5⟩ := h
  unfold adj_inv
  rw [e1, e2]
  generalize s.rtclock.calend_adjtotal = T at *
  generalize s.rtclock.calend_adjdelta = D at *
  split_ifs <;> omega

theorem ADD_MACH_TIMESPEC_NSEC_zero (t : mach_timespec_t) : ADD_MACH_TIMESPEC_NSEC t 0 = t := by
  unfold ADD_MACH_TIMESPEC_NSEC
  simp

theorem ADD_MACH_TIMESPEC_NSEC_val (t : mach_timespec_t) (n : Int) (ht : timespec_normal t)
    (h1 : -1000000000 < n) (h2 : n < 1000000000) :
    timespec_normal (ADD_MACH_TIMESPEC_NSEC t n)
    ∧ timespec_nanos (ADD_MACH_TIMESPEC_NSEC t n)
      = (timespec_nanos t + n) % (2 ^ 32 * 1000000000) := by
  obtain ⟨t1, t2, t3⟩ := ht
  have e1 : ((NSEC_PER_SEC : Nat) : Int) = 1000000000 := rfl
  unfold ADD_MACH_TIMESPEC_NSEC timespec_normal timespec_nanos u32 sub32
  simp only [e1]
  split_ifs
  · simp only []
    push_cast
    omega
  · simp only []
    push_cast
    omega
  · simp only []
    omega

theorem clock_adjust_calendar_offset (s : rtclock_state) :
    (clock_adjust_calendar s).1.rtclock.calend_offset
      = ADD_MACH_TIMESPEC_NSEC s.rtclock.calend_offset s.rtclock.calend_adjdelta := rfl

theorem adj_inv_step_small (s : rtclock_state) (h : adj_inv s) :
    -1000000000 < s.rtclock.calend_adjdelta ∧ s.rtclock.calend_adjdelta < 1000000000 := by
  obtain ⟨h1, h2, h3, h4, h5⟩ := h
  omega

theorem adj_reachable_inv (s : rtclock_state) (h : adj_reachable s) :
    adj_inv s ∧ timespec_normal s.rtclock.calend_offset := by
  induction h with
  | init s h0 h1 h2 h3 h4 =>
    refine ⟨?_, h4, h2, h3⟩
    unfold adj_inv
    rw [h0, h1]
    omega
  | adjtime s secs microsecs _ hs hm ih =>
    refine ⟨adj_inv_adjtime s secs microsecs hs, ?_⟩
    have hr := int32_range (microsecs * 1000)
    obtain ⟨-, -, -, -, h5, -⟩ := clock_set_calendar_adjtime_fields s secs microsecs _ rfl
      (by omega) (by omega)
    rw [h5]
    exact ih.2
  | adjust s _ ih =>
    refine ⟨adj_inv_adjust s ih.1, ?_⟩
    rw [clock_adjust_calendar_offset]
    exact (ADD_MACH_TIMESPEC_NSEC_val _ _ ih.2 (adj_inv_step_small s ih.1).1
      (adj_inv_step_small s ih.1).2).1

theorem adjust_iter_succ_left (s : rtclock_state) (n : Nat) :
    adjust_iter s (n + 1) = adjust_iter (clock_adjust_calendar s).1 n := by
  induction n with
  | zero => rfl
  | succ k ih =>
    show (clock_adjust_calendar (adjust_iter s (k + 1))).1
      = (clock_adjust_calendar (adjust_iter (clock_adjust_calendar s).1 k)).1
    rw [ih]

theorem adj_inv_adjust_iter (s : rtclock_state) (h : adj_inv s) (n : Nat) :
    adj_inv (adjust_iter s n) := by
  induction n with
  | zero => exact h
  | succ k ih => exact adj_inv_adjust _ ih

/-- One call with an adjustment pending brings the total strictly closer to zero and
does not take it across zero. -/
theorem clock_adjust_calendar_approaches (s : rtclock_state) (h : adj_inv s)
    (hne : s.rtclock.calend_adjtotal ≠ 0) :
    (clock_adjust_calendar s).1.rtclock.calend_adjtotal.natAbs
      < s.rtclock.calend_adjtotal.natAbs
    ∧ (0 < s.rtclock.calend_adjtotal → 0 ≤ (clock_adjust_calendar s).1.rtclock.calend_adjtotal)
    ∧ (s.rtclock.calend_adjtotal < 0 →
        (clock_adjust_calendar s).1.rtclock.calend_adjtotal ≤ 0) := by
  obtain ⟨e1, -, -⟩ := clock_adjust_calendar_fields s h
  obtain ⟨h1, h2, h3, h4, h5⟩ := h
  rw [e1]
  omega

theorem adjust_iter_sign (s : rtclock_state) (h : adj_inv s) (n : Nat) :
    (0 < s.rtclock.calend_adjtotal → 0 ≤ (adjust_iter s n).rtclock.calend_adjtotal)
    ∧ (s.rtclock.calend_adjtotal < 0 → (adjust_iter s n).rtclock.calend_adjtotal ≤ 0) := by
  induction n with
  | zero =>
    constructor
    · intro h0
      exact le_of_lt h0
    · intro h0
      exact le_of_lt h0
  | succ k ih =>
    have hk := adj_inv_adjust_iter s h k
    by_cases hz : (adjust_iter s k).rtclock.calend_adjtotal = 0
    · obtain ⟨e1, -, -⟩ := clock_adjust_calendar_fields _ hk
      obtain ⟨h1, h2, h3, h4, h5⟩ := hk
      show (0 < s.rtclock.calend_adjtotal →
          0 ≤ (clock_adjust_calendar (adjust_iter s k)).1.rtclock.calend_adjtotal)
        ∧ (s.rtclock.calend_adjtotal < 0 →
          (clock_adjust_calendar (adjust_iter s k)).1.rtclock.calend_adjtotal ≤ 0)
      rw [e1, hz, h3 hz]
      omega
    · obtain ⟨-, a2, a3⟩ := clock_adjust_calendar_approaches _ hk hz
      show (0 < s.rtclock.calend_adjtotal →
          0 ≤ (clock_adjust_calendar (adjust_iter s k)).1.rtclock.calend_adjtotal)
        ∧ (s.rtclock.calend_adjtotal < 0 →
          (clock_adjust_calendar (adjust_iter s k)).1.rtclock.calend_adjtotal ≤ 0)
      constructor
      · intro h0
        have := ih.1 h0
        exact a2 (by omega)
      · intro h0
        have := ih.2 h0
        exact a3 (by omega)

theorem adjust_iter_reaches_zero (k : Nat) : ∀ s : rtclock_state, adj_inv s →
    s.rtclock.calend_adjtotal.natAbs ≤ k →
    ∃ N, (adjust_iter s N).rtclock.calend_adjtotal = 0
      ∧ ∀ m, m < N → (adjust_iter s m).rtclock.calend_adjtotal ≠ 0 := by
  induction k with
  | zero =>
    intro s _ hk
    exact ⟨0, by show s.rtclock.calend_adjtotal = 0; omega, fun m hm => absurd hm (by omega)⟩
  | succ k ih =>
    intro s h hk
    by_cases hz : s.rtclock.calend_adjtotal = 0
    · exact ⟨0, hz, fun m hm => absurd hm (by omega)⟩
    · obtain ⟨a1, -, -⟩ := clock_adjust_calendar_approaches s h hz
      obtain ⟨N, hN, hm⟩ := ih (clock_adjust_calendar s).1 (adj_inv_adjust s h) (by omega)
      refine ⟨N + 1, ?_, ?_⟩
      · rw [adjust_iter_succ_left]
        exact hN
      · intro m hlt
        cases m with
        | zero => exact hz
        | succ j =>
          rw [adjust_iter_succ_left]
          exact hm j (by omega)

/-- C14: let `clock_set_calendar_adjtime(secs, microsecs)` request a non-zero total of
`secs * 10^9 + microsecs * 1000` ns, leaving state `s1`.  If the magnitude is at most
40,000 ns, one `clock_adjust_calendar` call completes the adjustment: the total becomes 0,
the step becomes 0 and the call returns 0.  If it is larger, the first call leaves a
non-zero total and returns the tick interval; every call made while the total is non-zero
brings it strictly closer to zero; the total never takes the opposite sign; and after some
number `N > 1` of calls, and no fewer, the total is 0 and the last call returns 0. -/
theorem C14_slew_bound (s s1 : rtclock_state) (secs microsecs : Int)
    (hs : -(2 ^ 31) ≤ secs ∧ secs < 2 ^ 31)
    (hm : -(2 ^ 31) ≤ microsecs * 1000 ∧ microsecs * 1000 < 2 ^ 31)
    (hne : secs * 1000000000 + microsecs * 1000 ≠ 0)
    (h1 : (clock_set_calendar_adjtime s secs microsecs).1 = s1) :
    s1.rtclock.calend_adjtotal = secs * 1000000000 + microsecs * 1000
    ∧ ((secs * 1000000000 + microsecs * 1000).natAbs ≤ 40000 →
        (clock_adjust_calendar s1).1.rtclock.calend_adjtotal = 0
        ∧ (clock_adjust_calendar s1).1.rtclock.calend_adjdelta = 0
        ∧ (clock_adjust_calendar s1).2 = 0)
    ∧ (40000 < (secs * 1000000000 + microsecs * 1000).natAbs →
        (clock_adjust_calendar s1).1.rtclock.calend_adjtotal ≠ 0
        ∧ (clock_adjust_calendar s1).2 = 10000000
        ∧ (∀ n, (adjust_iter s1 n).rtclock.calend_adjtotal ≠ 0 →
            (adjust_iter s1 (n + 1)).rtclock.calend_adjtotal.natAbs
              < (adjust_iter s1 n).rtclock.calend_adjtotal.natAbs)
        ∧ (∀ n, (0 < secs * 1000000000 + microsecs * 1000 →
              0 ≤ (adjust_iter s1 n).rtclock.calend_adjtotal)
            ∧ (secs * 1000000000 + microsecs * 1000 < 0 →
              (adjust_iter s1 n).rtclock.calend_adjtotal ≤ 0))
        ∧ ∃ N, 1 < N ∧ (adjust_iter s1 N).rtclock.calend_adjtotal = 0
            ∧ (∀ m, m < N → (adjust_iter s1 m).rtclock.calend_adjtotal ≠ 0)
            ∧ (clock_adjust_calendar (adjust_iter s1 (N - 1))).2 = 0) := by
  have h32 : int32 (microsecs * 1000) = microsecs * 1000 := int32_of_range hm.1 hm.2
  have hinv : adj_inv s1 := by
    rw [← h1]
    exact adj_inv_adjtime s secs microsecs hs
  obtain ⟨f1, f2, f3, -, -, -⟩ := clock_set_calendar_adjtime_fields s secs microsecs
    (secs * 1000000000 + microsecs * 1000) (by rw [h32]) (by omega) (by omega)
  rw [h1] at f1 f2 f3
  obtain ⟨e1, e2, e3⟩ := clock_adjust_calendar_fields s1 hinv
  have hstep : ∀ n, (adjust_iter s1 (n + 1)) = (clock_adjust_calendar (adjust_iter s1 n)).1 :=
    fun _ => rfl
  refine ⟨f1, ?_, ?_⟩
  · intro hle
    rw [e3, e2, e1, f1]
    rcases lt_or_gt_of_ne hne with hneg | hpos
    · rw [f3 hneg]
      split_ifs <;> omega
    · rw [f2 hpos]
      split_ifs <;> omega
  · intro hgt
    refine ⟨?_, ?_, ?_, ?_, ?_⟩
    · rw [e1, f1]
      rcases lt_or_gt_of_ne hne with hneg | hpos
      · rw [f3 hneg]
        split_ifs <;> omega
      · rw [f2 hpos]
        split_ifs <;> omega
    · rw [e3, e2, f1]
      rcases lt_or_gt_of_ne hne with hneg | hpos
      · rw [f3 hneg]
        split_ifs <;> omega
      · rw [f2 hpos]
        split_ifs <;> omega
    · intro n hn
      rw [hstep]
      exact (clock_adjust_calendar_approaches _ (adj_inv_adjust_iter s1 hinv n) hn).1
    · intro n
      have := adjust_iter_sign s1 hinv n
      rw [f1] at this
      exact this
    · obtain ⟨N, hN, hm⟩ := adjust_iter_reaches_zero _ s1 hinv (le_refl _)
      have h0 : (adjust_iter s1 0).rtclock.calend_adjtotal ≠ 0 := by
        show s1.rtclock.calend_adjtotal ≠ 0
        rw [f1]
        exact hne
      have h1' : (adjust_iter s1 1).rtclock.calend_adjtotal ≠ 0 := by
        show (clock_adjust_calendar s1).1.rtclock.calend_adjtotal ≠ 0
        rw [e1, f1]
        rcases lt_or_gt_of_ne hne with hneg | hpos
        · rw [f3 hneg]
          split_ifs <;> omega
        · rw [f2 hpos]
          split_ifs <;> omega
      have hN1 : 1 < N := by
        rcases Nat.lt_or_ge 1 N with h | h
        · exact h
        · interval_cases N
          · exact absurd hN h0
          · exact absurd hN h1'
      refine ⟨N, hN1, hN, hm, ?_⟩
      obtain ⟨-, -, g3⟩ := clock_adjust_calendar_fields (adjust_iter s1 (N - 1))
        (adj_inv_adjust_iter s1 hinv (N - 1))
      have hNs : adjust_iter s1 N = (clock_adjust_calendar (adjust_iter s1 (N - 1))).1 := by
        have : N = (N - 1) + 1 := by omega
        rw [this]
        rfl
      have hz := (adj_inv_adjust_iter s1 hinv N).2.2.1 hN
      rw [hNs] at hz
      rw [g3, if_pos hz]

/-- C14 at 100,000 ns requested on the boot state (three calls: 60,000, 20,000, 0). -/
theorem C14_slew_bound_witness :
    example_slew_state.rtclock.calend_adjtotal = 0 * 1000000000 + 100 * 1000
    ∧ (((0 : Int) * 1000000000 + 100 * 1000).natAbs ≤ 40000 →
        (clock_adjust_calendar example_slew_state).1.rtclock.calend_adjtotal = 0
        ∧ (clock_adjust_calendar example_slew_state).1.rtclock.calend_adjdelta = 0
        ∧ (clock_adjust_calendar example_slew_state).2 = 0)
    ∧ (40000 < ((0 : Int) * 1000000000 + 100 * 1000).natAbs →
        (clock_adjust_calendar example_slew_state).1.rtclock.calend_adjtotal ≠ 0
        ∧ (clock_adjust_calendar example_slew_state).2 = 10000000
        ∧ (∀ n, (adjust_iter example_slew_state n).rtclock.calend_adjtotal ≠ 0 →
            (adjust_iter example_slew_state (n + 1)).rtclock.calend_adjtotal.natAbs
              < (adjust_iter example_slew_state n).rtclock.calend_adjtotal.natAbs)
        ∧ (∀ n, ((0 : Int) < 0 * 1000000000 + 100 * 1000 →
              0 ≤ (adjust_iter example_slew_state n).rtclock.calend_adjtotal)
            ∧ ((0 : Int) * 1000000000 + 100 * 1000 < 0 →
              (adjust_iter example_slew_state n).rtclock.calend_adjtotal ≤ 0))
        ∧ ∃ N, 1 < N ∧ (adjust_iter example_slew_state N).rtclock.calend_adjtotal = 0
            ∧ (∀ m, m < N → (adjust_iter example_slew_state m).rtclock.calend_adjtotal ≠ 0)
            ∧ (clock_adjust_calendar (adjust_iter example_slew_state (N - 1))).2 = 0) :=
  C14_slew_bound boot_state example_slew_state 0 100 (by decide) (by decide) (by decide) rfl

/-- C15: for `int32_t` arguments whose product `microsecs * 1000` does not overflow, let
`total = secs * 10^9 + microsecs * 1000`.  If `total` is not 0,
`clock_set_calendar_adjtime` records `calend_adjtotal = total` and a step
`calend_adjdelta` with the sign of `total` and magnitude `min(step, |total|)`, where
`step` is 40,000 when `|total| <= 10^9` and 400,000 otherwise, and returns 10,000,000.
If `total` is 0 it clears both fields and returns 0.  Nothing else in the state changes. -/
theorem C15_slew_step_selection (s : rtclock_state) (secs microsecs : Int)
    (hs : -(2 ^ 31) ≤ secs ∧ secs < 2 ^ 31)
    (hm : -(2 ^ 31) ≤ microsecs * 1000 ∧ microsecs * 1000 < 2 ^ 31) :
    (secs * 1000000000 + microsecs * 1000 ≠ 0 →
      (clock_set_calendar_adjtime s secs microsecs).1.rtclock.calend_adjtotal
        = secs * 1000000000 + microsecs * 1000
      ∧ (0 < secs * 1000000000 + microsecs * 1000 →
          0 < (clock_set_calendar_adjtime s secs microsecs).1.rtclock.calend_adjdelta)
      ∧ (secs * 1000000000 + microsecs * 1000 < 0 →
          (clock_set_calendar_adjtime s secs microsecs).1.rtclock.calend_adjdelta < 0)
      ∧ (clock_set_calendar_adjtime s secs microsecs).1.rtclock.calend_adjdelta.natAbs
        = min (if (secs * 1000000000 + microsecs * 1000).natAbs ≤ 1000000000
            then 40000 else 400000) (secs * 1000000000 + microsecs * 1000).natAbs
      ∧ (clock_set_calendar_adjtime s secs microsecs).2.2.2 = 10000000)
    ∧ (secs * 1000000000 + microsecs * 1000 = 0 →
      (clock_set_calendar_adjtime s secs microsecs).1.rtclock.calend_adjtotal = 0
      ∧ (clock_set_calendar_adjtime s secs microsecs).1.rtclock.calend_adjdelta = 0
      ∧ (clock_set_calendar_adjtime s secs microsecs).2.2.2 = 0)
    ∧ (clock_set_calendar_adjtime s secs microsecs).1
      = { s with rtclock := { s.rtclock with
          calend_adjtotal :=
            (clock_set_calendar_adjtime s secs microsecs).1.rtclock.calend_adjtotal
          calend_adjdelta :=
            (clock_set_calendar_adjtime s secs microsecs).1.rtclock.calend_adjdelta } } := by
  have h32 : int32 (microsecs * 1000) = microsecs * 1000 := int32_of_range hm.1 hm.2
  obtain ⟨f1, f2, f3, f4, -, f6⟩ := clock_set_calendar_adjtime_fields s secs microsecs
    (secs * 1000000000 + microsecs * 1000) (by rw [h32]) (by omega) (by omega)
  refine ⟨?_, ?_, ?_⟩
  · intro hne
    refine ⟨f1, ?_, ?_, ?_, ?_⟩
    · intro hpos
      rw [f2 hpos]
      split_ifs <;> omega
    · intro hneg
      rw [f3 hneg]
      split_ifs <;> omega
    · rcases lt_or_gt_of_ne hne with hneg | hpos
      · rw [f3 hneg]
        split_ifs <;> omega
      · rw [f2 hpos]
        split_ifs <;> omega
    · rw [f6, if_neg hne]
  · intro h0
    exact ⟨f1.trans h0, f4 h0, by rw [f6, if_pos h0]⟩
  · unfold clock_set_calendar_adjtime
    simp only []
    split_ifs <;> rfl

/-- C15 at a request of 2 s + 500,000 us on the boot state: total 2,500,000,000 ns,
step 400,000 ns. -/
theorem C15_slew_step_selection_witness :
    ((2 : Int) * 1000000000 + 500000 * 1000 ≠ 0
      ∧ (clock_set_calendar_adjtime boot_state 2 500000).1.rtclock.calend_adjdelta = 400000)
    ∧ (((2 : Int) * 1000000000 + 500000 * 1000 ≠ 0 →
      (clock_set_calendar_adjtime boot_state 2 500000).1.rtclock.calend_adjtotal
        = 2 * 1000000000 + 500000 * 1000
      ∧ ((0 : Int) < 2 * 1000000000 + 500000 * 1000 →
          0 < (clock_set_calendar_adjtime boot_state 2 500000).1.rtclock.calend_adjdelta)
      ∧ ((2 : Int) * 1000000000 + 500000 * 1000 < 0 →
          (clock_set_calendar_adjtime boot_state 2 500000).1.rtclock.calend_adjdelta < 0)
      ∧ (clock_set_calendar_adjtime boot_state 2 500000).1.rtclock.calend_adjdelta.natAbs
        = min (if ((2 : Int) * 1000000000 + 500000 * 1000).natAbs ≤ 1000000000
            then 40000 else 400000) ((2 : Int) * 1000000000 + 500000 * 1000).natAbs
      ∧ (clock_set_calendar_adjtime boot_state 2 500000).2.2.2 = 10000000)
    ∧ ((2 : Int) * 1000000000 + 500000 * 1000 = 0 →
      (clock_set_calendar_adjtime boot_state 2 500000).1.rtclock.calend_adjtotal = 0
      ∧ (clock_set_calendar_adjtime boot_state 2 500000).1.rtclock.calend_adjdelta = 0
      ∧ (clock_set_calendar_adjtime boot_state 2 500000).2.2.2 = 0)
    ∧ (clock_set_calendar_adjtime boot_state 2 500000).1
      = { boot_state with rtclock := { boot_state.rtclock with
          calend_adjtotal :=
            (clock_set_calendar_adjtime boot_state 2 500000).1.rtclock.calend_adjtotal
          calend_adjdelta :=
            (clock_set_calendar_adjtime boot_state 2 500000).1.rtclock.calend_adjdelta } }) :=
  ⟨by decide, C15_slew_step_selection boot_state 2 500000 (by decide) (by decide)⟩

/-- C16 does not hold of the code: with 100,000 ns (100 microseconds) pending after
`clock_set_calendar_adjtime(0, 100)`, the next call writes back `*secs = 0` and
`*microsecs = 100000`, the nanosecond remainder `ototal % NSEC_PER_SEC`, which read as
seconds and microseconds is 100,000 us and not the 100 us that were pending. -/
theorem C16_writes_back_nanoseconds :
    example_slew_state.rtclock.calend_adjtotal = 100000
    ∧ (clock_set_calendar_adjtime example_slew_state 0 0).2.1 = 0
    ∧ (clock_set_calendar_adjtime example_slew_state 0 0).2.2.1 = 100000
    ∧ ((clock_set_calendar_adjtime example_slew_state 0 0).2.1 * 1000000
        + (clock_set_calendar_adjtime example_slew_state 0 0).2.2.1) * 1000
      ≠ example_slew_state.rtclock.calend_adjtotal
    ∧ (clock_set_calendar_adjtime boot_state 0 0).2.1 = 0
    ∧ (clock_set_calendar_adjtime boot_state 0 0).2.2.1 = 0 := by
  decide

theorem clock_adjust_calendar_frame (s : rtclock_state) :
    (clock_adjust_calendar s).1
      = { s with rtclock := { s.rtclock with
          calend_offset := (clock_adjust_calendar s).1.rtclock.calend_offset
          calend_adjtotal := (clock_adjust_calendar s).1.rtclock.calend_adjtotal
          calend_adjdelta := (clock_adjust_calendar s).1.rtclock.calend_adjdelta } } := rfl

/-- C17: in a state reached from one with nothing pending by `clock_set_calendar_adjtime`
and `clock_adjust_calendar` calls, `clock_adjust_calendar` changes nothing and returns 0
when `calend_adjtotal = 0`.  Otherwise it adds `calend_adjdelta` nanoseconds to
`calend_offset` (which stays normalised), subtracts `calend_adjdelta` from
`calend_adjtotal`, replaces `calend_adjdelta` by the remaining total exactly when the old
step is larger in magnitude than what remains, changes nothing else, and returns
10,000,000 if the new `calend_adjdelta` is not 0 and 0 if it is. -/
theorem C17_per_tick_slew_step (s : rtclock_state) (h : adj_reachable s) :
    (s.rtclock.calend_adjtotal = 0 → clock_adjust_calendar s = (s, 0))
    ∧ (s.rtclock.calend_adjtotal ≠ 0 →
      (clock_adjust_calendar s).1.rtclock.calend_offset
        = ADD_MACH_TIMESPEC_NSEC s.rtclock.calend_offset s.rtclock.calend_adjdelta
      ∧ timespec_normal (clock_adjust_calendar s).1.rtclock.calend_offset
      ∧ timespec_nanos (clock_adjust_calendar s).1.rtclock.calend_offset
        = (timespec_nanos s.rtclock.calend_offset + s.rtclock.calend_adjdelta)
          % (2 ^ 32 * 1000000000)
      ∧ (clock_adjust_calendar s).1.rtclock.calend_adjtotal
        = s.rtclock.calend_adjtotal - s.rtclock.calend_adjdelta
      ∧ (clock_adjust_calendar s).1.rtclock.calend_adjdelta
        = (if (s.rtclock.calend_adjtotal - s.rtclock.calend_adjdelta).natAbs
              < s.rtclock.calend_adjdelta.natAbs
            then s.rtclock.calend_adjtotal - s.rtclock.calend_adjdelta
            else s.rtclock.calend_adjdelta)
      ∧ ((clock_adjust_calendar s).2 = 10000000 ↔
          (clock_adjust_calendar s).1.rtclock.calend_adjdelta ≠ 0)
      ∧ ((clock_adjust_calendar s).2 = 0 ↔
          (clock_adjust_calendar s).1.rtclock.calend_adjdelta = 0)
      ∧ (clock_adjust_calendar s).1
        = { s with rtclock := { s.rtclock with
            calend_offset := (clock_adjust_calendar s).1.rtclock.calend_offset
            calend_adjtotal := (clock_adjust_calendar s).1.rtclock.calend_adjtotal
            calend_adjdelta := (clock_adjust_calendar s).1.rtclock.calend_adjdelta } }) := by
  obtain ⟨hinv, hnorm⟩ := adj_reachable_inv s h
  obtain ⟨e1, e2, e3⟩ := clock_adjust_calendar_fields s hinv
  have hsmall := adj_inv_step_small s hinv
  obtain ⟨n1, n2⟩ := ADD_MACH_TIMESPEC_NSEC_val _ _ hnorm hsmall.1 hsmall.2
  constructor
  · intro h0
    have hd : s.rtclock.calend_adjdelta = 0 := hinv.2.2.1 h0
    have g1 : (clock_adjust_calendar s).1.rtclock.calend_offset = s.rtclock.calend_offset := by
      rw [clock_adjust_calendar_offset, hd, ADD_MACH_TIMESPEC_NSEC_zero]
    have g2 : (clock_adjust_calendar s).1.rtclock.calend_adjtotal
        = s.rtclock.calend_adjtotal := by
      rw [e1, hd, sub_zero]
    have g3 : (clock_adjust_calendar s).1.rtclock.calend_adjdelta
        = s.rtclock.calend_adjdelta := by
      rw [e2, hd, h0]
      rfl
    have g4 : (clock_adjust_calendar s).2 = 0 := by
      rw [e3, g3, hd, if_pos rfl]
    have g5 : (clock_adjust_calendar s).1 = s := by
      rw [clock_adjust_calendar_frame, g1, g2, g3]
    exact Prod.ext g5 g4
  · intro _
    refine ⟨rfl, ?_, ?_, e1, e2, ?_, ?_, clock_adjust_calendar_frame s⟩
    · rw [clock_adjust_calendar_offset]
      exact n1
    · rw [clock_adjust_calendar_offset]
      exact n2
    · rw [e3]
      split_ifs with hz
      · constructor
        · intro hc
          exact absurd hc (by decide)
        · intro hc
          exact absurd hz hc
      · exact ⟨fun _ => hz, fun _ => rfl⟩
    · rw [e3]
      split_ifs with hz
      · exact ⟨fun _ => hz, fun _ => rfl⟩
      · constructor
        · intro hc
          exact absurd hc (by decide)
        · intro hc
          exact absurd hc hz

/-- C17 on the state with 100,000 ns pending: the first tick applies 40,000 ns. -/
theorem C17_per_tick_slew_step_witness :
    (example_slew_state.rtclock.calend_adjtotal = 0 →
      clock_adjust_calendar example_slew_state = (example_slew_state, 0))
    ∧ (example_slew_state.rtclock.calend_adjtotal ≠ 0 →
      (clock_adjust_calendar example_slew_state).1.rtclock.calend_offset
        = ADD_MACH_TIMESPEC_NSEC example_slew_state.rtclock.calend_offset
            example_slew_state.rtclock.calend_adjdelta
      ∧ timespec_normal (clock_adjust_calendar example_slew_state).1.rtclock.calend_offset
      ∧ timespec_nanos (clock_adjust_calendar example_slew_state).1.rtclock.calend_offset
        = (timespec_nanos example_slew_state.rtclock.calend_offset
            + example_slew_state.rtclock.calend_adjdelta) % (2 ^ 32 * 1000000000)
      ∧ (clock_adjust_calendar example_slew_state).1.rtclock.calend_adjtotal
        = example_slew_state.rtclock.calend_adjtotal
          - example_slew_state.rtclock.calend_adjdelta
      ∧ (clock_adjust_calendar example_slew_state).1.rtclock.calend_adjdelta
        = (if (example_slew_state.rtclock.calend_adjtotal
                - example_slew_state.rtclock.calend_adjdelta).natAbs
              < example_slew_state.rtclock.calend_adjdelta.natAbs
            then example_slew_state.rtclock.calend_adjtotal
              - example_slew_state.rtclock.calend_adjdelta
            else example_slew_state.rtclock.calend_adjdelta)
      ∧ ((clock_adjust_calendar example_slew_state).2 = 10000000 ↔
          (clock_adjust_calendar example_slew_state).1.rtclock.calend_adjdelta ≠ 0)
      ∧ ((clock_adjust_calendar example_slew_state).2 = 0 ↔
          (clock_adjust_calendar example_slew_state).1.rtclock.calend_adjdelta = 0)
      ∧ (clock_adjust_calendar example_slew_state).1
        = { example_slew_state with rtclock := { example_slew_state.rtclock with
            calend_offset := (clock_adjust_calendar example_slew_state).1.rtclock.calend_offset
            calend_adjtotal :=
              (clock_adjust_calendar example_slew_state).1.rtclock.calend_adjtotal
            calend_adjdelta :=
              (clock_adjust_calendar example_slew_state).1.rtclock.calend_adjdelta } }) :=
  C17_per_tick_slew_step example_slew_state
    (adj_reachable.adjtime boot_state 0 100
      (adj_reachable.init boot_state rfl rfl (by decide) (by decide) (by decide))
      (by decide) (by decide))

/-! ## Reading and setting the calendar -/

theorem nanos_to_timespec_val (n : Nat) (h : n < 2 ^ 32 * 1000000000) :
    nanos_to_timespec n
      = some { tv_sec := n / 1000000000, tv_nsec := ((n % 1000000000 : Nat) : Int) } := by
  have e : u32 (n / 2 ^ 32) * 2 ^ 32 + u32 n = n := by
    unfold u32
    omega
  have hq : n / 1000000000 < 2 ^ 32 := by omega
  unfold nanos_to_timespec divl
  rw [e]
  have e1 : NSEC_PER_SEC = 1000000000 := rfl
  rw [e1, if_neg (by decide), if_pos hq]
  rfl

theorem sysclk_gettime_internal_val (s : rtclock_state) (tsc now : Nat)
    (hnow : rtc_nanotime_read s tsc = some now) (h : now < 2 ^ 32 * 1000000000) :
    sysclk_gettime_internal s tsc = some (kern_return_t.KERN_SUCCESS,
      { tv_sec := now / 1000000000, tv_nsec := ((now % 1000000000 : Nat) : Int) }) := by
  unfold sysclk_gettime_internal tsc_to_timespec
  rw [hnow, Option.some_bind, nanos_to_timespec_val now h]
  rfl

theorem timespec_of_nanos (n : Nat) (h : n < 2 ^ 32 * 1000000000) :
    timespec_normal { tv_sec := n / 1000000000, tv_nsec := ((n % 1000000000 : Nat) : Int) }
    ∧ timespec_nanos { tv_sec := n / 1000000000, tv_nsec := ((n % 1000000000 : Nat) : Int) }
      = (n : Int) := by
  unfold timespec_normal timespec_nanos
  simp only []
  omega

theorem ADD_MACH_TIMESPEC_val (t1 t2 : mach_timespec_t) (h1 : timespec_normal t1)
    (h2 : timespec_normal t2) :
    timespec_normal (ADD_MACH_TIMESPEC t1 t2)
    ∧ timespec_nanos (ADD_MACH_TIMESPEC t1 t2)
      = (timespec_nanos t1 + timespec_nanos t2) % (2 ^ 32 * 1000000000) := by
  obtain ⟨a1, a2, a3⟩ := h1
  obtain ⟨b1, b2, b3⟩ := h2
  have e1 : ((NSEC_PER_SEC : Nat) : Int) = 1000000000 := rfl
  unfold ADD_MACH_TIMESPEC timespec_normal timespec_nanos u32
  simp only [e1]
  split_ifs
  · simp only []
    push_cast
    omega
  · simp only []
    push_cast
    omega

theorem SUB_MACH_TIMESPEC_val (t1 t2 : mach_timespec_t) (h1 : timespec_normal t1)
    (h2 : timespec_normal t2) :
    timespec_normal (SUB_MACH_TIMESPEC t1 t2)
    ∧ timespec_nanos (SUB_MACH_TIMESPEC t1 t2)
      = (timespec_nanos t1 - timespec_nanos t2) % (2 ^ 32 * 1000000000) := by
  obtain ⟨a1, a2, a3⟩ := h1
  obtain ⟨b1, b2, b3⟩ := h2
  have e1 : ((NSEC_PER_SEC : Nat) : Int) = 1000000000 := rfl
  unfold SUB_MACH_TIMESPEC timespec_normal timespec_nanos sub32
  simp only [e1]
  split_ifs
  · simp only []
    push_cast
    omega
  · simp only []
    push_cast
    omega

/-- C18 as worded fails when the stored offset is not normalised: after
`clock_set_calendar_microtime(10, 2000000)` at 2.5 s of uptime the calendar is set with
offset 8 s and 1,500,000,000 ns, and `calend_gettime` at 2.6 s of uptime returns
`KERN_SUCCESS` with 11 s and 1,100,000,000 ns, which is not a normalised timespec. -/
theorem C18_counterexample :
    (clock_set_calendar_microtime example_fast_state 10 2000000 5000000000).map
        (fun r => r.1) = some example_unchecked_calendar_state
    ∧ example_unchecked_calendar_state.rtclock.calend_is_set = true
    ∧ example_unchecked_calendar_state.rtclock.calend_offset = ⟨8, 1500000000⟩
    ∧ rtc_nanotime_read example_unchecked_calendar_state 5200000000 = some 2600000000
    ∧ calend_gettime example_unchecked_calendar_state 5200000000 ⟨0, 0⟩
        = some (kern_return_t.KERN_SUCCESS, ⟨11, 1100000000⟩,
            example_unchecked_calendar_state)
    ∧ ¬ (∃ out, calend_gettime example_unchecked_calendar_state 5200000000 ⟨0, 0⟩
          = some (kern_return_t.KERN_SUCCESS, out, example_unchecked_calendar_state)
        ∧ timespec_normal out) := by
  have h : calend_gettime example_unchecked_calendar_state 5200000000 ⟨0, 0⟩
      = some (kern_return_t.KERN_SUCCESS, ⟨11, 1100000000⟩,
          example_unchecked_calendar_state) := by decide
  refine ⟨by decide, by decide, by decide, by decide, h, ?_⟩
  rintro ⟨out, ho, hn⟩
  rw [h] at ho
  have e : out = ⟨11, 1100000000⟩ := (Prod.mk.inj (Prod.mk.inj (Option.some.inj ho)).2).1.symm
  rw [e] at hn
  exact absurd hn.2.2 (by decide)

/-- C18, amended: `calend_gettime` on a calendar that was never set returns `KERN_FAILURE`,
leaves `*cur_time` as it was and changes no state.  On a calendar that is set, provided
the stored offset is a normalised timespec and the clock read of `now` nanoseconds has
seconds that fit 32 bits, it returns `KERN_SUCCESS`, changes no state, and `*cur_time` is
a normalised timespec standing for `now` plus the offset (seconds wrap at `2^32`).
Whenever the call returns, the code is `KERN_FAILURE` exactly when the calendar is not
set. -/
theorem C18_calendar_read :
    (∀ (s : rtclock_state) (tsc : Nat) (cur : mach_timespec_t),
      s.rtclock.calend_is_set = false →
      calend_gettime s tsc cur = some (kern_return_t.KERN_FAILURE, cur, s))
    ∧ (∀ (s : rtclock_state) (tsc : Nat) (cur : mach_timespec_t) (now : Nat),
      s.rtclock.calend_is_set = true →
      rtc_nanotime_read s tsc = some now →
      now < 2 ^ 32 * 1000000000 →
      timespec_normal s.rtclock.calend_offset →
      ∃ out, calend_gettime s tsc cur = some (kern_return_t.KERN_SUCCESS, out, s)
        ∧ timespec_normal out
        ∧ timespec_nanos out
          = ((now : Int) + timespec_nanos s.rtclock.calend_offset) % (2 ^ 32 * 1000000000))
    ∧ (∀ (s : rtclock_state) (tsc : Nat) (cur : mach_timespec_t)
        (r : kern_return_t × mach_timespec_t × rtclock_state),
      calend_gettime s tsc cur = some r →
      (r.1 = kern_return_t.KERN_FAILURE ↔ s.rtclock.calend_is_set = false)
      ∧ (r.1 = kern_return_t.KERN_SUCCESS ↔ s.rtclock.calend_is_set = true)
      ∧ r.2.2 = s) := by
  refine ⟨?_, ?_, ?_⟩
  · intro s tsc cur h
    unfold calend_gettime
    rw [if_pos]
    rw [h]
    decide
  · intro s tsc cur now h hnow hlt hnorm
    obtain ⟨n1, n2⟩ := timespec_of_nanos now hlt
    obtain ⟨a1, a2⟩ := ADD_MACH_TIMESPEC_val _ _ n1 hnorm
    rw [n2] at a2
    unfold calend_gettime
    rw [if_neg (not_not_intro h), sysclk_gettime_internal_val s tsc now hnow hlt,
      Option.some_bind]
    exact ⟨_, rfl, a1, a2⟩
  · intro s tsc cur r hr
    unfold calend_gettime at hr
    by_cases h : s.rtclock.calend_is_set = true
    · rw [if_neg (not_not_intro h), Option.bind_eq_some] at hr
      obtain ⟨x, -, hx⟩ := hr
      have hx2 := (Option.some.inj hx).symm
      subst hx2
      refine ⟨?_, ?_, rfl⟩
      · constructor
        · intro hc
          exact absurd (show kern_return_t.KERN_SUCCESS = kern_return_t.KERN_FAILURE from hc)
            (by decide)
        · intro hc
          rw [h] at hc
          exact absurd hc (by decide)
      · exact ⟨fun _ => h, fun _ => rfl⟩
    · rw [if_pos h] at hr
      have hx2 := (Option.some.inj hr).symm
      subst hx2
      have hf : s.rtclock.calend_is_set = false := by
        cases hc : s.rtclock.calend_is_set
        · rfl
        · exact absurd hc h
      refine ⟨⟨fun _ => hf, fun _ => rfl⟩, ?_, rfl⟩
      constructor
      · intro hc
        exact absurd (show kern_return_t.KERN_FAILURE = kern_return_t.KERN_SUCCESS from hc)
          (by decide)
      · intro hc
        exact absurd hc h

/-- C18 (amended) on the boot state (calendar not set) and on the example calendar state
read at 2.5 s of uptime, where the calendar time is 1000.75 s. -/
theorem C18_calendar_read_witness :
    (boot_state.rtclock.calend_is_set = false
      ∧ example_calendar_state.rtclock.calend_is_set = true
      ∧ rtc_nanotime_read example_calendar_state 5000000000 = some 2500000000)
    ∧ calend_gettime boot_state 0 ⟨7, 7⟩ = some (kern_return_t.KERN_FAILURE, ⟨7, 7⟩, boot_state)
    ∧ (∃ out, calend_gettime example_calendar_state 5000000000 ⟨7, 7⟩
          = some (kern_return_t.KERN_SUCCESS, out, example_calendar_state)
        ∧ timespec_normal out
        ∧ timespec_nanos out
          = (((2500000000 : Nat) : Int)
              + timespec_nanos example_calendar_state.rtclock.calend_offset)
            % (2 ^ 32 * 1000000000))
    ∧ ((kern_return_t.KERN_FAILURE, (⟨7, 7⟩ : mach_timespec_t), boot_state).1
          = kern_return_t.KERN_FAILURE ↔ boot_state.rtclock.calend_is_set = false) :=
  ⟨by decide,
    C18_calendar_read.1 boot_state 0 ⟨7, 7⟩ rfl,
    C18_calendar_read.2.1 example_calendar_state 5000000000 ⟨7, 7⟩ 2500000000
      (by decide) (by decide) (by decide) (by unfold timespec_normal; decide),
    (C18_calendar_read.2.2 boot_state 0 ⟨7, 7⟩ _
      (C18_calendar_read.1 boot_state 0 ⟨7, 7⟩ rfl)).1⟩

theorem clock_set_calendar_microtime_val (s : rtclock_state) (secs microsecs tsc : Nat)
    (r : kern_return_t × mach_timespec_t) (h : sysclk_gettime_internal s tsc = some r) :
    clock_set_calendar_microtime s secs microsecs tsc
      = some ({ s with rtclock := { s.rtclock with
            calend_offset := SUB_MACH_TIMESPEC
              { tv_sec := u32 secs, tv_nsec := int32 (u32 (u32 microsecs * NSEC_PER_USEC)) } r.2
            boottime := u32 (s.rtclock.boottime + sub32
              (SUB_MACH_TIMESPEC
                { tv_sec := u32 secs, tv_nsec := int32 (u32 (u32 microsecs * NSEC_PER_USEC)) }
                r.2).tv_sec
              s.rtclock.calend_offset.tv_sec)
            calend_is_set := true } },
          [rtc_event.bbc_settime
              { tv_sec := u32 secs, tv_nsec := int32 (u32 (u32 microsecs * NSEC_PER_USEC)) },
            rtc_event.host_notify_calendar_change]) := by
  unfold clock_set_calendar_microtime
  rw [h]
  rfl

theorem new_time_val (secs microsecs : Nat) (hsecs : secs < 2 ^ 32)
    (hus : microsecs < 1000000) :
    ({ tv_sec := u32 secs, tv_nsec := int32 (u32 (u32 microsecs * NSEC_PER_USEC)) }
        : mach_timespec_t)
      = { tv_sec := secs, tv_nsec := ((microsecs * 1000 : Nat) : Int) } := by
  have e1 : NSEC_PER_USEC = 1000 := rfl
  have a : u32 secs = secs := u32_of_lt hsecs
  have b : int32 (u32 (u32 microsecs * NSEC_PER_USEC)) = ((microsecs * 1000 : Nat) : Int) := by
    rw [e1]
    unfold int32 u32
    omega
  rw [a, b]

theorem calendar_set_fields (s s1 : rtclock_state) (o : mach_timespec_t) (b : Nat)
    (h : s1 = { s with rtclock := { s.rtclock with
        calend_offset := o, boottime := b, calend_is_set := true } }) :
    s1.rtclock.calend_offset = o ∧ s1.rtclock.boottime = b
    ∧ s1.rtclock.calend_is_set = true
    ∧ s1.rtclock.calend_adjtotal = s.rtclock.calend_adjtotal
    ∧ s1.rtclock.calend_adjdelta = s.rtclock.calend_adjdelta
    ∧ s1 = { s with rtclock := { s.rtclock with
        calend_offset := s1.rtclock.calend_offset
        boottime := s1.rtclock.boottime
        calend_is_set := true } } := by
  subst h
  exact ⟨rfl, rfl, rfl, rfl, rfl, rfl⟩

theorem boottime_delta (b n o : Nat) :
    ((u32 (b + sub32 n o) : Nat) : Int) = ((b : Int) + ((n : Int) - (o : Int))) % 2 ^ 32 := by
  unfold u32 sub32
  push_cast
  omega

/-- C19: for 32-bit `secs`, `microsecs < 1,000,000` and a clock read of `now` nanoseconds
whose seconds fit 32 bits, `clock_set_calendar_microtime(secs, microsecs)` returns after
writing the battery-backed clock and notifying the calendar-change observers; the new
`calend_offset` is `SUB_MACH_TIMESPEC` of `(secs, microsecs * 1000)` and the current
time, a normalised timespec standing for the wall time minus `now` (seconds wrap at
`2^32`); `boottime` changes by the new minus the old `calend_offset.tv_sec` modulo
`2^32`; `calend_is_set` is TRUE; `calend_adjtotal`, `calend_adjdelta` and everything
outside these three fields are unchanged. -/
theorem C19_calendar_set (s : rtclock_state) (secs microsecs tsc now : Nat)
    (hsecs : secs < 2 ^ 32) (hus : microsecs < 1000000)
    (hnow : rtc_nanotime_read s tsc = some now) (hlt : now < 2 ^ 32 * 1000000000) :
    ∃ s1, clock_set_calendar_microtime s secs microsecs tsc
        = some (s1, [rtc_event.bbc_settime
              { tv_sec := secs, tv_nsec := ((microsecs * 1000 : Nat) : Int) },
            rtc_event.host_notify_calendar_change])
      ∧ s1.rtclock.calend_offset
        = SUB_MACH_TIMESPEC { tv_sec := secs, tv_nsec := ((microsecs * 1000 : Nat) : Int) }
            { tv_sec := now / 1000000000, tv_nsec := ((now % 1000000000 : Nat) : Int) }
      ∧ timespec_normal s1.rtclock.calend_offset
      ∧ timespec_nanos s1.rtclock.calend_offset
        = ((secs : Int) * 1000000000 + (microsecs : Int) * 1000 - (now : Int))
          % (2 ^ 32 * 1000000000)
      ∧ (s1.rtclock.boottime : Int)
        = ((s.rtclock.boottime : Int)
            + ((s1.rtclock.calend_offset.tv_sec : Int) - (s.rtclock.calend_offset.tv_sec : Int)))
          % 2 ^ 32
      ∧ s1.rtclock.calend_is_set = true
      ∧ s1.rtclock.calend_adjtotal = s.rtclock.calend_adjtotal
      ∧ s1.rtclock.calend_adjdelta = s.rtclock.calend_adjdelta
      ∧ s1 = { s with rtclock := { s.rtclock with
          calend_offset := s1.rtclock.calend_offset
          boottime := s1.rtclock.boottime
          calend_is_set := true } } := by
  have hget := sysclk_gettime_internal_val s tsc now hnow hlt
  have hval := clock_set_calendar_microtime_val s secs microsecs tsc _ hget
  rw [new_time_val secs microsecs hsecs hus] at hval
  obtain ⟨c1, c2, c3, c4, c5, c6⟩ := calendar_set_fields s _ _ _ rfl
  obtain ⟨n1, n2⟩ := timespec_of_nanos now hlt
  have hnew : timespec_normal
      { tv_sec := secs, tv_nsec := ((microsecs * 1000 : Nat) : Int) } := by
    unfold timespec_normal
    simp only []
    omega
  have hnewn : timespec_nanos
      { tv_sec := secs, tv_nsec := ((microsecs * 1000 : Nat) : Int) }
      = (secs : Int) * 1000000000 + (microsecs : Int) * 1000 := by
    simp only [timespec_nanos]
    push_cast
    rfl
  obtain ⟨a1, a2⟩ := SUB_MACH_TIMESPEC_val _ _ hnew n1
  rw [n2, hnewn] at a2
  refine ⟨_, hval, c1, ?_, ?_, ?_, c3, c4, c5, c6⟩
  · exact c1.symm ▸ a1
  · exact c1.symm ▸ a2
  · exact c2.symm ▸ c1.symm ▸ boottime_delta _ _ _

/-- C19 on the 2 GHz example at 2 s of uptime, setting the calendar to 1000.25 s. -/
theorem C19_calendar_set_witness :
    ((1000 : Nat) < 2 ^ 32 ∧ (250000 : Nat) < 1000000
      ∧ rtc_nanotime_read example_fast_state 4000000000 = some 2000000000
      ∧ (2000000000 : Nat) < 2 ^ 32 * 1000000000)
    ∧ ∃ s1, clock_set_calendar_microtime example_fast_state 1000 250000 4000000000
        = some (s1, [rtc_event.bbc_settime
              { tv_sec := 1000, tv_nsec := ((250000 * 1000 : Nat) : Int) },
            rtc_event.host_notify_calendar_change])
      ∧ s1.rtclock.calend_offset
        = SUB_MACH_TIMESPEC { tv_sec := 1000, tv_nsec := ((250000 * 1000 : Nat) : Int) }
            { tv_sec := 2000000000 / 1000000000,
              tv_nsec := ((2000000000 % 1000000000 : Nat) : Int) }
      ∧ timespec_normal s1.rtclock.calend_offset
      ∧ timespec_nanos s1.rtclock.calend_offset
        = (((1000 : Nat) : Int) * 1000000000 + ((250000 : Nat) : Int) * 1000
            - ((2000000000 : Nat) : Int)) % (2 ^ 32 * 1000000000)
      ∧ (s1.rtclock.boottime : Int)
        = ((example_fast_state.rtclock.boottime : Int)
            + ((s1.rtclock.calend_offset.tv_sec : Int)
              - (example_fast_state.rtclock.calend_offset.tv_sec : Int))) % 2 ^ 32
      ∧ s1.rtclock.calend_is_set = true
      ∧ s1.rtclock.calend_adjtotal = example_fast_state.rtclock.calend_adjtotal
      ∧ s1.rtclock.calend_adjdelta = example_fast_state.rtclock.calend_adjdelta
      ∧ s1 = { example_fast_state with rtclock := { example_fast_state.rtclock with
          calend_offset := s1.rtclock.calend_offset
          boottime := s1.rtclock.boottime
          calend_is_set := true } } :=
  ⟨by decide,
    C19_calendar_set example_fast_state 1000 250000 4000000000 2000000000
      (by decide) (by decide) (by decide) (by decide)⟩

/-! ## Attribute queries -/

/-- C20: whatever distinct numbers the four flavors are, `sysclk_getattr` with
`*count != 1` returns `KERN_FAILURE` and leaves the attribute buffer and the state as they
were; with `*count = 1` it returns `KERN_SUCCESS` with `rtc_intr_nsec` for
`CLOCK_GET_TIME_RES` and with 0 for `CLOCK_ALARM_CURRES`, `CLOCK_ALARM_MINRES` and
`CLOCK_ALARM_MAXRES`, and `KERN_INVALID_VALUE` with the buffer untouched for any other
flavor; the state never changes; and `calend_getattr` returns the same on every input. -/
theorem C20_malformed_attribute_queries (k : clock_flavor_consts) (s : rtclock_state)
    (flavor attr count : Nat)
    (hk : k.CLOCK_GET_TIME_RES ≠ k.CLOCK_ALARM_CURRES
      ∧ k.CLOCK_GET_TIME_RES ≠ k.CLOCK_ALARM_MINRES
      ∧ k.CLOCK_GET_TIME_RES ≠ k.CLOCK_ALARM_MAXRES) :
    (count ≠ 1 → sysclk_getattr k s flavor attr count = (kern_return_t.KERN_FAILURE, attr, s))
    ∧ (count = 1 → flavor = k.CLOCK_GET_TIME_RES →
        sysclk_getattr k s flavor attr count = (kern_return_t.KERN_SUCCESS, s.rtc_intr_nsec, s))
    ∧ (count = 1 → (flavor = k.CLOCK_ALARM_CURRES ∨ flavor = k.CLOCK_ALARM_MINRES
          ∨ flavor = k.CLOCK_ALARM_MAXRES) →
        sysclk_getattr k s flavor attr count = (kern_return_t.KERN_SUCCESS, 0, s))
    ∧ (count = 1 → flavor ≠ k.CLOCK_GET_TIME_RES → flavor ≠ k.CLOCK_ALARM_CURRES →
        flavor ≠ k.CLOCK_ALARM_MINRES → flavor ≠ k.CLOCK_ALARM_MAXRES →
        sysclk_getattr k s flavor attr count = (kern_return_t.KERN_INVALID_VALUE, attr, s))
    ∧ (sysclk_getattr k s flavor attr count).2.2 = s
    ∧ calend_getattr k s flavor attr count = sysclk_getattr k s flavor attr count := by
  obtain ⟨k1, k2, k3⟩ := hk
  refine ⟨?_, ?_, ?_, ?_, ?_, ?_⟩
  · intro hc
    unfold sysclk_getattr
    rw [if_pos hc]
  · intro hc hf
    unfold sysclk_getattr
    rw [if_neg (not_not_intro hc), if_pos hf]
  · intro hc hf
    have hne : flavor ≠ k.CLOCK_GET_TIME_RES := by
      rcases hf with h | h | h
      · rw [h]
        exact fun e => k1 e.symm
      · rw [h]
        exact fun e => k2 e.symm
      · rw [h]
        exact fun e => k3 e.symm
    have hor : flavor = k.CLOCK_ALARM_CURRES ∨ flavor = k.CLOCK_ALARM_MAXRES
        ∨ flavor = k.CLOCK_ALARM_MINRES := by
      rcases hf with h | h | h
      · exact Or.inl h
      · exact Or.inr (Or.inr h)
      · exact Or.inr (Or.inl h)
    unfold sysclk_getattr
    rw [if_neg (not_not_intro hc), if_neg hne, if_pos hor]
  · intro hc h1 h2 h3 h4
    have hor : ¬ (flavor = k.CLOCK_ALARM_CURRES ∨ flavor = k.CLOCK_ALARM_MAXRES
        ∨ flavor = k.CLOCK_ALARM_MINRES) := by
      rintro (h | h | h)
      · exact h2 h
      · exact h4 h
      · exact h3 h
    unfold sysclk_getattr
    rw [if_neg (not_not_intro hc), if_neg h1, if_neg hor]
  · unfold sysclk_getattr
    split_ifs <;> rfl
  · unfold sysclk_getattr calend_getattr
    by_cases hc : count ≠ 1
    · rw [if_pos hc, if_pos hc]
    · rw [if_neg hc, if_neg hc]
      by_cases hf : flavor = k.CLOCK_GET_TIME_RES
      · rw [if_pos hf, if_pos hf]
      · rw [if_neg hf, if_neg hf]
        by_cases h1 : flavor = k.CLOCK_ALARM_CURRES ∨ flavor = k.CLOCK_ALARM_MINRES
            ∨ flavor = k.CLOCK_ALARM_MAXRES
        · have h2 : flavor = k.CLOCK_ALARM_CURRES ∨ flavor = k.CLOCK_ALARM_MAXRES
              ∨ flavor = k.CLOCK_ALARM_MINRES := by
            rcases h1 with h | h | h
            · exact Or.inl h
            · exact Or.inr (Or.inr h)
            · exact Or.inr (Or.inl h)
          rw [if_pos h1, if_pos h2]
        · have h2 : ¬ (flavor = k.CLOCK_ALARM_CURRES ∨ flavor = k.CLOCK_ALARM_MAXRES
              ∨ flavor = k.CLOCK_ALARM_MINRES) := by
            rintro (h | h | h)
            · exact h1 (Or.inl h)
            · exact h1 (Or.inr (Or.inr h))
            · exact h1 (Or.inr (Or.inl h))
          rw [if_neg h1, if_neg h2]

/-- C20 with the flavors numbered 1, 3, 4, 5, asking the boot state for flavor 4 with a
count of 2. -/
theorem C20_malformed_attribute_queries_witness :
    ((1 : Nat) ≠ 3 ∧ (1 : Nat) ≠ 4 ∧ (1 : Nat) ≠ 5)
    ∧ ((2 ≠ 1 → sysclk_getattr ⟨1, 3, 4, 5⟩ boot_state 4 77 2
          = (kern_return_t.KERN_FAILURE, 77, boot_state))
      ∧ (2 = 1 → 4 = (⟨1, 3, 4, 5⟩ : clock_flavor_consts).CLOCK_GET_TIME_RES →
          sysclk_getattr ⟨1, 3, 4, 5⟩ boot_state 4 77 2
            = (kern_return_t.KERN_SUCCESS, boot_state.rtc_intr_nsec, boot_state))
      ∧ (2 = 1 → (4 = (⟨1, 3, 4, 5⟩ : clock_flavor_consts).CLOCK_ALARM_CURRES
            ∨ 4 = (⟨1, 3, 4, 5⟩ : clock_flavor_consts).CLOCK_ALARM_MINRES
            ∨ 4 = (⟨1, 3, 4, 5⟩ : clock_flavor_consts).CLOCK_ALARM_MAXRES) →
          sysclk_getattr ⟨1, 3, 4, 5⟩ boot_state 4 77 2
            = (kern_return_t.KERN_SUCCESS, 0, boot_state))
      ∧ (2 = 1 → 4 ≠ (⟨1, 3, 4, 5⟩ : clock_flavor_consts).CLOCK_GET_TIME_RES →
          4 ≠ (⟨1, 3, 4, 5⟩ : clock_flavor_consts).CLOCK_ALARM_CURRES →
          4 ≠ (⟨1, 3, 4, 5⟩ : clock_flavor_consts).CLOCK_ALARM_MINRES →
          4 ≠ (⟨1, 3, 4, 5⟩ : clock_flavor_consts).CLOCK_ALARM_MAXRES →
          sysclk_getattr ⟨1, 3, 4, 5⟩ boot_state 4 77 2
            = (kern_return_t.KERN_INVALID_VALUE, 77, boot_state))
      ∧ (sysclk_getattr ⟨1, 3, 4, 5⟩ boot_state 4 77 2).2.2 = boot_state
      ∧ calend_getattr ⟨1, 3, 4, 5⟩ boot_state 4 77 2
        = sysclk_getattr ⟨1, 3, 4, 5⟩ boot_state 4 77 2) :=
  ⟨by decide, C20_malformed_attribute_queries ⟨1, 3, 4, 5⟩ boot_state 4 77 2 (by decide)⟩

/-! ## Intervals and deadlines -/

/-- C21: for 32-bit `interval` and `scale_factor`,
`clock_interval_to_absolutetime_interval` gives exactly `interval * scale_factor`, which
fits 64 bits.  When the clock read returns `now`, `clock_interval_to_deadline` returns a
deadline whose 64-bit difference to `now` is that product, and
`clock_absolutetime_interval_to_deadline` returns one whose 64-bit difference to `now` is
the given 64-bit `abstime`. -/
theorem C21_interval_round_trip :
    (∀ interval scale_factor : Nat, interval < 2 ^ 32 → scale_factor < 2 ^ 32 →
      clock_interval_to_absolutetime_interval interval scale_factor = interval * scale_factor
      ∧ interval * scale_factor < 2 ^ 64)
    ∧ (∀ (s : rtclock_state) (interval scale_factor tsc now : Nat),
      interval < 2 ^ 32 → scale_factor < 2 ^ 32 →
      clock_get_uptime s tsc = some now →
      ∃ d, clock_interval_to_deadline s interval scale_factor tsc = some d
        ∧ d < 2 ^ 64 ∧ sub64 d now = interval * scale_factor)
    ∧ (∀ (s : rtclock_state) (abstime tsc now : Nat),
      abstime < 2 ^ 64 →
      clock_get_uptime s tsc = some now →
      ∃ d, clock_absolutetime_interval_to_deadline s abstime tsc = some d
        ∧ d < 2 ^ 64 ∧ sub64 d now = abstime) := by
  have hprod : ∀ interval scale_factor : Nat, interval < 2 ^ 32 → scale_factor < 2 ^ 32 →
      clock_interval_to_absolutetime_interval interval scale_factor = interval * scale_factor
      ∧ interval * scale_factor < 2 ^ 64 := by
    intro i f hi hf
    have hb := mul_word_bound hi hf
    have hlt : i * f < 2 ^ 64 := by omega
    unfold clock_interval_to_absolutetime_interval
    rw [u32_of_lt hi, u32_of_lt hf, u64_of_lt hlt]
    exact ⟨rfl, hlt⟩
  refine ⟨hprod, ?_, ?_⟩
  · intro s i f tsc now hi hf hnow
    obtain ⟨hp, hlt⟩ := hprod i f hi hf
    have hn : now < 2 ^ 64 := _rtc_nanotime_read_lt s tsc now hnow
    unfold clock_interval_to_deadline
    rw [hnow, hp]
    simp only [Option.map_some']
    refine ⟨_, rfl, u64_lt _, ?_⟩
    generalize i * f = p at *
    unfold sub64 u64
    omega
  · intro s a tsc now ha hnow
    have hn : now < 2 ^ 64 := _rtc_nanotime_read_lt s tsc now hnow
    unfold clock_absolutetime_interval_to_deadline
    rw [hnow]
    simp only [Option.map_some']
    refine ⟨_, rfl, u64_lt _, ?_⟩
    unfold sub64 u64
    omega

/-- C21 on the 2 GHz example at 2 s of uptime: 3,000 units of 1,000,000 ns. -/
theorem C21_interval_round_trip_witness :
    ((3000 : Nat) < 2 ^ 32 ∧ (1000000 : Nat) < 2 ^ 32
      ∧ clock_get_uptime example_fast_state 4000000000 = some 2000000000)
    ∧ (clock_interval_to_absolutetime_interval 3000 1000000 = 3000 * 1000000
      ∧ 3000 * 1000000 < 2 ^ 64)
    ∧ (∃ d, clock_interval_to_deadline example_fast_state 3000 1000000 4000000000 = some d
        ∧ d < 2 ^ 64 ∧ sub64 d 2000000000 = 3000 * 1000000)
    ∧ (∃ d, clock_absolutetime_interval_to_deadline example_fast_state 18446744073709551615
          4000000000 = some d
        ∧ d < 2 ^ 64 ∧ sub64 d 2000000000 = 18446744073709551615) :=
  ⟨by decide,
    C21_interval_round_trip.1 3000 1000000 (by decide) (by decide),
    C21_interval_round_trip.2.1 example_fast_state 3000 1000000 4000000000 2000000000
      (by decide) (by decide) (by decide),
    C21_interval_round_trip.2.2 example_fast_state 18446744073709551615 4000000000 2000000000
      (by decide) (by decide)⟩

/-! ## The conversion routines are exact -/

/-- C23: for every 64-bit `value` and 32-bit `scale`, `fast_get_nano_from_abs(value, scale)`
is `floor(value * scale / 2^32)`, the 96-bit product shifted right by 32, and fits 64 bits. -/
theorem C23_fast_conversion_exact (value scale : Nat) (hv : value < 2 ^ 64)
    (hs : scale < 2 ^ 32) :
    fast_get_nano_from_abs value scale = value * scale / 2 ^ 32
    ∧ value * scale / 2 ^ 32 < 2 ^ 64 := by
  constructor
  · rw [fast_get_nano_from_abs_val value scale hv, u32_of_lt hs]
  · apply Nat.div_lt_of_lt_mul
    calc value * scale < 2 ^ 64 * 2 ^ 32 :=
          Nat.mul_lt_mul_of_lt_of_le hv (le_of_lt hs) (by norm_num)
      _ = 2 ^ 32 * 2 ^ 64 := by norm_num

/-- C23 at the largest operands: `(2^64 - 1) * (2^32 - 1)` shifted right by 32. -/
theorem C23_fast_conversion_exact_witness :
    fast_get_nano_from_abs 18446744073709551615 4294967295
      = 18446744073709551615 * 4294967295 / 2 ^ 32
    ∧ 18446744073709551615 * 4294967295 / 2 ^ 32 < 2 ^ 64 :=
  C23_fast_conversion_exact 18446744073709551615 4294967295 (by decide) (by decide)

theorem top_word_lt_iff (lo r2 d : Nat) (hlo : lo < 2 ^ 64) (hd : 0 < d) :
    (lo + r2 * 2 ^ 64) / d < 2 ^ 64 ↔ r2 < d := by
  rw [Nat.div_lt_iff_lt_mul hd]
  constructor
  · intro h
    by_contra hc
    have h1 : d * 2 ^ 64 ≤ r2 * 2 ^ 64 := Nat.mul_le_mul_right _ (by omega)
    omega
  · intro h
    have h1 : (r2 + 1) * 2 ^ 64 ≤ d * 2 ^ 64 := Nat.mul_le_mul_right _ (by omega)
    have h2 : (r2 + 1) * 2 ^ 64 = r2 * 2 ^ 64 + 2 ^ 64 := by ring
    omega

/-- C24: for every 64-bit `abstime`, 32-bit `numer` and non-zero 32-bit `denom`, the
three 32-bit words `longmul` writes are the exact product `abstime * numer`, least
significant first; the quotient `floor(abstime * numer / denom)` fits 64 bits exactly
when the top word is below `denom`; `longdiv` returns that quotient when it fits and
raises a divide error otherwise; and with these constants in `timebase_const`, `denom`
not being `RTC_FAST_DENOM`, `tsc_to_nanoseconds(abstime)` is the same. -/
theorem C24_precise_conversion_exact (abstime numer denom : Nat) (ha : abstime < 2 ^ 64)
    (hn : numer < 2 ^ 32) (hd0 : denom ≠ 0) (hd : denom < 2 ^ 32) :
    ((longmul abstime numer).1 + (longmul abstime numer).2.1 * 2 ^ 32
        + (longmul abstime numer).2.2 * 2 ^ 64 = abstime * numer
      ∧ (longmul abstime numer).1 < 2 ^ 32 ∧ (longmul abstime numer).2.1 < 2 ^ 32
      ∧ (longmul abstime numer).2.2 < 2 ^ 32)
    ∧ (abstime * numer / denom < 2 ^ 64 ↔ (longmul abstime numer).2.2 < denom)
    ∧ (abstime * numer / denom < 2 ^ 64 →
        longdiv (longmul abstime numer) denom = some (abstime * numer / denom))
    ∧ (¬ abstime * numer / denom < 2 ^ 64 → longdiv (longmul abstime numer) denom = none)
    ∧ (∀ s : rtclock_state, s.rtclock.timebase_const.numer = numer →
        s.rtclock.timebase_const.denom = denom → denom ≠ RTC_FAST_DENOM →
        abstime * numer / denom < 2 ^ 64 →
        tsc_to_nanoseconds s abstime = some (abstime * numer / denom)) := by
  obtain ⟨m1, m2, m3⟩ := longmul_val abstime numer ha
  rw [u32_of_lt hn] at m1
  have hdd : u32 denom = denom := u32_of_lt hd
  have hdiv := longdiv_longmul abstime numer denom ha
  rw [u32_of_lt hn, hdd, if_neg hd0] at hdiv
  refine ⟨⟨m1, m2, m3, ?_⟩, ?_, ?_, ?_, ?_⟩
  · show u32 _ < 2 ^ 32
    exact u32_lt _
  · rw [← m1]
    have hlo : (longmul abstime numer).1 + (longmul abstime numer).2.1 * 2 ^ 32 < 2 ^ 64 := by
      omega
    exact top_word_lt_iff _ _ _ hlo (Nat.pos_of_ne_zero hd0)
  · intro h
    rw [hdiv, if_pos h]
  · intro h
    rw [hdiv, if_neg h]
  · intro s h1 h2 h3 h4
    have hp := tsc_to_nanoseconds_precise s abstime ha (by rw [h2]; exact h3)
    rw [h1, h2, u32_of_lt hn, hdd, if_neg hd0, if_pos h4] at hp
    exact hp

/-- C24 on the 500 MHz example: `2^40` cycles times 50,000,000 over 25,000,000. -/
theorem C24_precise_conversion_exact_witness :
    ((longmul 1099511627776 50000000).1 + (longmul 1099511627776 50000000).2.1 * 2 ^ 32
        + (longmul 1099511627776 50000000).2.2 * 2 ^ 64 = 1099511627776 * 50000000
      ∧ (longmul 1099511627776 50000000).1 < 2 ^ 32
      ∧ (longmul 1099511627776 50000000).2.1 < 2 ^ 32
      ∧ (longmul 1099511627776 50000000).2.2 < 2 ^ 32)
    ∧ (1099511627776 * 50000000 / 25000000 < 2 ^ 64
        ↔ (longmul 1099511627776 50000000).2.2 < 25000000)
    ∧ (1099511627776 * 50000000 / 25000000 < 2 ^ 64 →
        longdiv (longmul 1099511627776 50000000) 25000000
          = some (1099511627776 * 50000000 / 25000000))
    ∧ (¬ 1099511627776 * 50000000 / 25000000 < 2 ^ 64 →
        longdiv (longmul 1099511627776 50000000) 25000000 = none)
    ∧ (∀ s : rtclock_state, s.rtclock.timebase_const.numer = 50000000 →
        s.rtclock.timebase_const.denom = 25000000 → 25000000 ≠ RTC_FAST_DENOM →
        1099511627776 * 50000000 / 25000000 < 2 ^ 64 →
        tsc_to_nanoseconds s 1099511627776 = some (1099511627776 * 50000000 / 25000000)) :=
  C24_precise_conversion_exact 1099511627776 50000000 25000000 (by decide) (by decide)
    (by decide) (by decide)

/-! ## Updating the nanotime record -/

theorem _rtc_nanotime_update_val (s : rtclock_state) (tsc ns : Nat)
    (h : tsc_to_nanoseconds s (sub64 tsc s.cpu.cpu_rtc_nanotime.rnt_step_tsc) = some ns) :
    _rtc_nanotime_update s tsc
      = some { s with cpu := { s.cpu with cpu_rtc_nanotime :=
          { s.cpu.cpu_rtc_nanotime with
            rnt_nanos := u64 (s.cpu.cpu_rtc_nanotime.rnt_step_nanos + ns)
            rnt_tsc := tsc } } } := by
  unfold _rtc_nanotime_update
  simp only [h, Option.bind_eq_bind, Option.some_bind]
  rfl

theorem _rtc_nanotime_update_none (s : rtclock_state) (tsc : Nat)
    (h : tsc_to_nanoseconds s (sub64 tsc s.cpu.cpu_rtc_nanotime.rnt_step_tsc) = none) :
    _rtc_nanotime_update s tsc = none := by
  unfold _rtc_nanotime_update
  simp only [h, Option.bind_eq_bind, Option.none_bind]

theorem nanotime_record_fields (s s1 : rtclock_state) (n t : Nat)
    (h : s1 = { s with cpu := { s.cpu with cpu_rtc_nanotime :=
      { s.cpu.cpu_rtc_nanotime with rnt_nanos := n, rnt_tsc := t } } }) :
    s1.cpu.cpu_rtc_nanotime.rnt_tsc = t
    ∧ s1.cpu.cpu_rtc_nanotime.rnt_nanos = n
    ∧ s1.cpu.cpu_rtc_nanotime.rnt_scale = s.cpu.cpu_rtc_nanotime.rnt_scale
    ∧ s1.cpu.cpu_rtc_nanotime.rnt_shift = s.cpu.cpu_rtc_nanotime.rnt_shift
    ∧ s1.cpu.cpu_rtc_nanotime.rnt_step_tsc = s.cpu.cpu_rtc_nanotime.rnt_step_tsc
    ∧ s1.cpu.cpu_rtc_nanotime.rnt_step_nanos = s.cpu.cpu_rtc_nanotime.rnt_step_nanos
    ∧ s1 = { s with cpu := { s.cpu with cpu_rtc_nanotime :=
        { s.cpu.cpu_rtc_nanotime with
          rnt_nanos := s1.cpu.cpu_rtc_nanotime.rnt_nanos
          rnt_tsc := s1.cpu.cpu_rtc_nanotime.rnt_tsc } } } := by
  subst h
  exact ⟨rfl, rfl, rfl, rfl, rfl, rfl, rfl⟩

theorem nanotime_record_overwrite (s : rtclock_state) (a b n t : Nat) :
    ({ ({ s with cpu := { s.cpu with cpu_rtc_nanotime :=
            { s.cpu.cpu_rtc_nanotime with rnt_tsc := a, rnt_nanos := b } } } : rtclock_state)
        with cpu :=
          { ({ s with cpu := { s.cpu with cpu_rtc_nanotime :=
              { s.cpu.cpu_rtc_nanotime with rnt_tsc := a, rnt_nanos := b } } }
              : rtclock_state).cpu with cpu_rtc_nanotime :=
            { ({ s with cpu := { s.cpu with cpu_rtc_nanotime :=
                { s.cpu.cpu_rtc_nanotime with rnt_tsc := a, rnt_nanos := b } } }
                : rtclock_state).cpu.cpu_rtc_nanotime with rnt_nanos := n, rnt_tsc := t } } }
      : rtclock_state)
    = { s with cpu := { s.cpu with cpu_rtc_nanotime :=
        { s.cpu.cpu_rtc_nanotime with rnt_nanos := n, rnt_tsc := t } } } := rfl

/-- C25: `_rtc_nanotime_update(rntp, tsc)` returns exactly when the conversion of
`tsc - rnt_step_tsc` does, and then sets `rnt_tsc = tsc` and
`rnt_nanos = rnt_step_nanos + tsc_to_nanoseconds(tsc - rnt_step_tsc)` modulo `2^64`,
leaves `rnt_scale`, `rnt_shift`, `rnt_step_tsc`, `rnt_step_nanos` and everything outside
the record as they were, and gives the same state whatever `rnt_tsc` and `rnt_nanos`
held before. -/
theorem C25_update_from_step_checkpoint (s : rtclock_state) (tsc : Nat) :
    (∀ ns, tsc_to_nanoseconds s (sub64 tsc s.cpu.cpu_rtc_nanotime.rnt_step_tsc) = some ns →
      ∃ s1, _rtc_nanotime_update s tsc = some s1
        ∧ s1.cpu.cpu_rtc_nanotime.rnt_tsc = tsc
        ∧ s1.cpu.cpu_rtc_nanotime.rnt_nanos
          = u64 (s.cpu.cpu_rtc_nanotime.rnt_step_nanos + ns)
        ∧ s1.cpu.cpu_rtc_nanotime.rnt_scale = s.cpu.cpu_rtc_nanotime.rnt_scale
        ∧ s1.cpu.cpu_rtc_nanotime.rnt_shift = s.cpu.cpu_rtc_nanotime.rnt_shift
        ∧ s1.cpu.cpu_rtc_nanotime.rnt_step_tsc = s.cpu.cpu_rtc_nanotime.rnt_step_tsc
        ∧ s1.cpu.cpu_rtc_nanotime.rnt_step_nanos = s.cpu.cpu_rtc_nanotime.rnt_step_nanos
        ∧ s1 = { s with cpu := { s.cpu with cpu_rtc_nanotime :=
            { s.cpu.cpu_rtc_nanotime with
              rnt_nanos := s1.cpu.cpu_rtc_nanotime.rnt_nanos
              rnt_tsc := s1.cpu.cpu_rtc_nanotime.rnt_tsc } } })
    ∧ (tsc_to_nanoseconds s (sub64 tsc s.cpu.cpu_rtc_nanotime.rnt_step_tsc) = none →
      _rtc_nanotime_update s tsc = none)
    ∧ (∀ a b : Nat,
      _rtc_nanotime_update
        { s with cpu := { s.cpu with cpu_rtc_nanotime :=
          { s.cpu.cpu_rtc_nanotime with rnt_tsc := a, rnt_nanos := b } } } tsc
      = _rtc_nanotime_update s tsc) := by
  refine ⟨?_, _rtc_nanotime_update_none s tsc, ?_⟩
  · intro ns h
    have hv := _rtc_nanotime_update_val s tsc ns h
    obtain ⟨c1, c2, c3, c4, c5, c6, c7⟩ := nanotime_record_fields s _ _ _ rfl
    exact ⟨_, hv, c1, c2, c3, c4, c5, c6, c7⟩
  · intro a b
    cases h : tsc_to_nanoseconds s (sub64 tsc s.cpu.cpu_rtc_nanotime.rnt_step_tsc) with
    | none =>
      rw [_rtc_nanotime_update_none s tsc h]
      exact _rtc_nanotime_update_none _ tsc h
    | some ns =>
      exact ((_rtc_nanotime_update_val
        { s with cpu := { s.cpu with cpu_rtc_nanotime :=
          { s.cpu.cpu_rtc_nanotime with rnt_tsc := a, rnt_nanos := b } } } tsc ns h).trans
        (congrArg some (nanotime_record_overwrite s a b _ tsc))).trans
        (_rtc_nanotime_update_val s tsc ns h).symm

/-- C25 on the 2 GHz example: an update at cycle 4,000,000,000 gives 2,000,000,000 ns,
also when the record held other values before. -/
theorem C25_update_from_step_checkpoint_witness :
    tsc_to_nanoseconds example_fast_state
        (sub64 4000000000 example_fast_state.cpu.cpu_rtc_nanotime.rnt_step_tsc)
      = some 2000000000
    ∧ (∃ s1, _rtc_nanotime_update example_fast_state 4000000000 = some s1
        ∧ s1.cpu.cpu_rtc_nanotime.rnt_tsc = 4000000000
        ∧ s1.cpu.cpu_rtc_nanotime.rnt_nanos
          = u64 (example_fast_state.cpu.cpu_rtc_nanotime.rnt_step_nanos + 2000000000)
        ∧ s1.cpu.cpu_rtc_nanotime.rnt_scale = example_fast_state.cpu.cpu_rtc_nanotime.rnt_scale
        ∧ s1.cpu.cpu_rtc_nanotime.rnt_shift = example_fast_state.cpu.cpu_rtc_nanotime.rnt_shift
        ∧ s1.cpu.cpu_rtc_nanotime.rnt_step_tsc
          = example_fast_state.cpu.cpu_rtc_nanotime.rnt_step_tsc
        ∧ s1.cpu.cpu_rtc_nanotime.rnt_step_nanos
          = example_fast_state.cpu.cpu_rtc_nanotime.rnt_step_nanos
        ∧ s1 = { example_fast_state with cpu := { example_fast_state.cpu with
            cpu_rtc_nanotime := { example_fast_state.cpu.cpu_rtc_nanotime with
              rnt_nanos := s1.cpu.cpu_rtc_nanotime.rnt_nanos
              rnt_tsc := s1.cpu.cpu_rtc_nanotime.rnt_tsc } } })
    ∧ _rtc_nanotime_update
        { example_fast_state with cpu := { example_fast_state.cpu with cpu_rtc_nanotime :=
          { example_fast_state.cpu.cpu_rtc_nanotime with rnt_tsc := 77, rnt_nanos := 99 } } }
        4000000000
      = _rtc_nanotime_update example_fast_state 4000000000 :=
  ⟨by decide,
    (C25_update_from_step_checkpoint example_fast_state 4000000000).1 2000000000 (by decide),
    (C25_update_from_step_checkpoint example_fast_state 4000000000).2.2 77 99⟩

/-! ## Nanoseconds as seconds and nanoseconds -/

/-- C29: for `nanos < 2^32 * 10^9`, `nanos_to_timespec` returns `tv_sec = nanos / 10^9`
and `tv_nsec = nanos % 10^9`, so `tv_sec * 10^9 + tv_nsec = nanos` with
`0 <= tv_nsec < 10^9` and `tv_sec` fitting 32 bits; for a larger 64-bit `nanos` the
`divl` raises a divide error.  When the clock read returns such a `now`, `sysclk_gettime`
returns `KERN_SUCCESS` with `now` split this way. -/
theorem C29_nanos_to_timespec :
    (∀ nanos : Nat, nanos < 2 ^ 32 * 1000000000 →
      ∃ ts, nanos_to_timespec nanos = some ts
        ∧ ts.tv_sec = nanos / 1000000000
        ∧ ts.tv_nsec = ((nanos % 1000000000 : Nat) : Int)
        ∧ (ts.tv_sec : Int) * 1000000000 + ts.tv_nsec = (nanos : Int)
        ∧ 0 ≤ ts.tv_nsec ∧ ts.tv_nsec < 1000000000 ∧ ts.tv_sec < 2 ^ 32)
    ∧ (∀ nanos : Nat, 2 ^ 32 * 1000000000 ≤ nanos → nanos < 2 ^ 64 →
      nanos_to_timespec nanos = none)
    ∧ (∀ (s : rtclock_state) (tsc now : Nat), rtc_nanotime_read s tsc = some now →
      now < 2 ^ 32 * 1000000000 →
      sysclk_gettime s tsc = some (kern_return_t.KERN_SUCCESS,
        { tv_sec := now / 1000000000, tv_nsec := ((now % 1000000000 : Nat) : Int) })) := by
  refine ⟨?_, ?_, ?_⟩
  · intro n h
    obtain ⟨⟨a1, a2, a3⟩, a4⟩ := timespec_of_nanos n h
    exact ⟨_, nanos_to_timespec_val n h, rfl, rfl, a4, a2, a3, a1⟩
  · intro n h1 h2
    have e : u32 (n / 2 ^ 32) * 2 ^ 32 + u32 n = n := by
      unfold u32
      omega
    have hq : ¬ n / 1000000000 < 2 ^ 32 := by omega
    have e1 : NSEC_PER_SEC = 1000000000 := rfl
    unfold nanos_to_timespec divl
    rw [e, e1, if_neg (by decide), if_neg hq]
    rfl
  · intro s tsc now hnow hlt
    exact sysclk_gettime_internal_val s tsc now hnow hlt

/-- C29 at 2.5 s of uptime on the 2 GHz example, and at the first value that traps. -/
theorem C29_nanos_to_timespec_witness :
    (rtc_nanotime_read example_fast_state 5000000000 = some 2500000000
      ∧ (2500000000 : Nat) < 2 ^ 32 * 1000000000)
    ∧ (∃ ts, nanos_to_timespec 2500000000 = some ts
        ∧ ts.tv_sec = 2500000000 / 1000000000
        ∧ ts.tv_nsec = ((2500000000 % 1000000000 : Nat) : Int)
        ∧ (ts.tv_sec : Int) * 1000000000 + ts.tv_nsec = ((2500000000 : Nat) : Int)
        ∧ 0 ≤ ts.tv_nsec ∧ ts.tv_nsec < 1000000000 ∧ ts.tv_sec < 2 ^ 32)
    ∧ nanos_to_timespec (2 ^ 32 * 1000000000) = none
    ∧ sysclk_gettime example_fast_state 5000000000 = some (kern_return_t.KERN_SUCCESS,
        { tv_sec := 2500000000 / 1000000000,
          tv_nsec := ((2500000000 % 1000000000 : Nat) : Int) }) :=
  ⟨by decide,
    C29_nanos_to_timespec.1 2500000000 (by decide),
    C29_nanos_to_timespec.2.1 (2 ^ 32 * 1000000000) (by decide) (by decide),
    C29_nanos_to_timespec.2.2 example_fast_state 5000000000 2500000000 (by decide) (by decide)⟩

/-! ## Rescaling on a speed step -/

theorem rtc_nanotime_scale_update_step (s s1 : rtclock_state) (tsc : Nat)
    (h : rtc_nanotime_scale_update s tsc = some s1) :
    ∃ ns, tsc_to_nanoseconds s (sub64 tsc s.cpu.cpu_rtc_nanotime.rnt_step_tsc) = some ns
      ∧ s1.cpu.cpu_rtc_nanotime.rnt_step_tsc = tsc
      ∧ s1.cpu.cpu_rtc_nanotime.rnt_step_nanos
        = u64 (s.cpu.cpu_rtc_nanotime.rnt_step_nanos + ns)
      ∧ s1.rtclock = s.rtclock := by
  simp only [rtc_nanotime_scale_update, _rtc_nanotime_update, Option.bind_eq_bind,
    Option.pure_def, Option.bind_eq_some, Option.some.injEq] at h
  obtain ⟨s2, ⟨ns, hns, rfl⟩, rfl⟩ := h
  exact ⟨ns, hns, by rw [rtc_nanotime_set_commpage_cpu], by rw [rtc_nanotime_set_commpage_cpu],
    by rw [rtc_nanotime_set_commpage_rtclock]⟩

theorem rtc_nanotime_scale_update_some (s : rtclock_state) (tsc ns : Nat)
    (h : tsc_to_nanoseconds s (sub64 tsc s.cpu.cpu_rtc_nanotime.rnt_step_tsc) = some ns) :
    ∃ s1, rtc_nanotime_scale_update s tsc = some s1 := by
  simp only [rtc_nanotime_scale_update, _rtc_nanotime_update, h, Option.bind_eq_bind,
    Option.pure_def, Option.some_bind]
  exact ⟨_, rfl⟩

theorem rtc_set_cyc_per_sec_cpu (s sc : rtclock_state) (c ret : Nat)
    (h : rtc_set_cyc_per_sec s c = some (sc, ret)) : sc.cpu = s.cpu := by
  unfold rtc_set_cyc_per_sec at h
  rw [Option.bind_eq_some] at h
  obtain ⟨s1, h1, h2⟩ := h
  have e2 := (Prod.mk.inj (Option.some.inj h2)).1
  have e1 : s1.cpu = s.cpu := by
    split_ifs at h1
    · rw [Option.bind_eq_some] at h1
      obtain ⟨q, -, hq⟩ := h1
      rw [← Option.some.inj hq]
    · rw [Option.bind_eq_some] at h1
      obtain ⟨q, -, hq⟩ := h1
      rw [← Option.some.inj hq]
  rw [← e2]
  exact e1

/-- C26: `rtc_clock_stepped` does not freeze time with the past scale.  After
`rtc_clock_stepping` froze the step at cycle 4,000,000,000 (2,000,000,000 ns) with the
2 GHz constants, `rtc_clock_stepped` to half speed at cycle 4,000,002,000 freezes
2,000,002,000 ns: the 2,000 cycles since the step are converted with the constants it
has just installed (1 ns per cycle), while the constants in effect before convert them to
1,000 ns.  On the way back to full speed the clock steps backwards: after
`rtc_clock_stepping` at cycle 6,000,002,000 the clock reads 4,000,004,000 ns at cycle
6,000,004,000, and `rtc_clock_stepped` at that cycle freezes 4,000,003,000 ns, which is
what the clock reads at the same cycle afterwards. -/
theorem C26_stepped_freezes_with_new_scale :
    (example_stepping_state.cpu.cpu_rtc_nanotime.rnt_step_tsc = 4000000000
      ∧ example_stepping_state.cpu.cpu_rtc_nanotime.rnt_step_nanos = 2000000000
      ∧ tsc_to_nanoseconds example_stepping_state
          (sub64 4000002000 example_stepping_state.cpu.cpu_rtc_nanotime.rnt_step_tsc)
        = some 1000
      ∧ rtc_nanotime_read example_stepping_state 4000002000 = some 2000001000
      ∧ rtc_clock_stepped example_stepping_state 1000 2000 4000002000
        = some example_stepped_state
      ∧ example_stepped_state.cpu.cpu_rtc_nanotime.rnt_step_tsc = 4000002000
      ∧ example_stepped_state.cpu.cpu_rtc_nanotime.rnt_step_nanos = 2000002000)
    ∧ (rtc_clock_stepping example_stepped_state 2000 1000 6000002000
        = some example_restepping_state
      ∧ example_restepping_state.cpu.cpu_rtc_nanotime.rnt_step_tsc = 6000002000
      ∧ example_restepping_state.cpu.cpu_rtc_nanotime.rnt_step_nanos = 4000002000
      ∧ tsc_to_nanoseconds example_restepping_state
          (sub64 6000004000 example_restepping_state.cpu.cpu_rtc_nanotime.rnt_step_tsc)
        = some 2000
      ∧ rtc_nanotime_read example_restepping_state 6000004000 = some 4000004000
      ∧ rtc_clock_stepped example_restepping_state 2000 1000 6000004000
        = some example_restepped_state
      ∧ example_restepped_state.cpu.cpu_rtc_nanotime.rnt_step_tsc = 6000004000
      ∧ example_restepped_state.cpu.cpu_rtc_nanotime.rnt_step_nanos = 4000003000
      ∧ rtc_nanotime_read example_restepped_state 6000004000 = some 4000003000) := by
  decide

theorem boot_frequency_cpu (s : rtclock_state) (f : Nat) :
    (if s.rtc_boot_frequency = 0 then { s with rtc_boot_frequency := f } else s).cpu
      = s.cpu := by
  split_ifs <;> rfl

/-- The constants each rescale converts with: every rescale freezes `rnt_step_tsc = tsc`
and `rnt_step_nanos = old rnt_step_nanos + conv(tsc - old rnt_step_tsc)` modulo `2^64`,
where `conv` is `tsc_to_nanoseconds` with the constants `rtclock.timebase_const` found
when `rtc_nanotime_scale_update` runs.  Reached from `rtc_clock_stepping` these are the
constants in effect before the call, the past scale.  Reached from `rtc_clock_stepped`
they are the constants its own `rtc_set_cyc_per_sec` call has already written for the
new frequency, not the past scale.  Each call returns when the calls it makes do. -/
theorem rescale_conversion_constants :
    (∀ (s : rtclock_state) (nf f tsc : Nat) (s1 : rtclock_state),
      rtc_clock_stepping s nf f tsc = some s1 →
      ∃ ns, tsc_to_nanoseconds s (sub64 tsc s.cpu.cpu_rtc_nanotime.rnt_step_tsc) = some ns
        ∧ s1.cpu.cpu_rtc_nanotime.rnt_step_tsc = tsc
        ∧ s1.cpu.cpu_rtc_nanotime.rnt_step_nanos
          = u64 (s.cpu.cpu_rtc_nanotime.rnt_step_nanos + ns)
        ∧ s1.rtclock.timebase_const = s.rtclock.timebase_const)
    ∧ (∀ (s sb : rtclock_state) (nf f tsc : Nat) (s1 : rtclock_state),
      sb = (if s.rtc_boot_frequency = 0 then { s with rtc_boot_frequency := u32 f } else s) →
      rtc_clock_stepped s nf f tsc = some s1 →
      ∃ sc ret ns,
        rtc_set_cyc_per_sec sb (u64 (sb.rtc_cycle_count * u32 nf) / sb.rtc_boot_frequency)
          = some (sc, ret)
        ∧ tsc_to_nanoseconds sc (sub64 tsc s.cpu.cpu_rtc_nanotime.rnt_step_tsc) = some ns
        ∧ s1.cpu.cpu_rtc_nanotime.rnt_step_tsc = tsc
        ∧ s1.cpu.cpu_rtc_nanotime.rnt_step_nanos
          = u64 (s.cpu.cpu_rtc_nanotime.rnt_step_nanos + ns)
        ∧ s1.rtclock.timebase_const = sc.rtclock.timebase_const)
    ∧ (∀ (s : rtclock_state) (nf f tsc ns : Nat),
      tsc_to_nanoseconds s (sub64 tsc s.cpu.cpu_rtc_nanotime.rnt_step_tsc) = some ns →
      ∃ s1, rtc_clock_stepping s nf f tsc = some s1)
    ∧ (∀ (s sb sc : rtclock_state) (nf f tsc ret ns : Nat),
      sb = (if s.rtc_boot_frequency = 0 then { s with rtc_boot_frequency := u32 f } else s) →
      sb.rtc_boot_frequency ≠ 0 →
      rtc_set_cyc_per_sec sb (u64 (sb.rtc_cycle_count * u32 nf) / sb.rtc_boot_frequency)
        = some (sc, ret) →
      tsc_to_nanoseconds sc (sub64 tsc s.cpu.cpu_rtc_nanotime.rnt_step_tsc) = some ns →
      ∃ s1, rtc_clock_stepped s nf f tsc = some s1) := by
  refine ⟨?_, ?_, ?_, ?_⟩
  · intro s nf f tsc s1 h
    obtain ⟨ns, h1, h2, h3, h4⟩ := rtc_nanotime_scale_update_step s s1 tsc h
    exact ⟨ns, h1, h2, h3, by rw [h4]⟩
  · intro s sb nf f tsc s1 hsb h
    have hcpu : sb.cpu = s.cpu := by
      rw [hsb]
      exact boot_frequency_cpu s _
    unfold rtc_clock_stepped at h
    simp only [] at h
    rw [← hsb] at h
    by_cases hb : sb.rtc_boot_frequency = 0
    · rw [if_pos hb] at h
      exact absurd h (by simp)
    · rw [if_neg hb, Option.bind_eq_some] at h
      obtain ⟨r, hr, hup⟩ := h
      obtain ⟨ns, h1, h2, h3, h4⟩ := rtc_nanotime_scale_update_step r.1 s1 tsc hup
      have hc := rtc_set_cyc_per_sec_cpu sb r.1 _ r.2 hr
      rw [hc, hcpu] at h1 h3
      exact ⟨r.1, r.2, ns, hr, h1, h2, h3, by rw [h4]⟩
  · intro s nf f tsc ns h
    exact rtc_nanotime_scale_update_some s tsc ns h
  · intro s sb sc nf f tsc ret ns hsb hb hsc hns
    have hcpu : sb.cpu = s.cpu := by
      rw [hsb]
      exact boot_frequency_cpu s _
    have hc := rtc_set_cyc_per_sec_cpu sb sc _ ret hsc
    rw [← hcpu, ← hc] at hns
    obtain ⟨s1, hs1⟩ := rtc_nanotime_scale_update_some sc tsc ns hns
    refine ⟨s1, ?_⟩
    unfold rtc_clock_stepped
    simp only []
    rw [← hsb, if_neg hb, hsc, Option.some_bind]
    exact hs1

/-- The constants of the two rescales of the example: `rtc_clock_stepping` at cycle
4,000,000,000 of the 2 GHz processor, then `rtc_clock_stepped` to half speed 2,000 cycles
later. -/
theorem rescale_conversion_constants_example :
    (rtc_clock_stepping example_step_state 1000 2000 4000000000 = some example_stepping_state
      ∧ rtc_clock_stepped example_stepping_state 1000 2000 4000002000
        = some example_stepped_state)
    ∧ (∃ ns, tsc_to_nanoseconds example_step_state
          (sub64 4000000000 example_step_state.cpu.cpu_rtc_nanotime.rnt_step_tsc) = some ns
        ∧ example_stepping_state.cpu.cpu_rtc_nanotime.rnt_step_tsc = 4000000000
        ∧ example_stepping_state.cpu.cpu_rtc_nanotime.rnt_step_nanos
          = u64 (example_step_state.cpu.cpu_rtc_nanotime.rnt_step_nanos + ns)
        ∧ example_stepping_state.rtclock.timebase_const
          = example_step_state.rtclock.timebase_const)
    ∧ (∃ sc ret ns,
        rtc_set_cyc_per_sec { example_stepping_state with rtc_boot_frequency := u32 2000 }
            (u64 (({ example_stepping_state with rtc_boot_frequency := u32 2000 }
                : rtclock_state).rtc_cycle_count * u32 1000)
              / ({ example_stepping_state with rtc_boot_frequency := u32 2000 }
                : rtclock_state).rtc_boot_frequency)
          = some (sc, ret)
        ∧ tsc_to_nanoseconds sc
            (sub64 4000002000 example_stepping_state.cpu.cpu_rtc_nanotime.rnt_step_tsc)
          = some ns
        ∧ example_stepped_state.cpu.cpu_rtc_nanotime.rnt_step_tsc = 4000002000
        ∧ example_stepped_state.cpu.cpu_rtc_nanotime.rnt_step_nanos
          = u64 (example_stepping_state.cpu.cpu_rtc_nanotime.rnt_step_nanos + ns)
        ∧ example_stepped_state.rtclock.timebase_const = sc.rtclock.timebase_const) :=
  ⟨by decide,
    rescale_conversion_constants.1 example_step_state 1000 2000 4000000000
      example_stepping_state
      (by decide),
    rescale_conversion_constants.2.1 example_stepping_state
      { example_stepping_state with rtc_boot_frequency := u32 2000 } 1000 2000 4000002000
      example_stepped_state (by decide) (by decide)⟩

/-! ## The installed constants are usable -/

theorem rtc_set_cyc_per_sec_constants (s0 : rtclock_state) (c : Nat) (hc0 : 0 < c)
    (hc : c < 2 ^ 32) :
    ∃ s ret, rtc_set_cyc_per_sec s0 c = some (s, ret)
      ∧ (c > 50000000 →
          s.rtc_quant_scale = (50000000 * 2 ^ 32) / c
          ∧ s.rtclock.timebase_const.numer = s.rtc_quant_scale
          ∧ s.rtclock.timebase_const.denom = 0xFFFFFFFF)
      ∧ (¬ c > 50000000 →
          s.rtc_quant_scale = u32 ((50000000 * 2 ^ 26) / c)
          ∧ s.rtclock.timebase_const.numer = 50000000
          ∧ s.rtclock.timebase_const.denom = c) := by
  have hu : u32 c = c := u32_of_lt hc
  have hne : u32 c ≠ 0 := by omega
  by_cases hfast : c > 50000000
  · have hq : 50000000 * 2 ^ 32 / c < 2 ^ 32 := by
      rw [Nat.div_lt_iff_lt_mul hc0]
      nlinarith
    have hscale : u32 (u64 ((NSEC_PER_SEC / 20) * 2 ^ 32) / c) = 50000000 * 2 ^ 32 / c := by
      have : u64 ((NSEC_PER_SEC / 20) * 2 ^ 32) = 50000000 * 2 ^ 32 := by decide
      rw [this, u32_of_lt hq]
    have hif : c > NSEC_PER_SEC / 20 := hfast
    simp only [rtc_set_cyc_per_sec, if_pos hif, hu, create_mul_quant_GHZ_of_pos _ _ (hu ▸ hne),
      hscale]
    refine ⟨_, _, rfl, fun _ => ⟨rfl, rfl, rfl⟩, fun h => absurd hfast h⟩
  · have hif : ¬ c > NSEC_PER_SEC / 20 := hfast
    have hn : u32 (NSEC_PER_SEC / 20) = 50000000 := by decide
    have hscale : u32 (u64 ((NSEC_PER_SEC / 20) * 2 ^ 26) / c)
        = u32 (50000000 * 2 ^ 26 / c) := by
      have : u64 ((NSEC_PER_SEC / 20) * 2 ^ 26) = 50000000 * 2 ^ 26 := by decide
      rw [this]
    simp only [rtc_set_cyc_per_sec, if_neg hif, hu, create_mul_quant_GHZ_of_pos _ _ (hu ▸ hne),
      hn, hscale]
    refine ⟨_, _, rfl, fun h => absurd h hfast, fun _ => ⟨rfl, rfl, rfl⟩⟩

theorem quant_scale_pos (c : Nat) (hlo : 781250 < c) (hc : c < 2 ^ 32) :
    (c > 50000000 → (50000000 * 2 ^ 32) / c ≠ 0)
    ∧ (¬ c > 50000000 → u32 ((50000000 * 2 ^ 26) / c) ≠ 0) := by
  have hc0 : 0 < c := by omega
  constructor
  · intro _
    have h : 1 ≤ 50000000 * 2 ^ 32 / c := by
      rw [Nat.le_div_iff_mul_le hc0]
      omega
    omega
  · intro hslow
    have h1 : 1 ≤ 50000000 * 2 ^ 26 / c := by
      rw [Nat.le_div_iff_mul_le hc0]
      omega
    have h2 : 50000000 * 2 ^ 26 / c < 2 ^ 32 := by
      rw [Nat.div_lt_iff_lt_mul hc0]
      omega
    rw [u32_of_lt h2]
    omega

theorem rtc_nanotime_scale_update_scale (s s1 : rtclock_state) (tsc : Nat)
    (h : rtc_nanotime_scale_update s tsc = some s1) :
    s1.cpu.cpu_rtc_nanotime.rnt_scale = s.rtc_quant_scale := by
  simp only [rtc_nanotime_scale_update, _rtc_nanotime_update, Option.bind_eq_bind,
    Option.pure_def, Option.bind_eq_some, Option.some.injEq] at h
  obtain ⟨s2, ⟨ns, _, rfl⟩, rfl⟩ := h
  rw [rtc_nanotime_set_commpage_cpu]

theorem rtc_nanotime_init_scale (s s1 : rtclock_state) (tsc : Nat) (m : rtc_nanotime_t)
    (hm : s.is_master = true) (h : rtc_nanotime_init s tsc m = some s1) :
    s1.cpu.cpu_rtc_nanotime.rnt_scale = s.rtc_quant_scale := by
  unfold rtc_nanotime_init at h
  simp only [hm, if_true, Option.bind_eq_bind, Option.pure_def, Option.bind_eq_some,
    Option.some.injEq] at h
  obtain ⟨_, _, rfl⟩ := h
  rfl

/-- C27 as worded fails: a measured count of 781,250 cycles (15.625 MHz) makes
`rtc_set_cyc_per_sec` install `rtc_quant_scale = 0`, because the quotient
`(50,000,000 << 26) / 781,250 = 2^32` is truncated to 32 bits; after `rtc_nanotime_init`
a later `_rtc_nanotime_read` takes the `scale == 0` early return and reads 0, while the
record's own conversion of the same cycles is 320,000,000 ns. -/
theorem C27_counterexample :
    (0 < 781250 ∧ 781250 < 2 ^ 32)
    ∧ (rtc_set_cyc_per_sec boot_state 781250).map
        (fun r => (r.1.rtc_quant_scale, r.1.rtclock.timebase_const.numer,
          r.1.rtclock.timebase_const.denom))
      = some (0, 50000000, 781250)
    ∧ ((rtc_set_cyc_per_sec boot_state 781250).bind
        (fun r => rtc_nanotime_init r.1 1000 r.1.cpu.cpu_rtc_nanotime)).map
        (fun s => (s.cpu.cpu_rtc_nanotime.rnt_scale, _rtc_nanotime_read s 5000000,
          tsc_to_nanoseconds s 5000000))
      = some (0, some 0, some 320000000) := by
  decide

/-- C27, amended: for every measured count `c` with `0 < c < 2^32`,
`rtc_set_cyc_per_sec(c)` returns (the division in `create_mul_quant_GHZ` is by `c`, not
zero), installs a non-zero `numer` and `denom`, with `denom = 0xFFFFFFFF` on the fast path
(`c > 50,000,000`) and `denom = c`, different from `0xFFFFFFFF`, otherwise; and if
`c > 781,250`, so that the quotient fits 32 bits, `rtc_quant_scale` is non-zero and so is
the `rnt_scale` that `rtc_nanotime_init` (on the master) or `rtc_nanotime_scale_update`
stores from it, the value `_rtc_nanotime_read` tests for its early return. -/
theorem C27_constants_non_zero (s0 : rtclock_state) (c : Nat) (hc0 : 0 < c)
    (hc : c < 2 ^ 32) :
    ∃ s ret, rtc_set_cyc_per_sec s0 c = some (s, ret)
      ∧ s.rtclock.timebase_const.numer ≠ 0
      ∧ s.rtclock.timebase_const.denom ≠ 0
      ∧ (c > 50000000 → s.rtclock.timebase_const.denom = 0xFFFFFFFF)
      ∧ (¬ c > 50000000 → s.rtclock.timebase_const.denom = c
          ∧ s.rtclock.timebase_const.denom ≠ 0xFFFFFFFF)
      ∧ (781250 < c →
          s.rtc_quant_scale ≠ 0
          ∧ (∀ tsc s1, rtc_nanotime_scale_update s tsc = some s1 →
              s1.cpu.cpu_rtc_nanotime.rnt_scale ≠ 0)
          ∧ (∀ tsc m s1, s.is_master = true → rtc_nanotime_init s tsc m = some s1 →
              s1.cpu.cpu_rtc_nanotime.rnt_scale ≠ 0)) := by
  obtain ⟨s, ret, hset, hf, hp⟩ := rtc_set_cyc_per_sec_constants s0 c hc0 hc
  have hq : 1 ≤ 50000000 * 2 ^ 32 / c := by
    rw [Nat.le_div_iff_mul_le hc0]
    omega
  refine ⟨s, ret, hset, ?_, ?_, ?_, ?_, ?_⟩
  · by_cases hfast : c > 50000000
    · obtain ⟨h1, h2, -⟩ := hf hfast
      rw [h2, h1]
      omega
    · obtain ⟨-, h2, -⟩ := hp hfast
      rw [h2]
      decide
  · by_cases hfast : c > 50000000
    · obtain ⟨-, -, h3⟩ := hf hfast
      rw [h3]
      decide
    · obtain ⟨-, -, h3⟩ := hp hfast
      rw [h3]
      omega
  · intro hfast
    exact (hf hfast).2.2
  · intro hfast
    obtain ⟨-, -, h3⟩ := hp hfast
    rw [h3]
    exact ⟨rfl, by omega⟩
  · intro hlo
    obtain ⟨q1, q2⟩ := quant_scale_pos c hlo hc
    have hs : s.rtc_quant_scale ≠ 0 := by
      by_cases hfast : c > 50000000
      · rw [(hf hfast).1]
        exact q1 hfast
      · rw [(hp hfast).1]
        exact q2 hfast
    refine ⟨hs, ?_, ?_⟩
    · intro tsc s1 h
      rw [rtc_nanotime_scale_update_scale s s1 tsc h]
      exact hs
    · intro tsc m s1 hm h
      rw [rtc_nanotime_init_scale s s1 tsc m hm h]
      exact hs

/-- C27 (amended) at 2 GHz from the boot state. -/
theorem C27_constants_non_zero_witness :
    (0 < 100000000 ∧ 100000000 < 2 ^ 32)
    ∧ ∃ s ret, rtc_set_cyc_per_sec boot_state 100000000 = some (s, ret)
      ∧ s.rtclock.timebase_const.numer ≠ 0
      ∧ s.rtclock.timebase_const.denom ≠ 0
      ∧ (100000000 > 50000000 → s.rtclock.timebase_const.denom = 0xFFFFFFFF)
      ∧ (¬ 100000000 > 50000000 → s.rtclock.timebase_const.denom = 100000000
          ∧ s.rtclock.timebase_const.denom ≠ 0xFFFFFFFF)
      ∧ (781250 < 100000000 →
          s.rtc_quant_scale ≠ 0
          ∧ (∀ tsc s1, rtc_nanotime_scale_update s tsc = some s1 →
              s1.cpu.cpu_rtc_nanotime.rnt_scale ≠ 0)
          ∧ (∀ tsc m s1, s.is_master = true → rtc_nanotime_init s tsc m = some s1 →
              s1.cpu.cpu_rtc_nanotime.rnt_scale ≠ 0)) :=
  ⟨by decide, C27_constants_non_zero boot_state 100000000 (by decide) (by decide)⟩

/-! ## The latency is only traced -/

set_option maxHeartbeats 400000 in
theorem rtclock_intr_stages (env : rtclock_env) (s : rtclock_state)
    (regs : i386_interrupt_state) (t0 t1 t2 t3 : Nat) :
    rtclock_intr env s regs t0 t1 t2 t3
      = (_rtc_nanotime_read s t0).bind fun a0 =>
        (rtclock_intr_tick env s regs a0 t1).bind fun r1 =>
        (_rtc_nanotime_read r1.1 t2).bind fun a2 =>
        (rtclock_intr_timer env r1.1 a2).bind fun r2 =>
        (_rtc_nanotime_read r2.1 t3).bind fun a3 =>
        (rtclock_intr_reprogram r2.1 a3).bind fun r3 =>
        some (r3.1, r1.2 ++ r2.2 ++
          (rtc_event.kernel_debug 0
            (u32 (2 ^ 32 - u32 (sub64 (u32 a0) s.cpu.cpu_rtc_intr_deadline)))
            (u32 regs.eip) :: r3.2)) := by
  unfold rtclock_intr rtclock_intr_tick rtclock_intr_timer rtclock_intr_reprogram
  cases _rtc_nanotime_read s t0 with
  | none => rfl
  | some a0 =>
    simp only [Option.some_bind]
    congr 1
    funext r1
    cases _rtc_nanotime_read r1.1 t2 with
    | none => rfl
    | some a2 =>
      simp only [Option.some_bind]
      congr 1
      funext r2
      cases _rtc_nanotime_read r2.1 t3 with
      | none => rfl
      | some a3 =>
        simp only [Option.some_bind]
        cases rtc_lapic_set_timer _ _ with
        | none => rfl
        | some ev => rfl

theorem _rtc_nanotime_read_set_intr (s : rtclock_state) (v t : Nat) :
    _rtc_nanotime_read (set_intr_deadline s v) t = _rtc_nanotime_read s t :=
  _rtc_nanotime_read_congr _ _ t rfl rfl

theorem set_intr_deadline_twice (s : rtclock_state) (v w : Nat) :
    set_intr_deadline (set_intr_deadline s v) w = set_intr_deadline s w := rfl

theorem rtc_nanotime_set_commpage_set_intr (s : rtclock_state) (r : rtc_nanotime_t) (v : Nat) :
    rtc_nanotime_set_commpage (set_intr_deadline s v) r
      = set_intr_deadline (rtc_nanotime_set_commpage s r) v := by
  unfold rtc_nanotime_set_commpage
  by_cases hm : s.is_master = true
  · have hm2 : (set_intr_deadline s v).is_master = true := hm
    rw [if_neg (not_not_intro hm), if_neg (not_not_intro hm2)]
    rfl
  · have hm2 : ¬ (set_intr_deadline s v).is_master = true := hm
    rw [if_pos hm, if_pos hm2]

theorem rtc_nanotime_update_set_intr (s : rtclock_state) (v t : Nat) :
    rtc_nanotime_update (set_intr_deadline s v) t
      = (rtc_nanotime_update s t).map fun su => set_intr_deadline su v := by
  unfold rtc_nanotime_update
  cases h : tsc_to_nanoseconds s (sub64 t s.cpu.cpu_rtc_nanotime.rnt_step_tsc) with
  | none =>
    rw [_rtc_nanotime_update_none s t h, _rtc_nanotime_update_none (set_intr_deadline s v) t h]
    rfl
  | some ns =>
    rw [_rtc_nanotime_update_val s t ns h,
      _rtc_nanotime_update_val (set_intr_deadline s v) t ns h]
    exact congrArg some (rtc_nanotime_set_commpage_set_intr
      { s with cpu := { s.cpu with cpu_rtc_nanotime :=
        { s.cpu.cpu_rtc_nanotime with
          rnt_nanos := u64 (s.cpu.cpu_rtc_nanotime.rnt_step_nanos + ns)
          rnt_tsc := t } } }
      { s.cpu.cpu_rtc_nanotime with
        rnt_nanos := u64 (s.cpu.cpu_rtc_nanotime.rnt_step_nanos + ns)
        rnt_tsc := t } v)

theorem rtclock_intr_tick_set_intr (env : rtclock_env) (s : rtclock_state)
    (regs : i386_interrupt_state) (v a0 t1 : Nat) :
    rtclock_intr_tick env (set_intr_deadline s v) regs a0 t1
      = (rtclock_intr_tick env s regs a0 t1).map fun r => (set_intr_deadline r.1 v, r.2) := by
  unfold rtclock_intr_tick
  by_cases hd : s.cpu.cpu_rtc_tick_deadline ≤ a0
  · have hd2 : (set_intr_deadline s v).cpu.cpu_rtc_tick_deadline ≤ a0 := hd
    rw [if_pos hd, if_pos hd2, rtc_nanotime_update_set_intr]
    cases rtc_nanotime_update s t1 with
    | none => rfl
    | some su => rfl
  · have hd2 : ¬ (set_intr_deadline s v).cpu.cpu_rtc_tick_deadline ≤ a0 := hd
    rw [if_neg hd, if_neg hd2]
    rfl

theorem option_bind_map_congr {α β : Type} (o : Option α) (F G : α → Option β) (g : β → β)
    (h : ∀ a, o = some a → F a = (G a).map g) : o.bind F = (o.bind G).map g := by
  cases o with
  | none => rfl
  | some a => exact h a rfl

theorem timer_fire_set_intr (env : rtclock_env) (sa : rtclock_state) (f a2 w w2 : Nat)
    (hw : env.timer_func f a2 (set_intr_deadline sa w)
      = set_intr_deadline (env.timer_func f a2 sa) w2) :
    ({ env.timer_func f a2 (set_intr_deadline sa w) with cpu :=
        { (env.timer_func f a2 (set_intr_deadline sa w)).cpu with cpu_rtc_timer :=
          { (env.timer_func f a2 (set_intr_deadline sa w)).cpu.cpu_rtc_timer with
            has_expired := false } } } : rtclock_state)
      = set_intr_deadline
          { env.timer_func f a2 sa with cpu :=
            { (env.timer_func f a2 sa).cpu with cpu_rtc_timer :=
              { (env.timer_func f a2 sa).cpu.cpu_rtc_timer with has_expired := false } } }
          w2 := by
  rw [hw]
  rfl

theorem rtclock_intr_timer_set_intr (env : rtclock_env)
    (hcb : ∀ f t st w, ∃ w2, env.timer_func f t (set_intr_deadline st w)
      = set_intr_deadline (env.timer_func f t st) w2)
    (s : rtclock_state) (w a2 : Nat) :
    ∃ w2, rtclock_intr_timer env (set_intr_deadline s w) a2
      = (rtclock_intr_timer env s a2).map fun r => (set_intr_deadline r.1 w2, r.2) := by
  unfold rtclock_intr_timer
  by_cases hd : s.cpu.cpu_rtc_timer.is_set = true ∧ s.cpu.cpu_rtc_timer.deadline ≤ a2
  · have hd2 : (set_intr_deadline s w).cpu.cpu_rtc_timer.is_set = true
        ∧ (set_intr_deadline s w).cpu.cpu_rtc_timer.deadline ≤ a2 := hd
    rw [if_pos hd, if_pos hd2]
    rcases Option.eq_none_or_eq_some s.rtclock_timer_expire with hf | ⟨f, hf⟩
    · refine ⟨w, option_bind_map_congr _ _ _ _ (fun func hfunc => ?_)⟩
      have hfunc2 : s.rtclock_timer_expire = some func := hfunc
      rw [hf] at hfunc2
      exact absurd hfunc2 (by simp)
    · obtain ⟨w2, hw2⟩ := hcb f a2
        { s with cpu := { s.cpu with cpu_rtc_timer :=
          { s.cpu.cpu_rtc_timer with has_expired := true, is_set := false } } } w
      refine ⟨w2, option_bind_map_congr _ _ _ _ (fun func hfunc => ?_)⟩
      have hfunc2 : s.rtclock_timer_expire = some func := hfunc
      rw [hf] at hfunc2
      have e : f = func := Option.some.inj hfunc2
      subst e
      refine congrArg some (Prod.ext ?_ rfl)
      exact timer_fire_set_intr env
        { s with cpu := { s.cpu with cpu_rtc_timer :=
          { s.cpu.cpu_rtc_timer with has_expired := true, is_set := false } } } f a2 w w2 hw2
  · have hd2 : ¬ ((set_intr_deadline s w).cpu.cpu_rtc_timer.is_set = true
        ∧ (set_intr_deadline s w).cpu.cpu_rtc_timer.deadline ≤ a2) := hd
    rw [if_neg hd, if_neg hd2]
    exact ⟨w, rfl⟩

theorem rtclock_intr_reprogram_set_intr (s : rtclock_state) (w a3 : Nat) :
    rtclock_intr_reprogram (set_intr_deadline s w) a3 = rtclock_intr_reprogram s a3 := rfl

theorem filter_latency_trace (l : List rtc_event) (a b : Nat) (r : List rtc_event) :
    (l ++ rtc_event.kernel_debug 0 a b :: r).filter (fun e => !e.is_latency_trace)
      = l.filter (fun e => !e.is_latency_trace) ++ r.filter (fun e => !e.is_latency_trace) := by
  rw [List.filter_append]
  rfl

/-- C28: take two states that differ only in `cpu_rtc_intr_deadline`, the same saved
registers and the same four counter readings, and timer functions whose effect does not
depend on `cpu_rtc_intr_deadline`.  Then `rtclock_intr` returns in both or in neither, ends
in the same state, and produces the same events in the same order (the same `hertz_tick`
and timer-function calls with the same arguments, the same `lapic_set_timer` count)
except for the latency trace point. -/
theorem C28_latency_is_diagnostic_only (env : rtclock_env) (s : rtclock_state)
    (regs : i386_interrupt_state) (v t0 t1 t2 t3 : Nat)
    (hcb : ∀ f t st w, ∃ w2, env.timer_func f t (set_intr_deadline st w)
      = set_intr_deadline (env.timer_func f t st) w2) :
    (rtclock_intr env (set_intr_deadline s v) regs t0 t1 t2 t3).map
        (fun r => (r.1, r.2.filter (fun e => !e.is_latency_trace)))
      = (rtclock_intr env s regs t0 t1 t2 t3).map
        (fun r => (r.1, r.2.filter (fun e => !e.is_latency_trace))) := by
  rw [rtclock_intr_stages, rtclock_intr_stages, _rtc_nanotime_read_set_intr]
  cases _rtc_nanotime_read s t0 with
  | none => rfl
  | some a0 =>
    simp only [Option.some_bind]
    rw [rtclock_intr_tick_set_intr]
    cases rtclock_intr_tick env s regs a0 t1 with
    | none => rfl
    | some r1 =>
      simp only [Option.map_some', Option.some_bind]
      rw [_rtc_nanotime_read_set_intr]
      cases _rtc_nanotime_read r1.1 t2 with
      | none => rfl
      | some a2 =>
        simp only [Option.some_bind]
        obtain ⟨w2, hw2⟩ := rtclock_intr_timer_set_intr env hcb r1.1 v a2
        rw [hw2]
        cases rtclock_intr_timer env r1.1 a2 with
        | none => rfl
        | some r2 =>
          simp only [Option.map_some', Option.some_bind]
          rw [_rtc_nanotime_read_set_intr]
          cases _rtc_nanotime_read r2.1 t3 with
          | none => rfl
          | some a3 =>
            simp only [Option.some_bind]
            rw [rtclock_intr_reprogram_set_intr]
            cases rtclock_intr_reprogram r2.1 a3 with
            | none => rfl
            | some r3 =>
              simp only [Option.map_some', Option.some_bind]
              rw [filter_latency_trace, filter_latency_trace]

theorem clock_set_timer_deadline_set_intr (st : rtclock_state) (w d tsc : Nat) :
    ∃ w2, (match clock_set_timer_deadline (set_intr_deadline st w) d tsc with
        | some r => r.1
        | none => set_intr_deadline st w)
      = set_intr_deadline (match clock_set_timer_deadline st d tsc with
        | some r => r.1
        | none => st) w2 := by
  rw [clock_set_timer_deadline_val, clock_set_timer_deadline_val]
  have hread : mach_absolute_time (set_intr_deadline st w) tsc = mach_absolute_time st tsc :=
    _rtc_nanotime_read_set_intr st w tsc
  have hexp : (set_intr_deadline st w).cpu.cpu_rtc_timer.has_expired
      = st.cpu.cpu_rtc_timer.has_expired := rfl
  have htick : (set_intr_deadline st w).cpu.cpu_rtc_tick_deadline
      = st.cpu.cpu_rtc_tick_deadline := rfl
  rw [hread, hexp, htick]
  by_cases h1 : st.cpu.cpu_rtc_timer.has_expired = true
  · rw [if_pos h1, if_pos h1]
    exact ⟨w, rfl⟩
  · rw [if_neg h1, if_neg h1]
    cases mach_absolute_time st tsc with
    | none => exact ⟨w, rfl⟩
    | some now =>
      simp only [Option.some_bind]
      by_cases h2 : d < st.cpu.cpu_rtc_tick_deadline
      · rw [if_pos h2, if_pos h2]
        have hl : rtc_lapic_set_timer (set_intr_deadline st w)
            (deadline_to_decrementer (set_intr_deadline st w) d now)
            = rtc_lapic_set_timer st (deadline_to_decrementer st d now) := rfl
        rw [hl]
        cases rtc_lapic_set_timer st (deadline_to_decrementer st d now) with
        | none => exact ⟨w, rfl⟩
        | some ev => exact ⟨d, rfl⟩
      · rw [if_neg h2, if_neg h2]
        exact ⟨w, rfl⟩

/-- C28 on the example interrupt, whose timer function rearms the timer through
`clock_set_timer_deadline`, with the previously expected fire time replaced by 5: both
runs return, their latency trace points differ, and everything else is the same. -/
theorem C28_latency_is_diagnostic_only_witness :
    ((rtclock_intr example_env example_intr_state example_regs
          20000200 20000400 20000600 20000800).isSome = true
      ∧ rtclock_intr example_env (set_intr_deadline example_intr_state 5) example_regs
          20000200 20000400 20000600 20000800
        ≠ rtclock_intr example_env example_intr_state example_regs
          20000200 20000400 20000600 20000800)
    ∧ (rtclock_intr example_env (set_intr_deadline example_intr_state 5) example_regs
        20000200 20000400 20000600 20000800).map
        (fun r => (r.1, r.2.filter (fun e => !e.is_latency_trace)))
      = (rtclock_intr example_env example_intr_state example_regs
        20000200 20000400 20000600 20000800).map
        (fun r => (r.1, r.2.filter (fun e => !e.is_latency_trace))) :=
  ⟨by decide,
    C28_latency_is_diagnostic_only example_env example_intr_state example_regs 5
      20000200 20000400 20000600 20000800
      (fun _ t st w => clock_set_timer_deadline_set_intr st w (t + 600) 0)⟩

/-! ## The slew applies the whole request -/

theorem emod_add_cancel (x d t : Int) :
    ((x + d) % (2 ^ 32 * 1000000000) + (t - d)) % (2 ^ 32 * 1000000000)
      = (x + t) % (2 ^ 32 * 1000000000) := by
  omega

theorem slew_run (step : Nat) (hstep0 : 0 < step) (hstep : step ≤ 400000) :
    ∀ (k : Nat) (st : rtclock_state), adj_inv st →
      timespec_normal st.rtclock.calend_offset →
      st.rtclock.calend_adjdelta.natAbs = min step st.rtclock.calend_adjtotal.natAbs →
      k * step < st.rtclock.calend_adjtotal.natAbs →
      st.rtclock.calend_adjtotal.natAbs ≤ (k + 1) * step →
      (adjust_iter st (k + 1)).rtclock.calend_adjtotal = 0
      ∧ (adjust_iter st (k + 1)).rtclock.calend_adjdelta = 0
      ∧ (∀ m, m ≤ k → (adjust_iter st m).rtclock.calend_adjtotal ≠ 0)
      ∧ (∀ m, m < k → (clock_adjust_calendar (adjust_iter st m)).2 = 10000000)
      ∧ (clock_adjust_calendar (adjust_iter st k)).2 = 0
      ∧ timespec_normal (adjust_iter st (k + 1)).rtclock.calend_offset
      ∧ timespec_nanos (adjust_iter st (k + 1)).rtclock.calend_offset
        = (timespec_nanos st.rtclock.calend_offset + st.rtclock.calend_adjtotal)
          % (2 ^ 32 * 1000000000) := by
  intro k
  induction k with
  | zero =>
    intro st hinv hnorm hd hlo hhi
    obtain ⟨e1, e2, e3⟩ := clock_adjust_calendar_fields st hinv
    have hsmall := adj_inv_step_small st hinv
    obtain ⟨n1, n2⟩ := ADD_MACH_TIMESPEC_NSEC_val _ _ hnorm hsmall.1 hsmall.2
    obtain ⟨i1, i2, i3, i4, i5⟩ := hinv
    have hDT : st.rtclock.calend_adjdelta = st.rtclock.calend_adjtotal := by omega
    have hT0 : st.rtclock.calend_adjtotal ≠ 0 := by omega
    have a1 : (clock_adjust_calendar st).1.rtclock.calend_adjtotal = 0 := by
      rw [e1, hDT]
      omega
    have a2 : (clock_adjust_calendar st).1.rtclock.calend_adjdelta = 0 := by
      rw [e2, hDT]
      split_ifs <;> omega
    refine ⟨a1, a2, ?_, ?_, ?_, ?_, ?_⟩
    · intro m hm
      have : m = 0 := by omega
      subst this
      exact hT0
    · intro m hm
      exact absurd hm (by omega)
    · show (clock_adjust_calendar st).2 = 0
      rw [e3, if_pos a2]
    · show timespec_normal (clock_adjust_calendar st).1.rtclock.calend_offset
      rw [clock_adjust_calendar_offset]
      exact n1
    · show timespec_nanos (clock_adjust_calendar st).1.rtclock.calend_offset = _
      rw [clock_adjust_calendar_offset, n2, hDT]
  | succ k ih =>
    intro st hinv hnorm hd hlo hhi
    obtain ⟨e1, e2, e3⟩ := clock_adjust_calendar_fields st hinv
    have hsmall := adj_inv_step_small st hinv
    obtain ⟨n1, n2⟩ := ADD_MACH_TIMESPEC_NSEC_val _ _ hnorm hsmall.1 hsmall.2
    have hinv2 := adj_inv_adjust st hinv
    obtain ⟨i1, i2, i3, i4, i5⟩ := hinv
    have hk1 : (k + 1) * step = k * step + step := Nat.succ_mul k step
    have hk2 : (k + 1 + 1) * step = k * step + step + step := by
      rw [Nat.succ_mul, Nat.succ_mul]
    have hT0 : st.rtclock.calend_adjtotal ≠ 0 := by omega
    have hT1 : ((clock_adjust_calendar st).1.rtclock.calend_adjtotal).natAbs
        = st.rtclock.calend_adjtotal.natAbs - step := by
      rw [e1]
      omega
    have hD1 : ((clock_adjust_calendar st).1.rtclock.calend_adjdelta).natAbs
        = min step ((clock_adjust_calendar st).1.rtclock.calend_adjtotal).natAbs := by
      rw [hT1, e2]
      split_ifs <;> omega
    have hD0 : (clock_adjust_calendar st).1.rtclock.calend_adjdelta ≠ 0 := by
      intro hz
      rw [hz] at hD1
      rw [hT1] at hD1
      simp only [Int.natAbs_zero] at hD1
      omega
    have hn1 : timespec_normal (clock_adjust_calendar st).1.rtclock.calend_offset := by
      rw [clock_adjust_calendar_offset]
      exact n1
    obtain ⟨r1, r2, r3, r4, r5, r6, r7⟩ := ih (clock_adjust_calendar st).1 hinv2 hn1 hD1
      (by omega) (by omega)
    rw [← adjust_iter_succ_left] at r1 r2 r5 r6 r7
    refine ⟨r1, r2, ?_, ?_, r5, r6, ?_⟩
    · intro m hm
      cases m with
      | zero => exact hT0
      | succ j =>
        rw [adjust_iter_succ_left]
        exact r3 j (by omega)
    · intro m hm
      cases m with
      | zero =>
        show (clock_adjust_calendar st).2 = 10000000
        rw [e3, if_neg hD0]
      | succ j =>
        rw [adjust_iter_succ_left]
        exact r4 j (by omega)
    · rw [r7, clock_adjust_calendar_offset, n2, e1]
      exact emod_add_cancel _ _ _

/-- C30: let `clock_set_calendar_adjtime(secs, microsecs)` request a non-zero total of
`secs * 10^9 + microsecs * 1000` ns on a state with a normalised offset, let `step` be
40,000 if the magnitude is at most 10^9 and 400,000 otherwise, and let `n` be the
magnitude divided by `step`, rounded up.  Then `n > 0`; after `n` calls of
`clock_adjust_calendar` both `calend_adjtotal` and `calend_adjdelta` are 0, and after
fewer calls the total is not 0; every call before the last returns 10,000,000 and the last
returns 0; and `calend_offset` is then normalised and stands for the nanoseconds it stood
for before plus the total (seconds wrap at `2^32`). -/
theorem C30_slew_applies_total (s s1 : rtclock_state) (secs microsecs : Int) (step n : Nat)
    (hs : -(2 ^ 31) ≤ secs ∧ secs < 2 ^ 31)
    (hm : -(2 ^ 31) ≤ microsecs * 1000 ∧ microsecs * 1000 < 2 ^ 31)
    (hne : secs * 1000000000 + microsecs * 1000 ≠ 0)
    (hnorm : timespec_normal s.rtclock.calend_offset)
    (h1 : (clock_set_calendar_adjtime s secs microsecs).1 = s1)
    (hstep : step = if (secs * 1000000000 + microsecs * 1000).natAbs ≤ 1000000000
      then 40000 else 400000)
    (hn : n = ((secs * 1000000000 + microsecs * 1000).natAbs + step - 1) / step) :
    0 < n
    ∧ (adjust_iter s1 n).rtclock.calend_adjtotal = 0
    ∧ (adjust_iter s1 n).rtclock.calend_adjdelta = 0
    ∧ (∀ m, m < n → (adjust_iter s1 m).rtclock.calend_adjtotal ≠ 0)
    ∧ (∀ m, m + 1 < n → (clock_adjust_calendar (adjust_iter s1 m)).2 = 10000000)
    ∧ (clock_adjust_calendar (adjust_iter s1 (n - 1))).2 = 0
    ∧ timespec_normal (adjust_iter s1 n).rtclock.calend_offset
    ∧ timespec_nanos (adjust_iter s1 n).rtclock.calend_offset
      = (timespec_nanos s.rtclock.calend_offset + (secs * 1000000000 + microsecs * 1000))
        % (2 ^ 32 * 1000000000) := by
  have h32 : int32 (microsecs * 1000) = microsecs * 1000 := int32_of_range hm.1 hm.2
  have hinv : adj_inv s1 := by
    rw [← h1]
    exact adj_inv_adjtime s secs microsecs hs
  obtain ⟨f1, f2, f3, -, f5, -⟩ := clock_set_calendar_adjtime_fields s secs microsecs
    (secs * 1000000000 + microsecs * 1000) (by rw [h32]) (by omega) (by omega)
  rw [h1] at f1 f2 f3 f5
  have hnorm1 : timespec_normal s1.rtclock.calend_offset := by
    rw [f5]
    exact hnorm
  have hstep0 : 0 < step := by
    rw [hstep]
    split_ifs <;> omega
  have hstep1 : step ≤ 400000 := by
    rw [hstep]
    split_ifs <;> omega
  have hd : s1.rtclock.calend_adjdelta.natAbs = min step s1.rtclock.calend_adjtotal.natAbs := by
    rw [f1, hstep]
    rcases lt_or_gt_of_ne hne with hneg | hpos
    · rw [f3 hneg]
      split_ifs <;> omega
    · rw [f2 hpos]
      split_ifs <;> omega
  have hbounds : (n - 1) * step < (secs * 1000000000 + microsecs * 1000).natAbs
      ∧ (secs * 1000000000 + microsecs * 1000).natAbs ≤ (n - 1 + 1) * step ∧ 0 < n := by
    rw [hn, hstep]
    split_ifs <;> omega
  obtain ⟨b1, b2, b3⟩ := hbounds
  have hn1 : n - 1 + 1 = n := by omega
  obtain ⟨r1, r2, r3, r4, r5, r6, r7⟩ := slew_run step hstep0 hstep1 (n - 1) s1 hinv hnorm1 hd
    (by rw [f1]; exact b1) (by rw [f1]; exact b2)
  rw [hn1] at r1 r2 r6 r7
  rw [f5, f1] at r7
  exact ⟨b3, r1, r2, fun m hm => r3 m (by omega), fun m hm => r4 m (by omega), r5, r6, r7⟩

/-- C30 at 100,000 ns requested on the boot state: three calls of 40,000, 40,000 and
20,000 ns. -/
theorem C30_slew_applies_total_witness :
    (((0 : Int) * 1000000000 + 100 * 1000 ≠ 0)
      ∧ (adjust_iter example_slew_state 3).rtclock.calend_offset = ⟨0, 100000⟩)
    ∧ (0 < 3
      ∧ (adjust_iter example_slew_state 3).rtclock.calend_adjtotal = 0
      ∧ (adjust_iter example_slew_state 3).rtclock.calend_adjdelta = 0
      ∧ (∀ m, m < 3 → (adjust_iter example_slew_state m).rtclock.calend_adjtotal ≠ 0)
      ∧ (∀ m, m + 1 < 3 →
          (clock_adjust_calendar (adjust_iter example_slew_state m)).2 = 10000000)
      ∧ (clock_adjust_calendar (adjust_iter example_slew_state (3 - 1))).2 = 0
      ∧ timespec_normal (adjust_iter example_slew_state 3).rtclock.calend_offset
      ∧ timespec_nanos (adjust_iter example_slew_state 3).rtclock.calend_offset
        = (timespec_nanos boot_state.rtclock.calend_offset
            + ((0 : Int) * 1000000000 + 100 * 1000)) % (2 ^ 32 * 1000000000)) :=
  ⟨by decide,
    C30_slew_applies_total boot_state example_slew_state 0 100 40000 3 (by decide) (by decide)
      (by decide) (by unfold timespec_normal; decide) rfl (by decide) (by decide)⟩

/-! ## Calibration retries -/

theorem timeRDTSC_restart_two (scale : Nat → Nat) (tscs : List Nat) (pit : List pit_sample) :
    timeRDTSC_restart scale 2 tscs pit = timeRDTSC_result.panic 2 := by
  rw [timeRDTSC_restart]
  rfl

theorem timeRDTSC_restart_one (scale : Nat → Nat) (tscs : List Nat) (pit : List pit_sample) :
    timeRDTSC_restart scale 1 tscs pit =
      match timeRDTSC_attempt scale tscs pit with
      | .measured v => timeRDTSC_result.returned v 2
      | .backwards _ _ => timeRDTSC_result.panic 2
      | .starved => timeRDTSC_result.starved := by
  rw [timeRDTSC_restart]
  rw [if_neg (by decide)]
  cases timeRDTSC_attempt scale tscs pit with
  | measured v => rfl
  | backwards t1 p1 => exact timeRDTSC_restart_two scale t1 p1
  | starved => rfl

theorem timeRDTSC_val (scale : Nat → Nat) (tscs : List Nat) (pit : List pit_sample) :
    timeRDTSC scale tscs pit =
      match timeRDTSC_attempt scale tscs pit with
      | .measured v => timeRDTSC_result.returned v 1
      | .backwards t1 p1 =>
        (match timeRDTSC_attempt scale t1 p1 with
          | .measured v => timeRDTSC_result.returned v 2
          | .backwards _ _ => timeRDTSC_result.panic 2
          | .starved => timeRDTSC_result.starved)
      | .starved => timeRDTSC_result.starved := by
  unfold timeRDTSC
  rw [timeRDTSC_restart]
  rw [if_neg (by decide)]
  cases timeRDTSC_attempt scale tscs pit with
  | measured v => rfl
  | backwards t1 p1 => exact timeRDTSC_restart_one scale t1 p1
  | starved => rfl

theorem timeRDTSC_loop_backwards (pre : List pit_sample) (p : pit_sample)
    (rest : List pit_sample) :
    ∀ last : Nat,
      List.Chain (fun a b => b ≤ a) last (pre.map fun q => q.value % 2 ^ 16) →
      (∀ q ∈ pre, 5 < q.value % 2 ^ 16) →
      (pre.map fun q => q.value % 2 ^ 16).getLastD last < p.value % 2 ^ 16 →
      timeRDTSC_loop last (pre ++ p :: rest) = pit_loop_result.backwards rest := by
  induction pre with
  | nil =>
    intro last _ _ hp
    show (if p.value % 2 ^ 16 > last then pit_loop_result.backwards rest
      else if p.value % 2 ^ 16 > 5 then timeRDTSC_loop (p.value % 2 ^ 16) rest
      else pit_loop_result.finished (u64 p.tsc) (p.value % 2 ^ 16) rest) = _
    have hp2 : p.value % 2 ^ 16 > last := hp
    rw [if_pos hp2]
  | cons q pre ih =>
    intro last hch hall hp
    rw [List.map_cons, List.chain_cons] at hch
    have hq : 5 < q.value % 2 ^ 16 := hall q (List.mem_cons_self _ _)
    show (if q.value % 2 ^ 16 > last then pit_loop_result.backwards (pre ++ p :: rest)
      else if q.value % 2 ^ 16 > 5 then timeRDTSC_loop (q.value % 2 ^ 16) (pre ++ p :: rest)
      else pit_loop_result.finished (u64 q.tsc) (q.value % 2 ^ 16) (pre ++ p :: rest)) = _
    rw [if_neg (by omega), if_pos hq]
    apply ih _ hch.2 (fun x hx => hall x (List.mem_cons_of_mem _ hx))
    rw [List.map_cons, List.getLastD_cons] at hp
    exact hp

theorem timeRDTSC_measured (scale : Nat → Nat) (tscs : List Nat) (pit : List pit_sample)
    (v : Nat) (h : timeRDTSC_attempt scale tscs pit = attempt_result.measured v) :
    timeRDTSC scale tscs pit = timeRDTSC_result.returned v 1 := by
  rw [timeRDTSC_val, h]

theorem timeRDTSC_starved (scale : Nat → Nat) (tscs : List Nat) (pit : List pit_sample)
    (h : timeRDTSC_attempt scale tscs pit = attempt_result.starved) :
    timeRDTSC scale tscs pit = timeRDTSC_result.starved := by
  rw [timeRDTSC_val, h]

theorem timeRDTSC_second (scale : Nat → Nat) (tscs : List Nat) (pit : List pit_sample)
    (t1 : List Nat) (p1 : List pit_sample) (v : Nat)
    (h1 : timeRDTSC_attempt scale tscs pit = attempt_result.backwards t1 p1)
    (h2 : timeRDTSC_attempt scale t1 p1 = attempt_result.measured v) :
    timeRDTSC scale tscs pit = timeRDTSC_result.returned v 2 := by
  rw [timeRDTSC_val, h1]
  simp only []
  rw [h2]

theorem timeRDTSC_second_starved (scale : Nat → Nat) (tscs : List Nat)
    (pit : List pit_sample) (t1 : List Nat) (p1 : List pit_sample)
    (h1 : timeRDTSC_attempt scale tscs pit = attempt_result.backwards t1 p1)
    (h2 : timeRDTSC_attempt scale t1 p1 = attempt_result.starved) :
    timeRDTSC scale tscs pit = timeRDTSC_result.starved := by
  rw [timeRDTSC_val, h1]
  simp only []
  rw [h2]

theorem timeRDTSC_panic (scale : Nat → Nat) (tscs : List Nat) (pit : List pit_sample)
    (t1 : List Nat) (p1 : List pit_sample) (t2 : List Nat) (p2 : List pit_sample)
    (h1 : timeRDTSC_attempt scale tscs pit = attempt_result.backwards t1 p1)
    (h2 : timeRDTSC_attempt scale t1 p1 = attempt_result.backwards t2 p2) :
    timeRDTSC scale tscs pit = timeRDTSC_result.panic 2 := by
  rw [timeRDTSC_val, h1]
  simp only []
  rw [h2]

/-- C22: on simulated readings, (1) the sampling loop of `timeRDTSC` ends in
`goto restart` at the first count greater than the one before, leaving exactly the
readings after it; (2) `timeRDTSC` panics exactly when the first pass ends that way and
the pass on the readings left ends that way too; (3) it panics only with `attempts = 2`;
(4) when it returns, either the first pass measured the value and `attempts = 1`, or the
first pass went backwards, the second measured the value and `attempts = 2`, so no third
pass is started; (5) when the first pass goes backwards and the second measures `v`, the
value returned is `v`, the value `timeRDTSC` returns when run on the second pass's
readings alone. -/
theorem C22_calibration_retry_bound (scale : Nat → Nat) :
    (∀ (pre : List pit_sample) (p : pit_sample) (rest : List pit_sample) (last : Nat),
      List.Chain (fun a b => b ≤ a) last (pre.map fun q => q.value % 2 ^ 16) →
      (∀ q ∈ pre, 5 < q.value % 2 ^ 16) →
      (pre.map fun q => q.value % 2 ^ 16).getLastD last < p.value % 2 ^ 16 →
      timeRDTSC_loop last (pre ++ p :: rest) = pit_loop_result.backwards rest)
    ∧ (∀ (tscs : List Nat) (pit : List pit_sample),
      (∃ n, timeRDTSC scale tscs pit = timeRDTSC_result.panic n) ↔
        ∃ t1 p1 t2 p2, timeRDTSC_attempt scale tscs pit = attempt_result.backwards t1 p1
          ∧ timeRDTSC_attempt scale t1 p1 = attempt_result.backwards t2 p2)
    ∧ (∀ (tscs : List Nat) (pit : List pit_sample) (n : Nat),
      timeRDTSC scale tscs pit = timeRDTSC_result.panic n → n = 2)
    ∧ (∀ (tscs : List Nat) (pit : List pit_sample) (v n : Nat),
      timeRDTSC scale tscs pit = timeRDTSC_result.returned v n →
      (n = 1 ∧ timeRDTSC_attempt scale tscs pit = attempt_result.measured v)
      ∨ (n = 2 ∧ ∃ t1 p1, timeRDTSC_attempt scale tscs pit = attempt_result.backwards t1 p1
          ∧ timeRDTSC_attempt scale t1 p1 = attempt_result.measured v))
    ∧ (∀ (tscs : List Nat) (pit : List pit_sample) (t1 : List Nat) (p1 : List pit_sample)
        (v : Nat),
      timeRDTSC_attempt scale tscs pit = attempt_result.backwards t1 p1 →
      timeRDTSC_attempt scale t1 p1 = attempt_result.measured v →
      timeRDTSC scale tscs pit = timeRDTSC_result.returned v 2
      ∧ timeRDTSC scale t1 p1 = timeRDTSC_result.returned v 1) := by
  refine ⟨fun pre p rest last => timeRDTSC_loop_backwards pre p rest last, ?_, ?_, ?_, ?_⟩
  · intro tscs pit
    constructor
    · rintro ⟨n, h⟩
      cases h1 : timeRDTSC_attempt scale tscs pit with
      | measured v => rw [timeRDTSC_measured scale tscs pit v h1] at h; cases h
      | starved => rw [timeRDTSC_starved scale tscs pit h1] at h; cases h
      | backwards t1 p1 =>
        cases h2 : timeRDTSC_attempt scale t1 p1 with
        | measured v => rw [timeRDTSC_second scale tscs pit t1 p1 v h1 h2] at h; cases h
        | starved => rw [timeRDTSC_second_starved scale tscs pit t1 p1 h1 h2] at h; cases h
        | backwards t2 p2 => exact ⟨t1, p1, t2, p2, rfl, h2⟩
    · rintro ⟨t1, p1, t2, p2, h1, h2⟩
      exact ⟨2, timeRDTSC_panic scale tscs pit t1 p1 t2 p2 h1 h2⟩
  · intro tscs pit n h
    cases h1 : timeRDTSC_attempt scale tscs pit with
    | measured v => rw [timeRDTSC_measured scale tscs pit v h1] at h; cases h
    | starved => rw [timeRDTSC_starved scale tscs pit h1] at h; cases h
    | backwards t1 p1 =>
      cases h2 : timeRDTSC_attempt scale t1 p1 with
      | measured v => rw [timeRDTSC_second scale tscs pit t1 p1 v h1 h2] at h; cases h
      | starved => rw [timeRDTSC_second_starved scale tscs pit t1 p1 h1 h2] at h; cases h
      | backwards t2 p2 =>
        rw [timeRDTSC_panic scale tscs pit t1 p1 t2 p2 h1 h2] at h
        cases h
        rfl
  · intro tscs pit v n h
    cases h1 : timeRDTSC_attempt scale tscs pit with
    | measured w =>
      rw [timeRDTSC_measured scale tscs pit w h1] at h
      cases h
      exact Or.inl ⟨rfl, rfl⟩
    | starved => rw [timeRDTSC_starved scale tscs pit h1] at h; cases h
    | backwards t1 p1 =>
      cases h2 : timeRDTSC_attempt scale t1 p1 with
      | measured w =>
        rw [timeRDTSC_second scale tscs pit t1 p1 w h1 h2] at h
        cases h
        exact Or.inr ⟨rfl, t1, p1, rfl, h2⟩
      | starved => rw [timeRDTSC_second_starved scale tscs pit t1 p1 h1 h2] at h; cases h
      | backwards t2 p2 => rw [timeRDTSC_panic scale tscs pit t1 p1 t2 p2 h1 h2] at h; cases h
  · intro tscs pit t1 p1 v h1 h2
    exact ⟨timeRDTSC_second scale tscs pit t1 p1 v h1 h2, timeRDTSC_measured scale t1 p1 v h2⟩

/-- C22 on the example readings: the first pass goes backwards at 40,000 -> 40,001, the
second measures 100,000,040 cycles; and with the first pass's readings delivered twice
the routine panics. -/
theorem C22_calibration_retry_bound_witness :
    (timeRDTSC_attempt (fun _ => 2000000000) example_tscs example_pit
        = attempt_result.backwards [5000, 5100] (example_pit.drop 5)
      ∧ timeRDTSC_attempt (fun _ => 2000000000) [5000, 5100] (example_pit.drop 5)
        = attempt_result.measured 100000040
      ∧ timeRDTSC_attempt (fun _ => 2000000000) [1000, 1100, 1000, 1100]
          (example_pit.take 5 ++ example_pit.take 5)
        = attempt_result.backwards [1000, 1100] (example_pit.take 5)
      ∧ timeRDTSC_attempt (fun _ => 2000000000) [1000, 1100] (example_pit.take 5)
        = attempt_result.backwards [] [])
    ∧ (timeRDTSC (fun _ => 2000000000) example_tscs example_pit
        = timeRDTSC_result.returned 100000040 2
      ∧ timeRDTSC (fun _ => 2000000000) [5000, 5100] (example_pit.drop 5)
        = timeRDTSC_result.returned 100000040 1)
    ∧ (∃ n, timeRDTSC (fun _ => 2000000000) [1000, 1100, 1000, 1100]
        (example_pit.take 5 ++ example_pit.take 5) = timeRDTSC_result.panic n)
    ∧ timeRDTSC_loop 59650 ([⟨2000, 40000⟩] ++ ⟨3000, 40001⟩ :: example_pit.drop 5)
        = pit_loop_result.backwards (example_pit.drop 5) :=
  ⟨by decide,
    (C22_calibration_retry_bound (fun _ => 2000000000)).2.2.2.2 example_tscs example_pit
      [5000, 5100] (example_pit.drop 5) 100000040 (by decide) (by decide),
    ((C22_calibration_retry_bound (fun _ => 2000000000)).2.1 [1000, 1100, 1000, 1100]
      (example_pit.take 5 ++ example_pit.take 5)).mpr
      ⟨[1000, 1100], example_pit.take 5, [], [], by decide, by decide⟩,
    (C22_calibration_retry_bound (fun _ => 2000000000)).1 [⟨2000, 40000⟩] ⟨3000, 40001⟩
      (example_pit.drop 5) 59650 (List.Chain.cons (by decide) List.Chain.nil) (by decide)
      (by decide)⟩

/-! ## Setting and then reading the calendar -/

theorem timespec_unique (t : mach_timespec_t) (n : Nat) (h : timespec_normal t)
    (hn : timespec_nanos t = (n : Int)) :
    t = { tv_sec := n / 1000000000, tv_nsec := ((n % 1000000000 : Nat) : Int) } := by
  obtain ⟨h1, h2, h3⟩ := h
  unfold timespec_nanos at hn
  cases t with
  | mk sec nsec =>
    simp only at h1 h2 h3 hn
    have a : sec = n / 1000000000 := by omega
    have b : nsec = ((n % 1000000000 : Nat) : Int) := by omega
    rw [a, b]

theorem calend_gettime_after_set (s : rtclock_state) (o : mach_timespec_t) (b tsc now : Nat)
    (cur : mach_timespec_t) (hnow : rtc_nanotime_read s tsc = some now)
    (hlt : now < 2 ^ 32 * 1000000000) :
    calend_gettime
        { s with rtclock := { s.rtclock with
          calend_offset := o, boottime := b, calend_is_set := true } } tsc cur
      = some (kern_return_t.KERN_SUCCESS,
          ADD_MACH_TIMESPEC
            { tv_sec := now / 1000000000, tv_nsec := ((now % 1000000000 : Nat) : Int) } o,
          { s with rtclock := { s.rtclock with
            calend_offset := o, boottime := b, calend_is_set := true } }) := by
  have hread : rtc_nanotime_read
      { s with rtclock := { s.rtclock with
        calend_offset := o, boottime := b, calend_is_set := true } } tsc = some now := by
    rw [← hnow]
    exact _rtc_nanotime_read_congr _ _ tsc rfl rfl
  unfold calend_gettime
  rw [if_neg (by simp), sysclk_gettime_internal_val _ tsc now hread hlt, Option.some_bind]

/-- C31: for 32-bit `secs`, `microsecs < 1,000,000` and clock reads of `now` at the set
and `now + e` at the later read, both with seconds fitting 32 bits:
`clock_set_calendar_microtime(secs, microsecs)` returns, `calend_gettime` at the same
monotonic time then returns `KERN_SUCCESS` with exactly `(secs, microsecs * 1000)`, and
`calend_gettime` `e` nanoseconds later returns `KERN_SUCCESS` with a normalised time
standing for the wall time plus `e` nanoseconds (seconds wrap at `2^32`), which is the
split of that sum when its seconds fit 32 bits. -/
theorem C31_calendar_round_trip (s : rtclock_state) (secs microsecs tsc tsc2 now e : Nat)
    (cur : mach_timespec_t) (hsecs : secs < 2 ^ 32) (hus : microsecs < 1000000)
    (hnow : rtc_nanotime_read s tsc = some now)
    (hnow2 : rtc_nanotime_read s tsc2 = some (now + e))
    (hlt : now + e < 2 ^ 32 * 1000000000) :
    ∃ s1 evs out, clock_set_calendar_microtime s secs microsecs tsc = some (s1, evs)
      ∧ calend_gettime s1 tsc cur = some (kern_return_t.KERN_SUCCESS,
          { tv_sec := secs, tv_nsec := ((microsecs * 1000 : Nat) : Int) }, s1)
      ∧ calend_gettime s1 tsc2 cur = some (kern_return_t.KERN_SUCCESS, out, s1)
      ∧ timespec_normal out
      ∧ timespec_nanos out
        = (((secs * 1000000000 + microsecs * 1000 + e : Nat) : Int)) % (2 ^ 32 * 1000000000)
      ∧ (secs * 1000000000 + microsecs * 1000 + e < 2 ^ 32 * 1000000000 →
          out = { tv_sec := (secs * 1000000000 + microsecs * 1000 + e) / 1000000000,
                  tv_nsec := (((secs * 1000000000 + microsecs * 1000 + e) % 1000000000 : Nat)
                    : Int) }) := by
  have hlt1 : now < 2 ^ 32 * 1000000000 := by omega
  have hget := sysclk_gettime_internal_val s tsc now hnow hlt1
  have hval := clock_set_calendar_microtime_val s secs microsecs tsc _ hget
  rw [new_time_val secs microsecs hsecs hus] at hval
  obtain ⟨n1, n2⟩ := timespec_of_nanos now hlt1
  obtain ⟨m1, m2⟩ := timespec_of_nanos (now + e) hlt
  have hnew : timespec_normal
      { tv_sec := secs, tv_nsec := ((microsecs * 1000 : Nat) : Int) } := by
    unfold timespec_normal
    simp only []
    omega
  have hnewn : timespec_nanos
      { tv_sec := secs, tv_nsec := ((microsecs * 1000 : Nat) : Int) }
      = (secs : Int) * 1000000000 + (microsecs : Int) * 1000 := by
    simp only [timespec_nanos]
    push_cast
    rfl
  obtain ⟨a1, a2⟩ := SUB_MACH_TIMESPEC_val _ _ hnew n1
  rw [n2, hnewn] at a2
  obtain ⟨b1, b2⟩ := ADD_MACH_TIMESPEC_val _ _ n1 a1
  rw [n2, a2] at b2
  obtain ⟨c1, c2⟩ := ADD_MACH_TIMESPEC_val _ _ m1 a1
  rw [m2, a2] at c2
  have hsame : ADD_MACH_TIMESPEC
      { tv_sec := now / 1000000000, tv_nsec := ((now % 1000000000 : Nat) : Int) }
      (SUB_MACH_TIMESPEC { tv_sec := secs, tv_nsec := ((microsecs * 1000 : Nat) : Int) }
        { tv_sec := now / 1000000000, tv_nsec := ((now % 1000000000 : Nat) : Int) })
      = { tv_sec := secs, tv_nsec := ((microsecs * 1000 : Nat) : Int) } := by
    have hu := timespec_unique _ (secs * 1000000000 + microsecs * 1000) b1
      (by rw [b2]; push_cast; omega)
    rw [hu]
    have e1 : (secs * 1000000000 + microsecs * 1000) / 1000000000 = secs := by omega
    have e2 : (secs * 1000000000 + microsecs * 1000) % 1000000000 = microsecs * 1000 := by
      omega
    rw [e1, e2]
  refine ⟨_, _, _, hval, ?_, calend_gettime_after_set s _ _ tsc2 (now + e) cur hnow2 hlt,
    c1, ?_, ?_⟩
  · rw [calend_gettime_after_set s _ _ tsc now cur hnow hlt1, hsame]
  · rw [c2]
    push_cast
    omega
  · intro hfit
    exact timespec_unique _ _ c1 (by rw [c2]; push_cast; omega)

/-- C31 on the 2 GHz example: the calendar set to 1000.25 s at 2 s of uptime and read
again 0.5 s later. -/
theorem C31_calendar_round_trip_witness :
    ((1000 : Nat) < 2 ^ 32 ∧ (250000 : Nat) < 1000000
      ∧ rtc_nanotime_read example_fast_state 4000000000 = some 2000000000
      ∧ rtc_nanotime_read example_fast_state 5000000000 = some (2000000000 + 500000000)
      ∧ 2000000000 + 500000000 < 2 ^ 32 * 1000000000)
    ∧ ∃ s1 evs out,
      clock_set_calendar_microtime example_fast_state 1000 250000 4000000000 = some (s1, evs)
      ∧ calend_gettime s1 4000000000 ⟨7, 7⟩ = some (kern_return_t.KERN_SUCCESS,
          { tv_sec := 1000, tv_nsec := ((250000 * 1000 : Nat) : Int) }, s1)
      ∧ calend_gettime s1 5000000000 ⟨7, 7⟩ = some (kern_return_t.KERN_SUCCESS, out, s1)
      ∧ timespec_normal out
      ∧ timespec_nanos out
        = (((1000 * 1000000000 + 250000 * 1000 + 500000000 : Nat) : Int))
          % (2 ^ 32 * 1000000000)
      ∧ (1000 * 1000000000 + 250000 * 1000 + 500000000 < 2 ^ 32 * 1000000000 →
          out = { tv_sec := (1000 * 1000000000 + 250000 * 1000 + 500000000) / 1000000000,
                  tv_nsec := (((1000 * 1000000000 + 250000 * 1000 + 500000000) % 1000000000
                    : Nat) : Int) }) :=
  ⟨by decide,
    C31_calendar_round_trip example_fast_state 1000 250000 4000000000 5000000000 2000000000
      500000000 ⟨7, 7⟩ (by decide) (by decide) (by decide) (by decide) (by decide)⟩

/-! ## Accuracy of the fast conversion -/

theorem fast_scale_bounds (c x : Nat) (hc0 : 0 < c) :
    x * (50000000 * 2 ^ 32 / c) / 2 ^ 32 * c ≤ x * 50000000
    ∧ x * 50000000 * 2 ^ 32
      < (x * (50000000 * 2 ^ 32 / c) / 2 ^ 32 + 1) * 2 ^ 32 * c + x * c := by
  have hS1 : 50000000 * 2 ^ 32 / c * c ≤ 50000000 * 2 ^ 32 := Nat.div_mul_le_self _ _
  have hS2 : 50000000 * 2 ^ 32 < c * (50000000 * 2 ^ 32 / c + 1) :=
    Nat.lt_mul_div_succ _ hc0
  have hv1 : x * (50000000 * 2 ^ 32 / c) / 2 ^ 32 * 2 ^ 32 ≤ x * (50000000 * 2 ^ 32 / c) :=
    Nat.div_mul_le_self _ _
  have hv2 : x * (50000000 * 2 ^ 32 / c)
      < 2 ^ 32 * (x * (50000000 * 2 ^ 32 / c) / 2 ^ 32 + 1) :=
    Nat.lt_mul_div_succ _ (by norm_num)
  generalize 50000000 * 2 ^ 32 / c = S at *
  generalize x * S / 2 ^ 32 = v at *
  constructor
  · have h1 : v * 2 ^ 32 * c ≤ x * S * c := Nat.mul_le_mul_right c hv1
    have h2 : x * (S * c) ≤ x * (50000000 * 2 ^ 32) := Nat.mul_le_mul_left x hS1
    have h3 : v * c * 2 ^ 32 ≤ x * 50000000 * 2 ^ 32 := by
      calc v * c * 2 ^ 32 = v * 2 ^ 32 * c := by ring
        _ ≤ x * S * c := h1
        _ = x * (S * c) := by ring
        _ ≤ x * (50000000 * 2 ^ 32) := h2
        _ = x * 50000000 * 2 ^ 32 := by ring
    exact Nat.le_of_mul_le_mul_right h3 (by norm_num)
  · have h1 : x * (50000000 * 2 ^ 32) ≤ x * (c * (S + 1)) :=
      Nat.mul_le_mul_left x (le_of_lt hS2)
    have h2 : x * S * c < 2 ^ 32 * (v + 1) * c := Nat.mul_lt_mul_of_pos_right hv2 hc0
    calc x * 50000000 * 2 ^ 32 = x * (50000000 * 2 ^ 32) := by ring
      _ ≤ x * (c * (S + 1)) := h1
      _ = x * S * c + x * c := by ring
      _ < 2 ^ 32 * (v + 1) * c + x * c := Nat.add_lt_add_right h2 _
      _ = (v + 1) * 2 ^ 32 * c + x * c := by ring

/-- C32: for every measured count `c` with `50,000,000 < c < 2^32` and every 64-bit cycle
delta `x`, `rtc_set_cyc_per_sec(c)` returns and the conversion it installs returns a value
`v` with `x * 50,000,000 / c - x / 2^32 - 1 < v <= x * 50,000,000 / c`, the quotients
being exact (rational) ones; with integer quotients, `v` is at most
`floor(x * 50,000,000 / c)` and `floor(x * 50,000,000 / c) < v + floor(x / 2^32) + 2`. -/
theorem C32_fast_path_accuracy (s0 : rtclock_state) (c x : Nat) (hc : 50000000 < c)
    (hc2 : c < 2 ^ 32) (hx : x < 2 ^ 64) :
    ∃ s ret v, rtc_set_cyc_per_sec s0 c = some (s, ret)
      ∧ tsc_to_nanoseconds s x = some v
      ∧ (x : ℚ) * 50000000 / (c : ℚ) - (x : ℚ) / 2 ^ 32 - 1 < (v : ℚ)
      ∧ (v : ℚ) ≤ (x : ℚ) * 50000000 / (c : ℚ)
      ∧ v ≤ x * 50000000 / c
      ∧ x * 50000000 / c < v + x / 2 ^ 32 + 2 := by
  have hc0 : 0 < c := by omega
  obtain ⟨s, ret, hset, hf, -⟩ := rtc_set_cyc_per_sec_constants s0 c hc0 hc2
  obtain ⟨f1, f2, f3⟩ := hf hc
  have hq : 50000000 * 2 ^ 32 / c < 2 ^ 32 := by
    rw [Nat.div_lt_iff_lt_mul hc0]
    omega
  have hconv := tsc_to_nanoseconds_fast s x hx f3
  rw [f2, f1, u32_of_lt hq] at hconv
  obtain ⟨b1, b2⟩ := fast_scale_bounds c x hc0
  have hcq : (0 : ℚ) < (c : ℚ) := by exact_mod_cast hc0
  have h2 : (0 : ℚ) < 2 ^ 32 := by norm_num
  refine ⟨s, ret, _, hset, hconv, ?_, ?_, ?_, ?_⟩
  · have key : (x : ℚ) * 50000000 * 2 ^ 32
        < (((x * (50000000 * 2 ^ 32 / c) / 2 ^ 32 : Nat) : ℚ) + 1) * 2 ^ 32 * (c : ℚ)
          + (x : ℚ) * (c : ℚ) := by
      exact_mod_cast b2
    rw [sub_lt_iff_lt_add, sub_lt_iff_lt_add, div_lt_iff₀ hcq]
    have e : (((x * (50000000 * 2 ^ 32 / c) / 2 ^ 32 : Nat) : ℚ) + 1 + (x : ℚ) / 2 ^ 32)
          * (c : ℚ)
        = ((((x * (50000000 * 2 ^ 32 / c) / 2 ^ 32 : Nat) : ℚ) + 1) * 2 ^ 32 * (c : ℚ)
          + (x : ℚ) * (c : ℚ)) / 2 ^ 32 := by
      field_simp
      ring
    rw [e, lt_div_iff₀ h2]
    exact key
  · rw [le_div_iff₀ hcq]
    exact_mod_cast b1
  · rw [Nat.le_div_iff_mul_le hc0]
    exact b1
  · rw [Nat.div_lt_iff_lt_mul hc0]
    have hx2 : x < (x / 2 ^ 32 + 1) * 2 ^ 32 := by omega
    have h3 : x * c < (x / 2 ^ 32 + 1) * 2 ^ 32 * c := Nat.mul_lt_mul_of_pos_right hx2 hc0
    generalize x * (50000000 * 2 ^ 32 / c) / 2 ^ 32 = v at b2
    generalize x / 2 ^ 32 = q at h3
    have h4 : x * 50000000 * 2 ^ 32 < (v + q + 2) * c * 2 ^ 32 := by
      calc x * 50000000 * 2 ^ 32 < (v + 1) * 2 ^ 32 * c + x * c := b2
        _ < (v + 1) * 2 ^ 32 * c + (q + 1) * 2 ^ 32 * c := Nat.add_lt_add_left h3 _
        _ = (v + q + 2) * c * 2 ^ 32 := by ring
    exact Nat.lt_of_mul_lt_mul_right h4

/-- C32 at 3 GHz (`c = 150,000,000`) for a delta of 7 cycles: the conversion gives 2 ns
where the true time is 7/3 ns. -/
theorem C32_fast_path_accuracy_witness :
    ((50000000 : Nat) < 150000000 ∧ (150000000 : Nat) < 2 ^ 32 ∧ (7 : Nat) < 2 ^ 64)
    ∧ ∃ s ret v, rtc_set_cyc_per_sec boot_state 150000000 = some (s, ret)
      ∧ tsc_to_nanoseconds s 7 = some v
      ∧ ((7 : Nat) : ℚ) * 50000000 / ((150000000 : Nat) : ℚ) - ((7 : Nat) : ℚ) / 2 ^ 32 - 1
        < (v : ℚ)
      ∧ (v : ℚ) ≤ ((7 : Nat) : ℚ) * 50000000 / ((150000000 : Nat) : ℚ)
      ∧ v ≤ 7 * 50000000 / 150000000
      ∧ 7 * 50000000 / 150000000 < v + 7 / 2 ^ 32 + 2 :=
  ⟨by decide, C32_fast_path_accuracy boot_state 150000000 7 (by decide) (by decide) (by decide)⟩


/-! ## Speed steps keep the boot calibration -/

theorem rtc_set_cyc_per_sec_frame (s sc : rtclock_state) (c ret : Nat)
    (h : rtc_set_cyc_per_sec s c = some (sc, ret)) :
    sc.rtc_cycle_count = s.rtc_cycle_count ∧ sc.rtc_boot_frequency = s.rtc_boot_frequency := by
  unfold rtc_set_cyc_per_sec at h
  rw [Option.bind_eq_some] at h
  obtain ⟨s1, h1, h2⟩ := h
  have e2 := (Prod.mk.inj (Option.some.inj h2)).1
  have e1 : s1.rtc_cycle_count = s.rtc_cycle_count
      ∧ s1.rtc_boot_frequency = s.rtc_boot_frequency := by
    split_ifs at h1
    · rw [Option.bind_eq_some] at h1
      obtain ⟨q, -, hq⟩ := h1
      rw [← Option.some.inj hq]
      exact ⟨rfl, rfl⟩
    · rw [Option.bind_eq_some] at h1
      obtain ⟨q, -, hq⟩ := h1
      rw [← Option.some.inj hq]
      exact ⟨rfl, rfl⟩
  rw [← e2]
  exact e1

theorem rtc_set_cyc_per_sec_indep (a b sa sb : rtclock_state) (c ra rb : Nat)
    (ha : rtc_set_cyc_per_sec a c = some (sa, ra))
    (hb : rtc_set_cyc_per_sec b c = some (sb, rb)) :
    sa.rtc_quant_scale = sb.rtc_quant_scale ∧ sa.rtc_quant_shift = sb.rtc_quant_shift
    ∧ sa.rtclock.timebase_const = sb.rtclock.timebase_const := by
  unfold rtc_set_cyc_per_sec at ha hb
  rw [Option.bind_eq_some] at ha hb
  obtain ⟨a1, ha1, ha2⟩ := ha
  obtain ⟨b1, hb1, hb2⟩ := hb
  have ea := (Prod.mk.inj (Option.some.inj ha2)).1
  have eb := (Prod.mk.inj (Option.some.inj hb2)).1
  have e1 : a1.rtc_quant_scale = b1.rtc_quant_scale ∧ a1.rtc_quant_shift = b1.rtc_quant_shift
      ∧ a1.rtclock.timebase_const = b1.rtclock.timebase_const := by
    by_cases hc : c > NSEC_PER_SEC / 20
    · rw [if_pos hc, Option.bind_eq_some] at ha1 hb1
      obtain ⟨qa, hqa, ea1⟩ := ha1
      obtain ⟨qb, hqb, eb1⟩ := hb1
      rw [hqa] at hqb
      have hq := Option.some.inj hqb
      subst hq
      rw [← Option.some.inj ea1, ← Option.some.inj eb1]
      exact ⟨rfl, rfl, rfl⟩
    · rw [if_neg hc, Option.bind_eq_some] at ha1 hb1
      obtain ⟨qa, hqa, ea1⟩ := ha1
      obtain ⟨qb, hqb, eb1⟩ := hb1
      rw [hqa] at hqb
      have hq := Option.some.inj hqb
      subst hq
      rw [← Option.some.inj ea1, ← Option.some.inj eb1]
      exact ⟨rfl, rfl, rfl⟩
  rw [← ea, ← eb]
  exact e1

theorem rtc_nanotime_scale_update_frame (s s1 : rtclock_state) (tsc : Nat)
    (h : rtc_nanotime_scale_update s tsc = some s1) :
    s1.rtc_cycle_count = s.rtc_cycle_count ∧ s1.rtc_boot_frequency = s.rtc_boot_frequency
    ∧ s1.rtc_quant_scale = s.rtc_quant_scale ∧ s1.rtc_quant_shift = s.rtc_quant_shift
    ∧ s1.rtclock = s.rtclock := by
  simp only [rtc_nanotime_scale_update, _rtc_nanotime_update, Option.bind_eq_bind,
    Option.pure_def, Option.bind_eq_some, Option.some.injEq] at h
  obtain ⟨s2, ⟨ns, _, rfl⟩, rfl⟩ := h
  unfold rtc_nanotime_set_commpage
  split_ifs
  · exact ⟨rfl, rfl, rfl, rfl, rfl⟩
  · exact ⟨rfl, rfl, rfl, rfl, rfl⟩

theorem rtc_set_cyc_per_sec_returns (a b sa : rtclock_state) (c ra : Nat)
    (ha : rtc_set_cyc_per_sec a c = some (sa, ra)) :
    ∃ sb rb, rtc_set_cyc_per_sec b c = some (sb, rb) := by
  unfold rtc_set_cyc_per_sec at ha
  rw [Option.bind_eq_some] at ha
  obtain ⟨a1, ha1, -⟩ := ha
  unfold rtc_set_cyc_per_sec
  by_cases hc : c > NSEC_PER_SEC / 20
  · rw [if_pos hc, Option.bind_eq_some] at ha1
    obtain ⟨q, hq, -⟩ := ha1
    rw [if_pos hc, hq]
    exact ⟨_, _, rfl⟩
  · rw [if_neg hc, Option.bind_eq_some] at ha1
    obtain ⟨q, hq, -⟩ := ha1
    rw [if_neg hc, hq]
    exact ⟨_, _, rfl⟩

theorem rtc_clock_stepped_step (s s1 : rtclock_state) (nf f tsc : Nat)
    (h : rtc_clock_stepped s nf f tsc = some s1) :
    s1.rtc_cycle_count = s.rtc_cycle_count
    ∧ s1.rtc_boot_frequency ≠ 0
    ∧ (s.rtc_boot_frequency = 0 → s1.rtc_boot_frequency = u32 f)
    ∧ (s.rtc_boot_frequency ≠ 0 → s1.rtc_boot_frequency = s.rtc_boot_frequency)
    ∧ ∃ sc ret,
        rtc_set_cyc_per_sec s (u64 (s.rtc_cycle_count * u32 nf) / s1.rtc_boot_frequency)
          = some (sc, ret)
        ∧ s1.rtc_quant_scale = sc.rtc_quant_scale
        ∧ s1.rtc_quant_shift = sc.rtc_quant_shift
        ∧ s1.rtclock.timebase_const = sc.rtclock.timebase_const := by
  unfold rtc_clock_stepped at h
  simp only [] at h
  generalize hsb : (if s.rtc_boot_frequency = 0
    then { s with rtc_boot_frequency := u32 f } else s) = sb at h
  have hcc : sb.rtc_cycle_count = s.rtc_cycle_count := by
    rw [← hsb]
    split_ifs <;> rfl
  have hbf0 : s.rtc_boot_frequency = 0 → sb.rtc_boot_frequency = u32 f := by
    intro h0
    rw [← hsb, if_pos h0]
  have hbf1 : s.rtc_boot_frequency ≠ 0 → sb.rtc_boot_frequency = s.rtc_boot_frequency := by
    intro h0
    rw [← hsb, if_neg h0]
  by_cases hb : sb.rtc_boot_frequency = 0
  · rw [if_pos hb] at h
    exact absurd h (by simp)
  · rw [if_neg hb, Option.bind_eq_some] at h
    obtain ⟨r, hr, hup⟩ := h
    obtain ⟨u1, u2, u3, u4, u5⟩ := rtc_nanotime_scale_update_frame r.1 s1 tsc hup
    obtain ⟨c1, c2⟩ := rtc_set_cyc_per_sec_frame sb r.1 _ r.2 hr
    have hbf : s1.rtc_boot_frequency = sb.rtc_boot_frequency := by rw [u2, c2]
    obtain ⟨sc, ret, hsc⟩ := rtc_set_cyc_per_sec_returns sb s r.1 _ r.2 hr
    obtain ⟨i1, i2, i3⟩ := rtc_set_cyc_per_sec_indep sb s r.1 sc _ r.2 ret hr hsc
    refine ⟨by rw [u1, c1, hcc], by rw [hbf]; exact hb, fun h0 => by rw [hbf]; exact hbf0 h0,
      fun h0 => by rw [hbf]; exact hbf1 h0, sc, ret, ?_, by rw [u3, i1], by rw [u4, i2],
      by rw [u5, i3]⟩
    rw [hbf, ← hcc]
    exact hsc

theorem rtc_clock_stepped_seq_frame (steps : List (Nat × Nat × Nat)) :
    ∀ s s1 : rtclock_state, s.rtc_boot_frequency ≠ 0 →
      rtc_clock_stepped_seq s steps = some s1 →
      s1.rtc_boot_frequency = s.rtc_boot_frequency
      ∧ s1.rtc_cycle_count = s.rtc_cycle_count := by
  induction steps with
  | nil =>
    intro s s1 _ h
    have e : s = s1 := Option.some.inj h
    rw [e]
    exact ⟨rfl, rfl⟩
  | cons step steps ih =>
    intro s s1 hb h
    have h2 : (rtc_clock_stepped s step.1 step.2.1 step.2.2).bind
        (fun s2 => rtc_clock_stepped_seq s2 steps) = some s1 := h
    rw [Option.bind_eq_some] at h2
    obtain ⟨s2, hs2, hrest⟩ := h2
    obtain ⟨a1, a2, -, a4, -⟩ := rtc_clock_stepped_step s s2 _ _ _ hs2
    obtain ⟨b1, b2⟩ := ih s2 s1 a2 hrest
    exact ⟨by rw [b1, a4 hb], by rw [b2, a1]⟩

/-- C33: (1) a `rtc_clock_stepped(new, old)` that returns leaves `rtc_cycle_count` as it
was and `rtc_boot_frequency` non-zero: equal to `old` if it was 0 before, unchanged
otherwise; and the `rtc_quant_scale`, `rtc_quant_shift` and timebase constants it leaves
are those `rtc_set_cyc_per_sec` computes from
`rtc_cycle_count * new / rtc_boot_frequency`.  (2) After a first step that finds
`rtc_boot_frequency = 0`, any further sequence of steps leaves `rtc_boot_frequency = old`
and `rtc_cycle_count` unchanged.  (3) With `rtc_boot_frequency` set and
`rtc_cycle_count * rtc_boot_frequency` fitting 64 bits, a step to the boot frequency
leaves exactly the constants `rtc_set_cyc_per_sec(rtc_cycle_count)` computes, from
whatever state calibration ran in.  (4) That step returns whenever calibration did and
the conversion of the cycles since the last step with those constants does. -/
theorem C33_speed_step_round_trip :
    (∀ (s s1 : rtclock_state) (nf f tsc : Nat), rtc_clock_stepped s nf f tsc = some s1 →
      s1.rtc_cycle_count = s.rtc_cycle_count
      ∧ s1.rtc_boot_frequency ≠ 0
      ∧ (s.rtc_boot_frequency = 0 → s1.rtc_boot_frequency = u32 f)
      ∧ (s.rtc_boot_frequency ≠ 0 → s1.rtc_boot_frequency = s.rtc_boot_frequency)
      ∧ ∃ sc ret,
          rtc_set_cyc_per_sec s (u64 (s.rtc_cycle_count * u32 nf) / s1.rtc_boot_frequency)
            = some (sc, ret)
          ∧ s1.rtc_quant_scale = sc.rtc_quant_scale
          ∧ s1.rtc_quant_shift = sc.rtc_quant_shift
          ∧ s1.rtclock.timebase_const = sc.rtclock.timebase_const)
    ∧ (∀ (s s1 s2 : rtclock_state) (nf f tsc : Nat) (steps : List (Nat × Nat × Nat)),
      s.rtc_boot_frequency = 0 →
      rtc_clock_stepped s nf f tsc = some s1 →
      rtc_clock_stepped_seq s1 steps = some s2 →
      s2.rtc_boot_frequency = u32 f ∧ u32 f ≠ 0 ∧ s2.rtc_cycle_count = s.rtc_cycle_count)
    ∧ (∀ (s s0 scal s1 : rtclock_state) (rcal nf f tsc : Nat),
      s.rtc_boot_frequency ≠ 0 →
      u32 nf = s.rtc_boot_frequency →
      s.rtc_cycle_count * s.rtc_boot_frequency < 2 ^ 64 →
      rtc_set_cyc_per_sec s0 s.rtc_cycle_count = some (scal, rcal) →
      rtc_clock_stepped s nf f tsc = some s1 →
      s1.rtc_quant_scale = scal.rtc_quant_scale
      ∧ s1.rtc_quant_shift = scal.rtc_quant_shift
      ∧ s1.rtclock.timebase_const = scal.rtclock.timebase_const)
    ∧ (∀ (s s0 scal : rtclock_state) (rcal nf f tsc ns : Nat),
      s.rtc_boot_frequency ≠ 0 →
      u32 nf = s.rtc_boot_frequency →
      s.rtc_cycle_count * s.rtc_boot_frequency < 2 ^ 64 →
      rtc_set_cyc_per_sec s0 s.rtc_cycle_count = some (scal, rcal) →
      tsc_to_nanoseconds scal (sub64 tsc s.cpu.cpu_rtc_nanotime.rnt_step_tsc) = some ns →
      ∃ s1, rtc_clock_stepped s nf f tsc = some s1) := by
  have hcyc : ∀ (s : rtclock_state) (nf : Nat), s.rtc_boot_frequency ≠ 0 →
      u32 nf = s.rtc_boot_frequency →
      s.rtc_cycle_count * s.rtc_boot_frequency < 2 ^ 64 →
      u64 (s.rtc_cycle_count * u32 nf) / s.rtc_boot_frequency = s.rtc_cycle_count := by
    intro s nf hb hnf hfit
    rw [hnf, u64_of_lt hfit]
    exact Nat.mul_div_cancel _ (Nat.pos_of_ne_zero hb)
  refine ⟨fun s s1 nf f tsc h => rtc_clock_stepped_step s s1 nf f tsc h, ?_, ?_, ?_⟩
  · intro s s1 s2 nf f tsc steps h0 h1 h2
    obtain ⟨a1, a2, a3, -, -⟩ := rtc_clock_stepped_step s s1 nf f tsc h1
    obtain ⟨b1, b2⟩ := rtc_clock_stepped_seq_frame steps s1 s2 a2 h2
    have e := a3 h0
    exact ⟨by rw [b1, e], by rw [← e]; exact a2, by rw [b2, a1]⟩
  · intro s s0 scal s1 rcal nf f tsc hb hnf hfit hcal h
    obtain ⟨-, -, -, a4, sc, ret, hsc, c1, c2, c3⟩ := rtc_clock_stepped_step s s1 nf f tsc h
    rw [a4 hb, hcyc s nf hb hnf hfit] at hsc
    obtain ⟨i1, i2, i3⟩ := rtc_set_cyc_per_sec_indep s s0 sc scal _ ret rcal hsc hcal
    exact ⟨by rw [c1, i1], by rw [c2, i2], by rw [c3, i3]⟩
  · intro s s0 scal rcal nf f tsc ns hb hnf hfit hcal hns
    obtain ⟨sc, ret, hsc⟩ := rtc_set_cyc_per_sec_returns s0 s scal _ rcal hcal
    obtain ⟨-, -, i3⟩ := rtc_set_cyc_per_sec_indep s s0 sc scal _ ret rcal hsc hcal
    have hcpu := rtc_set_cyc_per_sec_cpu s sc _ ret hsc
    have hns2 : tsc_to_nanoseconds sc (sub64 tsc sc.cpu.cpu_rtc_nanotime.rnt_step_tsc)
        = some ns := by
      rw [hcpu, tsc_to_nanoseconds_congr sc scal _ i3]
      exact hns
    obtain ⟨s1, hs1⟩ := rtc_nanotime_scale_update_some sc tsc ns hns2
    refine ⟨s1, ?_⟩
    unfold rtc_clock_stepped
    simp only []
    rw [if_neg hb, if_neg hb, hcyc s nf hb hnf hfit, hsc, Option.some_bind]
    exact hs1

/-- C33 on the 2 GHz example (`rtc_cycle_count = 100,000,000`): a first step to half
speed records the boot frequency 2000, and the step back to 2000 reinstalls the constants
calibration computes from 100,000,000 cycles: scale `2^31`, shift 32, denom `0xFFFFFFFF`. -/
theorem C33_speed_step_round_trip_witness :
    (example_step_state.rtc_boot_frequency = 0
      ∧ rtc_clock_stepped example_step_state 1000 2000 4000000000
        = some example_half_speed_state
      ∧ rtc_clock_stepped_seq example_half_speed_state [(2000, 1000, 8000000000)]
        = some example_round_trip_state
      ∧ example_half_speed_state.rtc_boot_frequency ≠ 0
      ∧ u32 2000 = example_half_speed_state.rtc_boot_frequency
      ∧ example_half_speed_state.rtc_cycle_count * example_half_speed_state.rtc_boot_frequency
        < 2 ^ 64
      ∧ rtc_set_cyc_per_sec boot_state example_half_speed_state.rtc_cycle_count
        = some (example_calibrated.1, example_calibrated.2)
      ∧ rtc_clock_stepped example_half_speed_state 2000 1000 8000000000
        = some example_round_trip_state
      ∧ example_calibrated.1.rtc_quant_scale = 2147483648)
    ∧ (example_round_trip_state.rtc_boot_frequency = u32 2000 ∧ u32 2000 ≠ 0
      ∧ example_round_trip_state.rtc_cycle_count = example_step_state.rtc_cycle_count)
    ∧ (example_round_trip_state.rtc_quant_scale = example_calibrated.1.rtc_quant_scale
      ∧ example_round_trip_state.rtc_quant_shift = example_calibrated.1.rtc_quant_shift
      ∧ example_round_trip_state.rtclock.timebase_const
        = example_calibrated.1.rtclock.timebase_const) :=
  ⟨by decide,
    C33_speed_step_round_trip.2.1 example_step_state example_half_speed_state
      example_round_trip_state 1000 2000 4000000000 [(2000, 1000, 8000000000)]
      (by decide) (by decide) (by decide),
    C33_speed_step_round_trip.2.2.1 example_half_speed_state boot_state example_calibrated.1
      example_round_trip_state example_calibrated.2 2000 1000 8000000000
      (by decide) (by decide) (by decide) (by decide) (by decide)⟩

end Rtclock
